import Mathlib

/-!
# CCL background evolution: a shallow embedding of `ccl_background.c`

The C functions of `src/src/ccl_background.c` are translated one by one, and
with them the back-fill of the non-linear scale in `ccl_halofit_struct_new`
(`src/src/ccl_halofit.c`).

* A C `double` argument is an element of an ordered field `α` (the claims are
  stated over the reals); a `double` result that the code can set to the `NAN`
  constant is a `CDouble α`.
* The C mathematical library (`sqrt`, `pow`, `exp`, ...) is a record `libm α`;
  `libm_real` is its meaning over the reals.
* `int *status` is threaded explicitly: a function takes the status on entry
  and returns the status on exit next to its result.
* Calls into GSL and into the parts of CCL that are not in this file
  (`ccl_Omeganuh2`, the spacing helpers, the message sink) are fields of `Env`.
* Reading through a NULL interpolant pointer or outside an array has no
  defined result: such a run is `none`.  So is a run that computes with local
  variables that were never assigned, releases an interpolant twice or releases
  a pointer that was never assigned.  Memory that is released once is not
  tracked.
-/

namespace CCL

set_option linter.unusedSectionVars false

/-! ## Data model -/

/-- Result of a C expression of type `double` that may be the constant `NAN`. -/
inductive CDouble (α : Type) where
  | NaN : CDouble α
  | val (x : α) : CDouble α

namespace CDouble

variable {α : Type}

/-- Apply a unary operation; `NAN` propagates. -/
def map (f : α → α) : CDouble α → CDouble α
  | NaN => NaN
  | val x => val (f x)

/-- Apply a binary operation; `NAN` propagates from either operand. -/
def map₂ (f : α → α → α) : CDouble α → CDouble α → CDouble α
  | val x, val y => val (f x y)
  | _, _ => NaN

instance [Add α] : Add (CDouble α) := ⟨map₂ (· + ·)⟩
instance [Mul α] : Mul (CDouble α) := ⟨map₂ (· * ·)⟩
instance [Div α] : Div (CDouble α) := ⟨map₂ (· / ·)⟩

end CDouble

/-- The functions of the C mathematical library used by the code. -/
structure libm (α : Type) where
  sqrt : α → α
  pow : α → α → α
  exp : α → α
  sin : α → α
  sinh : α → α
  log10 : α → α

/-- The C mathematical library over the real numbers. -/
noncomputable def libm_real : libm ℝ where
  sqrt := Real.sqrt
  pow := fun x y => x ^ y
  exp := Real.exp
  sin := Real.sin
  sinh := Real.sinh
  log10 := fun x => Real.log x / Real.log 10

/-- Modelled from the spec: the header `ccl_error.h` with the status codes is
not among the sources.  The spec names the error kinds as distinct failures;
the values are those of the CCL header, and the development only uses that
they are non-zero and pairwise distinct. -/
def CCL_ERROR_MEMORY : Int := 1025
/-- Modelled from the spec: see `CCL_ERROR_MEMORY`. -/
def CCL_ERROR_LINSPACE : Int := 1026
/-- Modelled from the spec: see `CCL_ERROR_MEMORY`. -/
def CCL_ERROR_SPLINE : Int := 1028
/-- Modelled from the spec: see `CCL_ERROR_MEMORY`. -/
def CCL_ERROR_INTEG : Int := 1030
/-- Modelled from the spec: see `CCL_ERROR_MEMORY`. -/
def CCL_ERROR_ROOT : Int := 1031
/-- Modelled from the spec: see `CCL_ERROR_MEMORY`. -/
def CCL_ERROR_COMPUTECHI : Int := 1033
/-- Modelled from the spec: see `CCL_ERROR_MEMORY`. -/
def CCL_ERROR_PARAMETERS : Int := 1036
/-- Modelled from the spec: see `CCL_ERROR_MEMORY`. -/
def CCL_ERROR_NOT_IMPLEMENTED : Int := 1040

/-- GSL status codes (`gsl_errno.h`). -/
def GSL_SUCCESS : Int := 0
/-- GSL status code of an iteration that has not converged yet. -/
def GSL_CONTINUE : Int := -2

/-- Modelled from the spec: the declaration of the enumeration is not among the
sources.  The seven labels are those the spec lists and `ccl_omega_x` switches
on; `unsupported code` is any other integer passed in place of a label. -/
inductive ccl_species_x_label where
  | ccl_species_crit_label
  | ccl_species_m_label
  | ccl_species_l_label
  | ccl_species_g_label
  | ccl_species_k_label
  | ccl_species_ur_label
  | ccl_species_nu_label
  | unsupported (code : Int)

open ccl_species_x_label

/-- Modelled from the spec: the declaration of the parameter structure is not
among the sources.  The fields are those the background code reads from
`cosmo->params`; `N_nu_mass` is the number of massive neutrino species, which
the spec calls a count, hence an integer; the other numeric fields are
doubles. -/
structure ccl_parameters (α : Type) where
  Omega_m : α
  Omega_l : α
  Omega_k : α
  Omega_g : α
  Omega_n_rel : α
  w0 : α
  wa : α
  h : α
  T_CMB : α
  N_nu_mass : Int
  mnu : List α
  k_sign : Int
  sqrtk : α
  has_mgrowth : Bool
  nz_mgrowth : Int
  z_mgrowth : List α
  df_mgrowth : List α

/-- Tunables of the numerical routines (`cosmo->gsl_params`). -/
structure ccl_gsl_params (α : Type) where
  EPS_SCALEFAC_GROWTH : α
  ODE_GROWTH_EPSREL : α
  INTEGRATION_DISTANCE_EPSREL : α
  ROOT_EPSREL : α
  N_ITERATION : Int
  ROOT_N_ITERATION : Int

/-- Description of the scale-factor grid (`cosmo->spline_params`). -/
structure ccl_spline_params (α : Type) where
  A_SPLINE_MINLOG : α
  A_SPLINE_MIN : α
  A_SPLINE_MAX : α
  A_SPLINE_NLOG : Int
  A_SPLINE_NA : Int

/-- An interpolant: the abscissae and ordinates it was initialised with. -/
structure gsl_spline (α : Type) where
  x : List α
  y : List (CDouble α)

/-- An interpolation accelerator; its lookup scratch state is not modelled. -/
structure gsl_interp_accel where
  mk ::

/-- The background cache (`cosmo->data`); `none` is a NULL pointer. -/
structure ccl_data (α : Type) where
  accelerator : Option gsl_interp_accel
  accelerator_achi : Option gsl_interp_accel
  E : Option (gsl_spline α)
  chi : Option (gsl_spline α)
  achi : Option (gsl_spline α)
  growth : Option (gsl_spline α)
  fgrowth : Option (gsl_spline α)
  growth0 : α

/-- The cosmology object. -/
structure ccl_cosmology (α : Type) where
  params : ccl_parameters α
  gsl_params : ccl_gsl_params α
  spline_params : ccl_spline_params α
  data : ccl_data α
  computed_distances : Bool
  computed_growth : Bool
  status_message : String

/-- State of the derivative-based root solver: current root, residual and
derivative there. -/
structure gsl_root_fdfsolver (α : Type) where
  root : α
  f : α
  df : α

/-- Physical constants (`ccl_constants`). -/
structure ccl_physical_constants (α : Type) where
  RHO_CRITICAL : α
  CLIGHT_HMPC : α

/-- The collaborators of the background code: GSL and the CCL functions
defined outside `ccl_background.c`.  Every field is the input-output behaviour
of one external call. -/
structure Env (α : Type) where
  /-- the constants table -/
  ccl_constants : ccl_physical_constants α
  /-- value returned by `ccl_Omeganuh2(a, N_nu_mass, mnu, T_CMB, ...)` -/
  ccl_Omeganuh2 : α → Int → List α → α → α
  /-- status left by `ccl_Omeganuh2`, from the status on entry -/
  ccl_Omeganuh2_status : α → Int → List α → α → Int → Int
  /-- `ccl_linlog_spacing(xminlog, xmin, xmax, Nlog, Nlin)`; `none` is NULL -/
  ccl_linlog_spacing : α → α → α → Int → Int → Option (List α)
  /-- `ccl_linear_spacing(xmin, xmax, N)`; `none` is NULL -/
  ccl_linear_spacing : α → α → Int → Option (List α)
  /-- whether the allocation at a call site, of a number of doubles, succeeds -/
  malloc : Nat → Int → Bool
  /-- status of `gsl_spline_init(spline, xa, ya, size)` -/
  gsl_spline_init : List α → List (CDouble α) → Int → Int
  /-- `gsl_spline_eval_e(spline, x, acc, &y)`: status and the value left in `y` -/
  gsl_spline_eval_e : gsl_spline α → α → Int × CDouble α
  /-- `gsl_integration_cquad(F, a, b, epsabs, epsrel, ...)` for an integrand that
  reads and writes the status: GSL status, result, status on exit -/
  gsl_integration_cquad :
    (α → Int → CDouble α × Int) → α → α → α → α → Int → Int × α × Int
  /-- `gsl_odeiv2_driver_apply` for a system `rhs`, initial step, `epsabs`,
  `epsrel`, start, end and initial state: GSL status and final state -/
  gsl_odeiv2_driver_apply :
    (α → α × α → (α × CDouble α) × Int) → α → α → α → α → α → α × α → Int × (α × α)
  /-- `gsl_root_fdfsolver_set(s, fdf, root)`: solver state and status on exit -/
  gsl_root_fdfsolver_set :
    (α → Int → (α × α) × Int) → α → Int → gsl_root_fdfsolver α × Int
  /-- `gsl_root_fdfsolver_iterate(s)`: GSL status, solver state, status on exit -/
  gsl_root_fdfsolver_iterate :
    (α → Int → (α × α) × Int) → gsl_root_fdfsolver α → Int →
      Int × gsl_root_fdfsolver α × Int
  /-- `gsl_root_test_delta(x1, x0, epsabs, epsrel)` -/
  gsl_root_test_delta : α → α → α → α → Int
  /-- the `int` obtained when a function declared `int` executes `return NAN` -/
  NAN_as_int : Int
  /-- content of memory that has been allocated but not written yet -/
  indeterminate : α

variable {α : Type} [LinearOrderedField α]

/-- Modelled from the spec: `ccl_cosmology_set_status_message` is not among the
sources; the message sink records the diagnostic in the cosmology. -/
def ccl_cosmology_set_status_message (cosmo : ccl_cosmology α) (msg : String) :
    ccl_cosmology α :=
  { cosmo with status_message := msg }

/-- Modelled from the spec: `ccl_check_status` is not among the sources; it is
status plumbing that reports the diagnostic and hands the status back
unchanged. -/
def ccl_check_status (_cosmo : ccl_cosmology α) (status : Int) : Int := status

/-! ## Species density model -/

/-- `h_over_h0` (lines 18-48): E(a) and the status on exit. -/
def h_over_h0 (m : libm α) (env : Env α) (a : α) (cosmo : ccl_cosmology α)
    (status : Int) : α × Int :=
  let nu : α × Int :=
    if (cosmo.params.N_nu_mass : α) > 1e-12 then
      (env.ccl_Omeganuh2 a cosmo.params.N_nu_mass cosmo.params.mnu cosmo.params.T_CMB
          / cosmo.params.h / cosmo.params.h,
       ccl_check_status cosmo
        (env.ccl_Omeganuh2_status a cosmo.params.N_nu_mass cosmo.params.mnu
          cosmo.params.T_CMB status))
    else (0, status)
  (m.sqrt
    ((cosmo.params.Omega_m +
      cosmo.params.Omega_l * m.pow a (-3 * (cosmo.params.w0 + cosmo.params.wa)) *
        m.exp (3 * cosmo.params.wa * (a - 1)) +
      cosmo.params.Omega_k * a +
      (cosmo.params.Omega_g + cosmo.params.Omega_n_rel) / a +
      nu.1 * a * a * a) / (a * a * a)),
   nu.2)

/-- `ccl_omega_x` (lines 62-103): density fraction of a species at `a`, and
the status on exit.  The diagnostic recorded for an unsupported label is not
part of the result. -/
def ccl_omega_x (m : libm α) (env : Env α) (cosmo : ccl_cosmology α) (a : α)
    (label : ccl_species_x_label) (status : Int) : CDouble α × Int :=
  let nu : α × Int :=
    if (cosmo.params.N_nu_mass : α) > 0.0001 then
      (env.ccl_Omeganuh2 a cosmo.params.N_nu_mass cosmo.params.mnu cosmo.params.T_CMB,
       ccl_check_status cosmo
        (env.ccl_Omeganuh2_status a cosmo.params.N_nu_mass cosmo.params.mnu
          cosmo.params.T_CMB status))
    else (0, status)
  let OmNuh2 := nu.1
  let hn := h_over_h0 m env a cosmo nu.2
  let hnorm := hn.1
  match label with
  | ccl_species_crit_label => (.val 1, hn.2)
  | ccl_species_m_label =>
      (.val (cosmo.params.Omega_m / (a * a * a) / hnorm / hnorm), hn.2)
  | ccl_species_l_label =>
      (.val (cosmo.params.Omega_l *
          m.pow a (-3 * (1 + cosmo.params.w0 + cosmo.params.wa)) *
          m.exp (3 * cosmo.params.wa * (a - 1)) / hnorm / hnorm), hn.2)
  | ccl_species_g_label =>
      (.val (cosmo.params.Omega_g / (a * a * a * a) / hnorm / hnorm), hn.2)
  | ccl_species_k_label =>
      (.val (cosmo.params.Omega_k / (a * a) / hnorm / hnorm), hn.2)
  | ccl_species_ur_label =>
      (.val (cosmo.params.Omega_n_rel / (a * a * a * a) / hnorm / hnorm), hn.2)
  | ccl_species_nu_label =>
      (.val (OmNuh2 / cosmo.params.h / cosmo.params.h / hnorm / hnorm), hn.2)
  | unsupported _ => (.NaN, CCL_ERROR_PARAMETERS)

/-- `ccl_rho_x` (lines 117-132): density of a species at `a`, physical or
comoving, and the status on exit. -/
def ccl_rho_x (m : libm α) (env : Env α) (cosmo : ccl_cosmology α) (a : α)
    (label : ccl_species_x_label) (is_comoving : Int) (status : Int) :
    CDouble α × Int :=
  let comfac : α := if is_comoving ≠ 0 then a * a * a else 1
  let hn := h_over_h0 m env a cosmo status
  let hnorm := hn.1
  let rhocrit :=
    env.ccl_constants.RHO_CRITICAL * cosmo.params.h * cosmo.params.h *
      hnorm * hnorm * comfac
  let om := ccl_omega_x m env cosmo a label hn.2
  (CDouble.val rhocrit * om.1, om.2)

/-! ## Distance and growth engine -/

/-- Array read `xs[i]`; reading outside the array has no result. -/
def array_get {β : Type} (xs : List β) (i : Int) : Option β :=
  if i < 0 then none else xs[i.toNat]?

/-- The C conversion `(int) x` of a double: truncation toward zero. -/
def double_to_int [FloorRing α] (x : α) : Int :=
  if 0 ≤ x then ⌊x⌋ else ⌈x⌉

/-- `chi_integrand` (lines 144-150): integrand of the comoving distance. -/
def chi_integrand (m : libm α) (env : Env α) (cosmo : ccl_cosmology α) (a : α)
    (status : Int) : α × Int :=
  let hn := h_over_h0 m env a cosmo status
  (env.ccl_constants.CLIGHT_HMPC / (a * a * hn.1), hn.2)

/-- `growth_ode_system` (lines 156-168): right-hand side of the growth system
and its return value, the local status. -/
def growth_ode_system (m : libm α) (env : Env α) (cosmo : ccl_cosmology α) (a : α)
    (y : α × α) : (α × CDouble α) × Int :=
  let hn := h_over_h0 m env a cosmo 0
  let hnorm := hn.1
  let om := ccl_omega_x m env cosmo a ccl_species_m_label hn.2
  ((y.2 / (a * a * a * hnorm),
    CDouble.val (1.5 * hnorm * a) * om.1 * CDouble.val y.1), om.2)

/-- `df_integrand` (lines 174-183): integrand of the modified-growth
correction. -/
def df_integrand (env : Env α) (a : α) (df_a_spline : gsl_spline α) : CDouble α :=
  if a ≤ 0 then CDouble.val 0
  else (env.gsl_spline_eval_e df_a_spline a).2 / CDouble.val a

/-- `growth_factor_and_growth_rate` (lines 190-223).  `gf` and `fg` are the
contents of the two output cells on entry; the result is the return value,
the two cells and the status on exit. -/
def growth_factor_and_growth_rate (m : libm α) (env : Env α) (a : α) (gf fg : α)
    (cosmo : ccl_cosmology α) (stat : Int) : Int × α × α × Int :=
  if a < cosmo.gsl_params.EPS_SCALEFAC_GROWTH then (0, a, 1, stat)
  else
    let ainit := cosmo.gsl_params.EPS_SCALEFAC_GROWTH
    let h0 := h_over_h0 m env cosmo.gsl_params.EPS_SCALEFAC_GROWTH cosmo stat
    let y : α × α :=
      (cosmo.gsl_params.EPS_SCALEFAC_GROWTH,
       cosmo.gsl_params.EPS_SCALEFAC_GROWTH * cosmo.gsl_params.EPS_SCALEFAC_GROWTH *
        cosmo.gsl_params.EPS_SCALEFAC_GROWTH * h0.1)
    let d := env.gsl_odeiv2_driver_apply (growth_ode_system m env cosmo)
      (0.1 * cosmo.gsl_params.EPS_SCALEFAC_GROWTH) 0 cosmo.gsl_params.ODE_GROWTH_EPSREL
      ainit a y
    if d.1 ≠ GSL_SUCCESS then (env.NAN_as_int, gf, fg, h0.2)
    else
      let h1 := h_over_h0 m env a cosmo h0.2
      (0, d.2.1, d.2.2 / (a * a * h1.1 * d.2.1), h1.2)

/-- `compute_chi` (lines 231-254): the comoving distance at `a` and the status
on exit. -/
def compute_chi (m : libm α) (env : Env α) (a : α) (cosmo : ccl_cosmology α)
    (stat : Int) : α × Int :=
  let q := env.gsl_integration_cquad
    (fun x s => (CDouble.val (chi_integrand m env cosmo x s).1,
                 (chi_integrand m env cosmo x s).2))
    a 1 0 cosmo.gsl_params.INTEGRATION_DISTANCE_EPSREL stat
  (q.2.1 / cosmo.params.h,
   if q.1 ≠ GSL_SUCCESS then CCL_ERROR_COMPUTECHI else q.2.2)

/-- `fzero` (lines 264-272): residual of the inverse-distance problem. -/
def fzero (m : libm α) (env : Env α) (chi : α) (cosmo : ccl_cosmology α) (a : α)
    (status : Int) : α × Int :=
  let c := compute_chi m env a cosmo status
  (chi - c.1, c.2)

/-- `dfzero` (lines 274-284): derivative of the residual. -/
def dfzero (m : libm α) (env : Env α) (cosmo : ccl_cosmology α) (a : α)
    (status : Int) : α × Int :=
  let c := chi_integrand m env cosmo a status
  (c.1 / cosmo.params.h, c.2)

/-- `fdfzero` (lines 286-290): residual and derivative together. -/
def fdfzero (m : libm α) (env : Env α) (chi : α) (cosmo : ccl_cosmology α) (a : α)
    (status : Int) : (α × α) × Int :=
  let f := fzero m env chi cosmo a status
  let df := dfzero m env cosmo a f.2
  ((f.1, df.1), df.2)

/-- The `do ... while` loop of `a_of_chi` (lines 320-327), entered with the
counter `iter`, the solver `s`, the current iterate and the status.  Result:
the last convergence test, the counter, the last iterate and the status. -/
def a_of_chi_loop (env : Env α) (FDF : α → Int → (α × α) × Int)
    (cosmo : ccl_cosmology α) (iter : Int) (s : gsl_root_fdfsolver α) (a_current : α)
    (stat : Int) : Int × Int × α × Int :=
  let it := env.gsl_root_fdfsolver_iterate FDF s stat
  let a_previous := a_current
  let a_next := it.2.1.root
  let gslstatus := env.gsl_root_test_delta a_next a_previous 0 cosmo.gsl_params.ROOT_EPSREL
  if gslstatus = GSL_CONTINUE ∧ iter + 1 ≤ cosmo.gsl_params.ROOT_N_ITERATION then
    a_of_chi_loop env FDF cosmo (iter + 1) it.2.1 a_next it.2.2
  else (gslstatus, iter + 1, a_next, it.2.2)
termination_by (cosmo.gsl_params.ROOT_N_ITERATION - iter).toNat
decreasing_by omega

/-- `a_of_chi` (lines 300-340): the scale factor at comoving distance `chi`,
warm-started from `a_old`.  Result: the new `a_old` and the status on exit. -/
def a_of_chi (m : libm α) (env : Env α) (chi : α) (cosmo : ccl_cosmology α)
    (stat : Int) (a_old : α) : α × Int :=
  if chi = 0 then (1, stat)
  else
    let FDF := fdfzero m env chi cosmo
    let s := env.gsl_root_fdfsolver_set FDF a_old stat
    let r := a_of_chi_loop env FDF cosmo 0 s.1 a_old s.2
    (r.2.2.1, if r.1 = GSL_SUCCESS then r.2.2.2 else CCL_ERROR_COMPUTECHI)

/-! ## Distance table builder -/

/-- Local variables of `ccl_cosmology_compute_distances`.  `cosmo` is the
cosmology as written so far (only its message changes before the tables are
installed); `none` for an array is a NULL pointer. -/
structure distances_locals (α : Type) where
  cosmo : ccl_cosmology α
  status : Int
  na : Int
  a : Option (List α)
  E_a : Option (List α)
  chi_a : Option (List α)
  E : gsl_spline α
  chi : gsl_spline α
  achi : gsl_spline α
  chi0 : α
  chif : α
  a0 : α
  af : α

/-- Lines 360-379: the scale-factor grid, the two work arrays and the memory
check. -/
def distances_alloc (env : Env α) (cosmo : ccl_cosmology α) (status : Int) :
    distances_locals α :=
  let na := cosmo.spline_params.A_SPLINE_NA + cosmo.spline_params.A_SPLINE_NLOG - 1
  let a := env.ccl_linlog_spacing cosmo.spline_params.A_SPLINE_MINLOG
    cosmo.spline_params.A_SPLINE_MIN cosmo.spline_params.A_SPLINE_MAX
    cosmo.spline_params.A_SPLINE_NLOG cosmo.spline_params.A_SPLINE_NA
  let E_a : Option (List α) :=
    if env.malloc 0 na then some (List.replicate na.toNat env.indeterminate) else none
  let chi_a : Option (List α) :=
    if env.malloc 1 na then some (List.replicate na.toNat env.indeterminate) else none
  let failed := a.isNone || E_a.isNone || chi_a.isNone
  { cosmo := if failed then
      ccl_cosmology_set_status_message cosmo
        "ccl_background.c: ccl_cosmology_compute_distances(): ran out of memory\n"
      else cosmo
    status := if failed then CCL_ERROR_MEMORY else status
    na := na, a := a, E_a := E_a, chi_a := chi_a
    E := ⟨[], []⟩, chi := ⟨[], []⟩, achi := ⟨[], []⟩
    chi0 := env.indeterminate, chif := env.indeterminate
    a0 := env.indeterminate, af := env.indeterminate }

/-- Lines 381-389: the grid must start and end at the configured bounds. -/
def distances_check_grid (L : distances_locals α) : Option (distances_locals α) :=
  if L.status ≠ 0 then some L
  else
    L.a.bind fun a => (array_get a 0).bind fun a_first =>
    (array_get a (L.na - 1)).bind fun a_last =>
    if |a_first - L.cosmo.spline_params.A_SPLINE_MINLOG| > 1e-5 ∨
       |a_last - L.cosmo.spline_params.A_SPLINE_MAX| > 1e-5 ∨ a_last > 1 then
      some { L with
        status := CCL_ERROR_LINSPACE
        cosmo := ccl_cosmology_set_status_message L.cosmo
          "ccl_background.c: ccl_cosmology_compute_distances(): Error creating first logarithmic and then linear spacing in a\n" }
    else some L

/-- Lines 391-394: `E_a[i] = h_over_h0(a[i], cosmo, status)` for `i < na`. -/
def distances_fill_E (m : libm α) (env : Env α) (L : distances_locals α) :
    Option (distances_locals α) :=
  if L.status ≠ 0 then some L
  else
    L.a.bind fun a =>
    ((List.range L.na.toNat).foldlM
      (fun (acc : List α × Int) i =>
        (a[i]?).map fun ai =>
          (acc.1 ++ [(h_over_h0 m env ai L.cosmo acc.2).1],
           (h_over_h0 m env ai L.cosmo acc.2).2))
      ([], L.status)).map fun r => { L with E_a := some r.1, status := r.2 }

/-- Lines 396-402: the E(a) interpolant. -/
def distances_init_E (env : Env α) (L : distances_locals α) :
    Option (distances_locals α) :=
  if L.status ≠ 0 then some L
  else
    L.a.bind fun a => L.E_a.map fun E_a =>
    if env.gsl_spline_init a (E_a.map CDouble.val) L.na ≠ 0 then
      { L with
        status := CCL_ERROR_SPLINE
        cosmo := ccl_cosmology_set_status_message L.cosmo
          "ccl_background.c: ccl_cosmology_compute_distances(): Error creating  E(a) spline\n" }
    else { L with E := ⟨a.take L.na.toNat, E_a.map CDouble.val⟩ }

/-- Lines 404-412: `compute_chi(a[i], cosmo, &chi_a[i], status)` for `i < na`;
a non-zero status after the loop becomes the integration error. -/
def distances_fill_chi (m : libm α) (env : Env α) (L : distances_locals α) :
    Option (distances_locals α) :=
  if L.status ≠ 0 then some L
  else
    L.a.bind fun a =>
    ((List.range L.na.toNat).foldlM
      (fun (acc : List α × Int) i =>
        (a[i]?).map fun ai =>
          (acc.1 ++ [(compute_chi m env ai L.cosmo acc.2).1],
           (compute_chi m env ai L.cosmo acc.2).2))
      ([], L.status)).map fun r =>
        if r.2 ≠ 0 then
          { L with
            chi_a := some r.1
            status := CCL_ERROR_INTEG
            cosmo := ccl_cosmology_set_status_message L.cosmo
              "ccl_background.c: ccl_cosmology_compute_distances(): chi(a) integration error \n" }
        else { L with chi_a := some r.1, status := r.2 }

/-- Lines 414-420: the chi(a) interpolant. -/
def distances_init_chi (env : Env α) (L : distances_locals α) :
    Option (distances_locals α) :=
  if L.status ≠ 0 then some L
  else
    L.a.bind fun a => L.chi_a.map fun chi_a =>
    if env.gsl_spline_init a (chi_a.map CDouble.val) L.na ≠ 0 then
      { L with
        status := CCL_ERROR_SPLINE
        cosmo := ccl_cosmology_set_status_message L.cosmo
          "ccl_background.c: ccl_cosmology_compute_distances(): Error creating  chi(a) spline\n" }
    else { L with chi := ⟨a.take L.na.toNat, chi_a.map CDouble.val⟩ }

/-- Lines 427-435: boundaries of the a(chi) table. -/
def distances_boundaries (L : distances_locals α) : Option (distances_locals α) :=
  if L.status ≠ 0 then some L
  else
    L.a.bind fun a => L.chi_a.bind fun chi_a =>
    (array_get chi_a (L.na - 1)).bind fun chi0 => (array_get chi_a 0).bind fun chif =>
    (array_get a (L.na - 1)).bind fun a0 => (array_get a 0).map fun af =>
    { L with chi0 := chi0, chif := chif, a0 := a0, af := af }

/-- Lines 422-467.  When the status is non-zero at line 422 (the entry status
or a failure of the forward stage) the code
releases `E` and `chi` (lines 422-425) and does not return: it computes the
size `na` from `dchi`, `chi0` and `chif`, which are assigned only on status 0
(lines 429-435), and on its way out (lines 495-499) releases `E` and `chi` a
second time and `achi`, which was never assigned.  Such a run has no defined
result.  On status 0: size and allocation of the chi grid, memory and spacing
checks. -/
def distances_alloc_inverse [FloorRing α] (env : Env α) (L : distances_locals α) :
    Option (distances_locals α) :=
  if L.status ≠ 0 then none
  else
    let dchi : α := 5
    let na := double_to_int ((L.chif - L.chi0) / dchi)
    let chi_a := env.ccl_linear_spacing L.chi0 L.chif na
    let a : Option (List α) :=
      if env.malloc 2 na then some (List.replicate na.toNat env.indeterminate) else none
    if a.isNone || chi_a.isNone then
      some { L with
        na := na, a := a, chi_a := chi_a
        status := CCL_ERROR_MEMORY
        cosmo := ccl_cosmology_set_status_message L.cosmo
          "ccl_background.c: ccl_cosmology_compute_distances(): ran out of memory\n" }
    else
      chi_a.bind fun c => (array_get c 0).bind fun c_first =>
      (array_get c (na - 1)).map fun c_last =>
      if |c_first - L.chi0| > 1e-5 ∨ |c_last - L.chif| > 1e-5 then
        { L with
          na := na, a := a, chi_a := chi_a
          status := CCL_ERROR_LINSPACE
          cosmo := ccl_cosmology_set_status_message L.cosmo
            "ccl_background.c: ccl_cosmology_compute_distances(): Error creating linear spacing in chi\n" }
      else { L with na := na, a := a, chi_a := chi_a }

/-- Lines 469-482: `a[0] = a0`, `a[na-1] = af`, and for `0 < i < na-1` the
inverse solve at `chi_a[i]`, warm-started from the previous solution; a
non-zero status after the loop becomes the root-finding error. -/
def distances_solve_inverse (m : libm α) (env : Env α) (L : distances_locals α) :
    Option (distances_locals α) :=
  if L.status ≠ 0 then some L
  else
    L.a.bind fun a => L.chi_a.bind fun chi_a =>
    if L.na ≤ 0 then none
    else
      ((List.range (L.na.toNat - 2)).foldlM
        (fun (acc : List α × α × Int) k =>
          (chi_a[k + 1]?).map fun c =>
            ((acc.1.set (k + 1) (a_of_chi m env c L.cosmo acc.2.2 acc.2.1).1),
             (a_of_chi m env c L.cosmo acc.2.2 acc.2.1).1,
             (a_of_chi m env c L.cosmo acc.2.2 acc.2.1).2))
        ((a.set 0 L.a0).set (L.na.toNat - 1) L.af, L.a0, L.status)).map fun r =>
          if r.2.2 ≠ 0 then
            { L with
              a := some r.1, a0 := r.2.1
              status := CCL_ERROR_ROOT
              cosmo := ccl_cosmology_set_status_message L.cosmo
                "ccl_background.c: ccl_cosmology_compute_distances(): a(chi) root-finding error \n" }
          else { L with a := some r.1, a0 := r.2.1, status := r.2.2 }

/-- Lines 484-490: the a(chi) interpolant. -/
def distances_init_achi (env : Env α) (L : distances_locals α) :
    Option (distances_locals α) :=
  if L.status ≠ 0 then some L
  else
    L.a.bind fun a => L.chi_a.map fun chi_a =>
    if env.gsl_spline_init chi_a (a.map CDouble.val) L.na ≠ 0 then
      { L with
        status := CCL_ERROR_SPLINE
        cosmo := ccl_cosmology_set_status_message L.cosmo
          "ccl_background.c: ccl_cosmology_compute_distances(): Error creating  a(chi) spline\n" }
    else { L with achi := ⟨chi_a.take L.na.toNat, a.map CDouble.val⟩ }

/-- Lines 492-508.  This step is reached only when the forward stage ended
with status 0 (see `distances_alloc_inverse`), so `achi` is allocated and on a
non-zero status each of the three interpolants is released once: the code
returns without touching the cache.  Otherwise it attaches the three
interpolants and sets the flag. -/
def distances_install (L : distances_locals α) : ccl_cosmology α × Int :=
  if L.status ≠ 0 then (L.cosmo, L.status)
  else
    ({ L.cosmo with
       data := { L.cosmo.data with
         accelerator :=
           if L.cosmo.data.accelerator.isNone then some gsl_interp_accel.mk
           else L.cosmo.data.accelerator
         E := some L.E
         chi := some L.chi
         achi := some L.achi }
       computed_distances := true }, L.status)

/-- `ccl_cosmology_compute_distances` (lines 347-509): the cosmology and the
status on exit. -/
def ccl_cosmology_compute_distances [FloorRing α] (m : libm α) (env : Env α)
    (cosmo : ccl_cosmology α) (status : Int) : Option (ccl_cosmology α × Int) :=
  if cosmo.computed_distances then some (cosmo, status)
  else if cosmo.spline_params.A_SPLINE_MAX > 1 then
    some (ccl_cosmology_set_status_message cosmo
      "ccl_background.c: scale factor cannot be larger than 1.\n", CCL_ERROR_COMPUTECHI)
  else
    (((((((((distances_check_grid (distances_alloc env cosmo status)).bind
      (distances_fill_E m env)).bind
      (distances_init_E env)).bind
      (distances_fill_chi m env)).bind
      (distances_init_chi env)).bind
      distances_boundaries).bind
      (distances_alloc_inverse env)).bind
      (distances_solve_inverse m env)).bind
      (distances_init_achi env)).map distances_install

/-! ## Growth table builder -/

/-- Lines 575-588: the modified-growth correction resampled at the grid point
`a_i`; the result is the status accumulated so far and the value stored in
`df_arr[i]`. -/
def growth_resample_df (env : Env α) (cosmo : ccl_cosmology α)
    (df_z_spline : gsl_spline α) (chistatus : Int) (a_i : α) : Option (Int × CDouble α) :=
  if a_i > 0 then
    let z := 1 / a_i - 1
    (array_get cosmo.params.z_mgrowth 0).bind fun z_first =>
    if z ≤ z_first then
      (array_get cosmo.params.df_mgrowth 0).map fun d => (chistatus, CDouble.val d)
    else
      (array_get cosmo.params.z_mgrowth (cosmo.params.nz_mgrowth - 1)).bind fun z_last =>
      if z > z_last then
        (array_get cosmo.params.df_mgrowth (cosmo.params.nz_mgrowth - 1)).map fun d =>
          (chistatus, CDouble.val d)
      else
        some (Int.lor chistatus (env.gsl_spline_eval_e df_z_spline z).1,
              (env.gsl_spline_eval_e df_z_spline z).2)
  else some (chistatus, CDouble.val 0)

/-- Lines 554-614: the modified-growth interpolant over the scale-factor grid.
The result is either an early return (message and status) or the
interpolant `df_a_spline`. -/
def growth_mgrowth_spline (env : Env α) (cosmo : ccl_cosmology α) (a : List α)
    (na : Int) : Option ((String × Int) ⊕ gsl_spline α) :=
  if env.malloc 3 na = false then
    some (.inl ("ccl_background.c: ccl_cosmology_compute_distances(): ran out of memory\n",
      CCL_ERROR_MEMORY))
  else if env.gsl_spline_init cosmo.params.z_mgrowth
      (cosmo.params.df_mgrowth.map CDouble.val) cosmo.params.nz_mgrowth ≠ 0 then
    some (.inl ("ccl_background.c: ccl_cosmology_compute_growth(): Error creating Delta f(z) spline\n",
      CCL_ERROR_SPLINE))
  else
    let df_z_spline : gsl_spline α :=
      ⟨cosmo.params.z_mgrowth.take cosmo.params.nz_mgrowth.toNat,
       (cosmo.params.df_mgrowth.map CDouble.val).take cosmo.params.nz_mgrowth.toNat⟩
    ((List.range na.toNat).foldlM
      (fun (acc : List (CDouble α) × Int) i =>
        (a[i]?).bind fun ai =>
          (growth_resample_df env cosmo df_z_spline acc.2 ai).map fun r =>
            (acc.1 ++ [r.2], r.1))
      ([], env.gsl_spline_init cosmo.params.z_mgrowth
        (cosmo.params.df_mgrowth.map CDouble.val) cosmo.params.nz_mgrowth)).map fun r =>
      if r.2 ≠ 0 then
        .inl ("ccl_background.c: ccl_cosmology_compute_growth(): Error evaluating Delta f(z) spline\n",
          CCL_ERROR_SPLINE)
      else if env.gsl_spline_init a r.1 na ≠ 0 then
        .inl ("ccl_background.c: ccl_cosmology_compute_growth(): Error creating Delta f(a) spline\n",
          CCL_ERROR_SPLINE)
      else .inr ⟨a.take na.toNat, r.1⟩

/-- Accumulators of the loop of lines 637-659: the tables `y` and `y2` filled
so far, `chistatus`, `status_mg` and the status. -/
structure growth_loop_state (α : Type) where
  y : List α
  y2 : List (CDouble α)
  chistatus : Int
  status_mg : Int
  status : Int

/-- One iteration of the loop of lines 637-659, at the grid point `a_i`. -/
def growth_loop_body (m : libm α) (env : Env α) (cosmo : ccl_cosmology α)
    (df_a_spline : Option (gsl_spline α)) (growth0 : α) (a_i : α)
    (st : growth_loop_state α) : Option (growth_loop_state α) :=
  let g := growth_factor_and_growth_rate m env a_i env.indeterminate env.indeterminate
    cosmo st.status
  let chistatus := Int.lor st.chistatus g.1
  if cosmo.params.has_mgrowth ∧ a_i > 0 then
    df_a_spline.map fun sp =>
      let e := env.gsl_spline_eval_e sp a_i
      let status_mg1 := if e.1 ≠ GSL_SUCCESS then Int.lor st.status_mg e.1 else st.status_mg
      let q := env.gsl_integration_cquad (fun x s => (df_integrand env x sp, s)) a_i 1 0
        cosmo.gsl_params.INTEGRATION_DISTANCE_EPSREL g.2.2.2
      let status_mg2 := if q.1 ≠ GSL_SUCCESS then Int.lor status_mg1 q.1 else status_mg1
      { y := st.y ++ [g.2.1 * m.exp (-q.2.1) / growth0]
        y2 := st.y2 ++ [CDouble.val g.2.2.1 + e.2]
        chistatus := chistatus, status_mg := status_mg2, status := g.2.2.2 }
  else
    some { y := st.y ++ [g.2.1 / growth0]
           y2 := st.y2 ++ [CDouble.val g.2.2.1]
           chistatus := chistatus, status_mg := st.status_mg, status := g.2.2.2 }

/-- Lines 660-718: after the loop, either return on a failure or build the
two interpolants and attach them, with `growth0`, to the cosmology. -/
def growth_finish (env : Env α) (cosmo : ccl_cosmology α) (a : List α) (na : Int)
    (growth0 : α) (st : growth_loop_state α) : ccl_cosmology α × Int :=
  if st.chistatus ≠ 0 ∨ st.status_mg ≠ 0 ∨ st.status ≠ 0 then
    let r1 : ccl_cosmology α × Int :=
      if st.chistatus ≠ 0 then
        (ccl_cosmology_set_status_message cosmo
          "ccl_background.c: ccl_cosmology_compute_growth(): integral for linear growth factor didn't converge\n",
         CCL_ERROR_INTEG)
      else (cosmo, st.status)
    if st.status_mg ≠ 0 then
      (ccl_cosmology_set_status_message r1.1
        "ccl_background.c: ccl_cosmology_compute_growth(): integral for MG growth factor didn't converge\n",
       CCL_ERROR_INTEG)
    else r1
  else if env.gsl_spline_init a (st.y.map CDouble.val) na ≠ 0 then
    (ccl_cosmology_set_status_message cosmo
      "ccl_background.c: ccl_cosmology_compute_growth(): Error creating D(a) spline\n",
     CCL_ERROR_SPLINE)
  else if env.gsl_spline_init a st.y2 na ≠ 0 then
    (ccl_cosmology_set_status_message cosmo
      "ccl_background.c: ccl_cosmology_compute_growth(): Error creating f(a) spline\n",
     CCL_ERROR_SPLINE)
  else
    ({ cosmo with
       data := { cosmo.data with
         accelerator :=
           if cosmo.data.accelerator.isNone then some gsl_interp_accel.mk
           else cosmo.data.accelerator
         growth := some ⟨a.take na.toNat, st.y.map CDouble.val⟩
         fgrowth := some ⟨a.take na.toNat, st.y2⟩
         growth0 := growth0 }
       computed_growth := true }, st.status)

/-- Lines 616-718: the work arrays, the growth at `a = 1`, the loop over the
grid and the final step. -/
def growth_tables (m : libm α) (env : Env α) (cosmo : ccl_cosmology α) (a : List α)
    (na : Int) (df_a_spline : Option (gsl_spline α)) (status : Int) :
    Option (ccl_cosmology α × Int) :=
  if env.malloc 4 na = false then
    some (ccl_cosmology_set_status_message cosmo
      "ccl_background.c: ccl_cosmology_compute_distances(): ran out of memory\n",
      CCL_ERROR_MEMORY)
  else if env.malloc 5 na = false then
    some (ccl_cosmology_set_status_message cosmo
      "ccl_background.c: ccl_cosmology_compute_distances(): ran out of memory\n",
      CCL_ERROR_MEMORY)
  else
    let g := growth_factor_and_growth_rate m env 1 env.indeterminate env.indeterminate
      cosmo status
    let growth0 := g.2.1
    ((List.range na.toNat).foldlM
      (fun (st : growth_loop_state α) i =>
        (a[i]?).bind fun ai => growth_loop_body m env cosmo df_a_spline growth0 ai st)
      { y := [], y2 := [], chistatus := Int.lor 0 g.1, status_mg := 0,
        status := g.2.2.2 }).map
      (growth_finish env cosmo a na growth0)

/-- `ccl_cosmology_compute_growth` (lines 518-725): the cosmology and the
status on exit. -/
def ccl_cosmology_compute_growth (m : libm α) (env : Env α) (cosmo : ccl_cosmology α)
    (status : Int) : Option (ccl_cosmology α × Int) :=
  if cosmo.params.N_nu_mass > 0 then
    some (ccl_cosmology_set_status_message cosmo
      "ccl_background.c: ccl_cosmology_compute_growth(): Support for the growth rate in cosmologies with massive neutrinos is not yet implemented.\n",
      CCL_ERROR_NOT_IMPLEMENTED)
  else if cosmo.computed_growth then some (cosmo, status)
  else
    let na := cosmo.spline_params.A_SPLINE_NA + cosmo.spline_params.A_SPLINE_NLOG - 1
    match env.ccl_linlog_spacing cosmo.spline_params.A_SPLINE_MINLOG
        cosmo.spline_params.A_SPLINE_MIN cosmo.spline_params.A_SPLINE_MAX
        cosmo.spline_params.A_SPLINE_NLOG cosmo.spline_params.A_SPLINE_NA with
    | none =>
      some (ccl_cosmology_set_status_message cosmo
        "ccl_background.c: ccl_cosmology_compute_growth(): Error creating logarithmically and then linear spacing in a\n",
        CCL_ERROR_LINSPACE)
    | some a =>
      (array_get a 0).bind fun a_first => (array_get a (na - 1)).bind fun a_last =>
      if |a_first - cosmo.spline_params.A_SPLINE_MINLOG| > 1e-5 ∨
         |a_last - cosmo.spline_params.A_SPLINE_MAX| > 1e-5 ∨ a_last > 1 then
        some (ccl_cosmology_set_status_message cosmo
          "ccl_background.c: ccl_cosmology_compute_growth(): Error creating logarithmically and then linear spacing in a\n",
          CCL_ERROR_LINSPACE)
      else if cosmo.params.has_mgrowth then
        (growth_mgrowth_spline env cosmo a na).bind fun r =>
          match r with
          | .inl e => some (ccl_cosmology_set_status_message cosmo e.1, e.2)
          | .inr sp => growth_tables m env cosmo a na (some sp) status
      else growth_tables m env cosmo a na none status

/-! ## Query layer

A query returns its value, the cosmology and the status on exit; `none` is a
run that evaluates a NULL interpolant or reads outside an array. -/

/-- The lazy build of the distance tables at the head of a query:
`if (!cosmo->computed_distances)` build and check the status. -/
def ensure_distances [FloorRing α] (m : libm α) (env : Env α) (cosmo : ccl_cosmology α)
    (status : Int) : Option (ccl_cosmology α × Int) :=
  if cosmo.computed_distances = false then
    (ccl_cosmology_compute_distances m env cosmo status).map fun r =>
      (r.1, ccl_check_status r.1 r.2)
  else some (cosmo, status)

/-- The lazy build of the growth tables at the head of a query:
`if (!cosmo->computed_growth)` build and check the status. -/
def ensure_growth (m : libm α) (env : Env α) (cosmo : ccl_cosmology α)
    (status : Int) : Option (ccl_cosmology α × Int) :=
  if cosmo.computed_growth = false then
    (ccl_cosmology_compute_growth m env cosmo status).map fun r =>
      (r.1, ccl_check_status r.1 r.2)
  else some (cosmo, status)

/-- `ccl_h_over_h0` (lines 729-747). -/
def ccl_h_over_h0 [FloorRing α] (m : libm α) (env : Env α) (cosmo : ccl_cosmology α)
    (a : α) (status : Int) : Option (CDouble α × ccl_cosmology α × Int) :=
  (ensure_distances m env cosmo status).bind fun b =>
  b.1.data.E.map fun E =>
  let r := env.gsl_spline_eval_e E a
  if r.1 ≠ GSL_SUCCESS then
    (CDouble.NaN,
     ccl_cosmology_set_status_message b.1
       "ccl_background.c: ccl_h_over_h0(): Scale factor outside interpolation range.\n",
     r.1)
  else (r.2, b.1, b.2)

/-- `ccl_comoving_radial_distance` (lines 762-790). -/
def ccl_comoving_radial_distance [FloorRing α] (m : libm α) (env : Env α)
    (cosmo : ccl_cosmology α) (a : α) (status : Int) :
    Option (CDouble α × ccl_cosmology α × Int) :=
  if a > 1 - 1e-8 ∧ a ≤ 1 then some (CDouble.val 0, cosmo, status)
  else if a > 1 then
    some (CDouble.NaN,
      ccl_cosmology_set_status_message cosmo
        "ccl_background.c: scale factor cannot be larger than 1.\n",
      ccl_check_status cosmo CCL_ERROR_COMPUTECHI)
  else
    (ensure_distances m env cosmo status).bind fun b =>
    b.1.data.chi.map fun chi =>
    let r := env.gsl_spline_eval_e chi a
    if r.1 ≠ GSL_SUCCESS then
      (CDouble.NaN,
       ccl_cosmology_set_status_message b.1
         "ccl_background.c: ccl_comoving_radial_distance(): Scale factor outside interpolation range.\n",
       r.1)
    else (r.2, b.1, b.2)

/-- `ccl_sinn` (lines 803-822). -/
def ccl_sinn (m : libm α) (cosmo : ccl_cosmology α) (chi : CDouble α) (status : Int) :
    CDouble α × ccl_cosmology α × Int :=
  if cosmo.params.k_sign = -1 then
    (chi.map fun c => m.sinh (cosmo.params.sqrtk * c) / cosmo.params.sqrtk, cosmo, status)
  else if cosmo.params.k_sign = 1 then
    (chi.map fun c => m.sin (cosmo.params.sqrtk * c) / cosmo.params.sqrtk, cosmo, status)
  else if cosmo.params.k_sign = 0 then (chi, cosmo, status)
  else
    (CDouble.NaN,
     ccl_cosmology_set_status_message cosmo
       "ccl_background.c: ccl_sinn: ill-defined cosmo->params.k_sign = %d",
     CCL_ERROR_PARAMETERS)

/-- `ccl_comoving_angular_distance` (lines 824-852). -/
def ccl_comoving_angular_distance [FloorRing α] (m : libm α) (env : Env α)
    (cosmo : ccl_cosmology α) (a : α) (status : Int) :
    Option (CDouble α × ccl_cosmology α × Int) :=
  if a > 1 - 1e-8 ∧ a ≤ 1 then some (CDouble.val 0, cosmo, status)
  else if a > 1 then
    some (CDouble.NaN,
      ccl_cosmology_set_status_message cosmo
        "ccl_background.c: scale factor cannot be larger than 1.\n",
      ccl_check_status cosmo CCL_ERROR_COMPUTECHI)
  else
    (ensure_distances m env cosmo status).bind fun b =>
    b.1.data.chi.map fun chi =>
    let r := env.gsl_spline_eval_e chi a
    if r.1 ≠ GSL_SUCCESS then
      (CDouble.NaN,
       ccl_cosmology_set_status_message b.1
         "ccl_background.c: ccl_comoving_angular_distance(): Scale factor outside interpolation range.\n",
       Int.lor b.2 r.1)
    else ccl_sinn m b.1 r.2 b.2

/-- `ccl_luminosity_distance` (lines 866-869). -/
def ccl_luminosity_distance [FloorRing α] (m : libm α) (env : Env α)
    (cosmo : ccl_cosmology α) (a : α) (status : Int) :
    Option (CDouble α × ccl_cosmology α × Int) :=
  (ccl_comoving_angular_distance m env cosmo a status).map fun r =>
    (r.1 / CDouble.val a, r.2.1, r.2.2)

/-- `ccl_distance_modulus` (lines 882-906). -/
def ccl_distance_modulus [FloorRing α] (m : libm α) (env : Env α)
    (cosmo : ccl_cosmology α) (a : α) (status : Int) :
    Option (CDouble α × ccl_cosmology α × Int) :=
  if a > 1 - 1e-8 ∧ a ≤ 1 then
    some (CDouble.NaN,
      ccl_cosmology_set_status_message cosmo
        "ccl_background.c: distance_modulus undefined for a=1.\n",
      ccl_check_status cosmo CCL_ERROR_COMPUTECHI)
  else if a > 1 then
    some (CDouble.NaN,
      ccl_cosmology_set_status_message cosmo
        "ccl_background.c: scale factor cannot be larger than 1.\n",
      ccl_check_status cosmo CCL_ERROR_COMPUTECHI)
  else
    (ensure_distances m env cosmo status).bind fun b =>
    (ccl_luminosity_distance m env b.1 a b.2).map fun r =>
      (r.1.map fun d => 5 * m.log10 d + 25, r.2.1, r.2.2)

/-- `ccl_scale_factor_of_chi` (lines 921-945). -/
def ccl_scale_factor_of_chi [FloorRing α] (m : libm α) (env : Env α)
    (cosmo : ccl_cosmology α) (chi : α) (status : Int) :
    Option (CDouble α × ccl_cosmology α × Int) :=
  if chi < 1e-8 ∧ chi ≥ 0 then some (CDouble.val 1, cosmo, status)
  else if chi < 0 then
    some (CDouble.NaN,
      ccl_cosmology_set_status_message cosmo
        "ccl_background.c: distance cannot be smaller than 0.\n",
      ccl_check_status cosmo CCL_ERROR_COMPUTECHI)
  else
    (ensure_distances m env cosmo status).bind fun b =>
    b.1.data.achi.map fun achi =>
    let r := env.gsl_spline_eval_e achi chi
    if r.1 ≠ GSL_SUCCESS then (r.2, b.1, Int.lor b.2 r.1)
    else (r.2, b.1, b.2)

/-- `ccl_growth_factor` (lines 959-990). -/
def ccl_growth_factor (m : libm α) (env : Env α) (cosmo : ccl_cosmology α) (a : α)
    (status : Int) : Option (CDouble α × ccl_cosmology α × Int) :=
  if a = 1 then some (CDouble.val 1, cosmo, status)
  else if a > 1 then
    some (CDouble.NaN,
      ccl_cosmology_set_status_message cosmo
        "ccl_background.c: scale factor cannot be larger than 1.\n",
      ccl_check_status cosmo CCL_ERROR_COMPUTECHI)
  else
    (ensure_growth m env cosmo status).bind fun b =>
    if b.2 ≠ CCL_ERROR_NOT_IMPLEMENTED then
      b.1.data.growth.map fun growth =>
      let r := env.gsl_spline_eval_e growth a
      if r.1 ≠ GSL_SUCCESS then
        (CDouble.NaN,
         ccl_cosmology_set_status_message b.1
           "ccl_background.c: ccl_growth_factor(): Scale factor outside interpolation range.\n",
         Int.lor b.2 r.1)
      else (r.2, b.1, b.2)
    else some (CDouble.NaN, b.1, b.2)

/-- `ccl_growth_factor_unnorm` (lines 1003-1016).  The factor `growth0` is
read before the call of `ccl_growth_factor`. -/
def ccl_growth_factor_unnorm (m : libm α) (env : Env α) (cosmo : ccl_cosmology α)
    (a : α) (status : Int) : Option (CDouble α × ccl_cosmology α × Int) :=
  (ensure_growth m env cosmo status).bind fun b =>
  if b.2 ≠ CCL_ERROR_NOT_IMPLEMENTED then
    (ccl_growth_factor m env b.1 a b.2).map fun r =>
      (CDouble.val b.1.data.growth0 * r.1, r.2.1, r.2.2)
  else some (CDouble.NaN, b.1, b.2)

/-- `ccl_growth_rate` (lines 1029-1055). -/
def ccl_growth_rate (m : libm α) (env : Env α) (cosmo : ccl_cosmology α) (a : α)
    (status : Int) : Option (CDouble α × ccl_cosmology α × Int) :=
  if a > 1 then
    some (CDouble.NaN,
      ccl_cosmology_set_status_message cosmo
        "ccl_background.c: scale factor cannot be larger than 1.\n",
      ccl_check_status cosmo CCL_ERROR_COMPUTECHI)
  else
    (ensure_growth m env cosmo status).bind fun b =>
    if b.2 ≠ CCL_ERROR_NOT_IMPLEMENTED then
      b.1.data.fgrowth.map fun fgrowth =>
      let r := env.gsl_spline_eval_e fgrowth a
      if r.1 ≠ GSL_SUCCESS then
        (CDouble.NaN,
         ccl_cosmology_set_status_message b.1
           "ccl_background.c: ccl_growth_rate(): Scale factor outside interpolation range.\n",
         Int.lor b.2 r.1)
      else (r.2, b.1, b.2)
    else some (CDouble.NaN, b.1, b.2)

/-! ## Vectorized queries -/

/-- The loop shared by the nine vectorized queries (for instance lines
750-759): for `i < na`, `_status = 0; output[i] = scalar(cosmo, a[i], &_status);
*status |= _status`.  Result: the output array, the cosmology and the status
on exit. -/
def vectorized_query
    (scalar : ccl_cosmology α → α → Int → Option (CDouble α × ccl_cosmology α × Int))
    (cosmo : ccl_cosmology α) (na : Int) (a : List α) (output : List (CDouble α))
    (status : Int) : Option (List (CDouble α) × ccl_cosmology α × Int) :=
  (List.range na.toNat).foldlM
    (fun (acc : List (CDouble α) × ccl_cosmology α × Int) i =>
      (a[i]?).bind fun ai =>
      (scalar acc.2.1 ai 0).bind fun r =>
      if i < acc.1.length then some (acc.1.set i r.1, r.2.1, Int.lor acc.2.2 r.2.2)
      else none)
    (output, cosmo, status)

/-- `ccl_h_over_h0s` (lines 750-759). -/
def ccl_h_over_h0s [FloorRing α] (m : libm α) (env : Env α) (cosmo : ccl_cosmology α)
    (na : Int) (a : List α) (output : List (CDouble α)) (status : Int) :
    Option (List (CDouble α) × ccl_cosmology α × Int) :=
  vectorized_query (ccl_h_over_h0 m env) cosmo na a output status

/-- `ccl_comoving_radial_distances` (lines 792-801). -/
def ccl_comoving_radial_distances [FloorRing α] (m : libm α) (env : Env α)
    (cosmo : ccl_cosmology α) (na : Int) (a : List α) (output : List (CDouble α))
    (status : Int) : Option (List (CDouble α) × ccl_cosmology α × Int) :=
  vectorized_query (ccl_comoving_radial_distance m env) cosmo na a output status

/-- `ccl_comoving_angular_distances` (lines 854-864). -/
def ccl_comoving_angular_distances [FloorRing α] (m : libm α) (env : Env α)
    (cosmo : ccl_cosmology α) (na : Int) (a : List α) (output : List (CDouble α))
    (status : Int) : Option (List (CDouble α) × ccl_cosmology α × Int) :=
  vectorized_query (ccl_comoving_angular_distance m env) cosmo na a output status

/-- `ccl_luminosity_distances` (lines 871-880). -/
def ccl_luminosity_distances [FloorRing α] (m : libm α) (env : Env α)
    (cosmo : ccl_cosmology α) (na : Int) (a : List α) (output : List (CDouble α))
    (status : Int) : Option (List (CDouble α) × ccl_cosmology α × Int) :=
  vectorized_query (ccl_luminosity_distance m env) cosmo na a output status

/-- `ccl_distance_moduli` (lines 909-918). -/
def ccl_distance_moduli [FloorRing α] (m : libm α) (env : Env α)
    (cosmo : ccl_cosmology α) (na : Int) (a : List α) (output : List (CDouble α))
    (status : Int) : Option (List (CDouble α) × ccl_cosmology α × Int) :=
  vectorized_query (ccl_distance_modulus m env) cosmo na a output status

/-- `ccl_scale_factor_of_chis` (lines 948-957). -/
def ccl_scale_factor_of_chis [FloorRing α] (m : libm α) (env : Env α)
    (cosmo : ccl_cosmology α) (nchi : Int) (chi : List α) (output : List (CDouble α))
    (status : Int) : Option (List (CDouble α) × ccl_cosmology α × Int) :=
  vectorized_query (ccl_scale_factor_of_chi m env) cosmo nchi chi output status

/-- `ccl_growth_factors` (lines 992-1001). -/
def ccl_growth_factors (m : libm α) (env : Env α) (cosmo : ccl_cosmology α)
    (na : Int) (a : List α) (output : List (CDouble α)) (status : Int) :
    Option (List (CDouble α) × ccl_cosmology α × Int) :=
  vectorized_query (ccl_growth_factor m env) cosmo na a output status

/-- `ccl_growth_factors_unnorm` (lines 1018-1027). -/
def ccl_growth_factors_unnorm (m : libm α) (env : Env α) (cosmo : ccl_cosmology α)
    (na : Int) (a : List α) (output : List (CDouble α)) (status : Int) :
    Option (List (CDouble α) × ccl_cosmology α × Int) :=
  vectorized_query (ccl_growth_factor_unnorm m env) cosmo na a output status

/-- `ccl_growth_rates` (lines 1057-1066). -/
def ccl_growth_rates (m : libm α) (env : Env α) (cosmo : ccl_cosmology α)
    (na : Int) (a : List α) (output : List (CDouble α)) (status : Int) :
    Option (List (CDouble α) × ccl_cosmology α × Int) :=
  vectorized_query (ccl_growth_rate m env) cosmo na a output status

/-! ## The spec's formulas -/

/-- The massive-neutrino term of the spec: `ccl_Omeganuh2(a, ...) / h^2` when
the massive-neutrino count exceeds `1e-12`, and `0` otherwise. -/
noncomputable def spec_Om_nu (env : Env ℝ) (cosmo : ccl_cosmology ℝ) (a : ℝ) : ℝ :=
  if (cosmo.params.N_nu_mass : ℝ) > 1e-12 then
    env.ccl_Omeganuh2 a cosmo.params.N_nu_mass cosmo.params.mnu cosmo.params.T_CMB
      / cosmo.params.h ^ 2
  else 0

/-- The expansion rate as the spec writes it: the square root of the sum of
the five density terms. -/
noncomputable def spec_E (env : Env ℝ) (cosmo : ccl_cosmology ℝ) (a : ℝ) : ℝ :=
  Real.sqrt
    (cosmo.params.Omega_m * a ^ (-3 : ℝ) +
     cosmo.params.Omega_l * a ^ (-3 * (1 + cosmo.params.w0 + cosmo.params.wa)) *
        Real.exp (3 * cosmo.params.wa * (a - 1)) +
     cosmo.params.Omega_k * a ^ (-2 : ℝ) +
     (cosmo.params.Omega_g + cosmo.params.Omega_n_rel) * a ^ (-4 : ℝ) +
     spec_Om_nu env cosmo a)

/-- The element-wise run the spec describes for a vectorized query: the
scalar query is applied to the elements in order, each started with status 0,
on the cosmology left by the previous one.  Result: value and status of each
element, and the final cosmology. -/
def scalar_sequence
    (scalar : ccl_cosmology α → α → Int → Option (CDouble α × ccl_cosmology α × Int)) :
    ccl_cosmology α → List α → Option (List (CDouble α × Int) × ccl_cosmology α)
  | cosmo, [] => some ([], cosmo)
  | cosmo, x :: xs =>
    (scalar cosmo x 0).bind fun r =>
    (scalar_sequence scalar r.2.1 xs).map fun t => ((r.1, r.2.2) :: t.1, t.2)

/-- The spec's contract of a vectorized query `vec` over the scalar query
`scalar`: on an input and an output array of the same length, the outputs
are the values of the element-wise run, the cosmology is the one it leaves,
and the status is the entry status OR'ed with every per-element status. -/
def elementwise_contract
    (vec : ccl_cosmology α → Int → List α → List (CDouble α) → Int →
      Option (List (CDouble α) × ccl_cosmology α × Int))
    (scalar : ccl_cosmology α → α → Int → Option (CDouble α × ccl_cosmology α × Int)) :
    Prop :=
  ∀ (cosmo : ccl_cosmology α) (a : List α) (output : List (CDouble α)) (status : Int),
    output.length = a.length →
    vec cosmo a.length a output status =
      (scalar_sequence scalar cosmo a).map fun t =>
        (t.1.map Prod.fst, t.2, (t.1.map Prod.snd).foldl Int.lor status)

/-! ## Example inputs -/

/-- Collaborators for the examples: no massive-neutrino density, the grid
helpers return NULL, every GSL call reports success. -/
def example_env : Env α where
  ccl_constants := ⟨2.775e11, 2997.92458⟩
  ccl_Omeganuh2 := fun _ _ _ _ => 0
  ccl_Omeganuh2_status := fun _ _ _ _ s => s
  ccl_linlog_spacing := fun _ _ _ _ _ => none
  ccl_linear_spacing := fun _ _ _ => none
  malloc := fun _ _ => true
  gsl_spline_init := fun _ _ _ => 0
  gsl_spline_eval_e := fun _ _ => (0, CDouble.val 0)
  gsl_integration_cquad := fun _ _ _ _ _ s => (0, 0, s)
  gsl_odeiv2_driver_apply := fun _ _ _ _ _ _ y => (0, y)
  gsl_root_fdfsolver_set := fun _ r s => (⟨r, 0, 0⟩, s)
  gsl_root_fdfsolver_iterate := fun _ st s => (0, st, s)
  gsl_root_test_delta := fun _ _ _ _ => 0
  NAN_as_int := -2147483648
  indeterminate := 0

/-- The flat LambdaCDM cosmology of scenario A, tables not built. -/
def flat_lcdm : ccl_cosmology α where
  params :=
    { Omega_m := 0.3, Omega_l := 0.7, Omega_k := 0, Omega_g := 0, Omega_n_rel := 0
      w0 := -1, wa := 0, h := 0.7, T_CMB := 2.725
      N_nu_mass := 0, mnu := [], k_sign := 0, sqrtk := 0
      has_mgrowth := false, nz_mgrowth := 0, z_mgrowth := [], df_mgrowth := [] }
  gsl_params :=
    { EPS_SCALEFAC_GROWTH := 1e-6, ODE_GROWTH_EPSREL := 1e-6
      INTEGRATION_DISTANCE_EPSREL := 1e-6, ROOT_EPSREL := 1e-6
      N_ITERATION := 1000, ROOT_N_ITERATION := 1000 }
  spline_params :=
    { A_SPLINE_MINLOG := 0.0001, A_SPLINE_MIN := 0.1, A_SPLINE_MAX := 1
      A_SPLINE_NLOG := 250, A_SPLINE_NA := 250 }
  data :=
    { accelerator := none, accelerator_achi := none
      E := none, chi := none, achi := none, growth := none, fgrowth := none
      growth0 := 0 }
  computed_distances := false
  computed_growth := false
  status_message := ""

/-- Scenario C: the flat cosmology with one massive neutrino species. -/
def massive_nu_cosmology : ccl_cosmology α :=
  { (flat_lcdm : ccl_cosmology α) with
    params := { (flat_lcdm : ccl_cosmology α).params with N_nu_mass := 1, mnu := [0.06] } }

/-- A configuration whose largest scale factor exceeds 1. -/
def bad_grid_cosmology : ccl_cosmology α :=
  { (flat_lcdm : ccl_cosmology α) with
    spline_params := { (flat_lcdm : ccl_cosmology α).spline_params with A_SPLINE_MAX := 1.5 } }

/-- A cosmology whose five tables are built: two-point interpolants over
`[0.1, 1]` and `[0, 5000]`. -/
def built_cosmology : ccl_cosmology α :=
  { (flat_lcdm : ccl_cosmology α) with
    data :=
      { accelerator := some gsl_interp_accel.mk, accelerator_achi := none
        E := some ⟨[0.1, 1], [CDouble.val 17.3, CDouble.val 1]⟩
        chi := some ⟨[0.1, 1], [CDouble.val 5000, CDouble.val 0]⟩
        achi := some ⟨[0, 5000], [CDouble.val 1, CDouble.val 0.1]⟩
        growth := some ⟨[0.1, 1], [CDouble.val 0.13, CDouble.val 1]⟩
        fgrowth := some ⟨[0.1, 1], [CDouble.val 1, CDouble.val 0.5]⟩
        growth0 := 0.78 }
    computed_distances := true
    computed_growth := true }

/-- Collaborators whose interpolant evaluation fails with the GSL code 4
(`GSL_EINVAL`) and leaves 0.0 in the output cell. -/
def failing_eval_env : Env α :=
  { (example_env : Env α) with gsl_spline_eval_e := fun _ _ => (4, CDouble.val 0) }

/-- What the queries leave when the scale factor exceeds 1: NaN, the
diagnostic and the status `CCL_ERROR_COMPUTECHI`. -/
def above_one_outcome (cosmo : ccl_cosmology α) : CDouble α × ccl_cosmology α × Int :=
  (CDouble.NaN,
   ccl_cosmology_set_status_message cosmo
     "ccl_background.c: scale factor cannot be larger than 1.\n",
   CCL_ERROR_COMPUTECHI)

/-- What the growth accessors leave when massive neutrinos are present: NaN,
the diagnostic of the refused build and `CCL_ERROR_NOT_IMPLEMENTED`. -/
def massive_nu_outcome (cosmo : ccl_cosmology α) : CDouble α × ccl_cosmology α × Int :=
  (CDouble.NaN,
   ccl_cosmology_set_status_message cosmo
     "ccl_background.c: ccl_cosmology_compute_growth(): Support for the growth rate in cosmologies with massive neutrinos is not yet implemented.\n",
   CCL_ERROR_NOT_IMPLEMENTED)

/-- The second cosmology is the first one except, at most, for the diagnostic
message. -/
def same_up_to_message (c c2 : ccl_cosmology α) : Prop :=
  c2 = { c with status_message := c2.status_message }

/-- Outcome of a growth build that started from `cosmo` and left `c` with
status `s`: a non-zero status leaves the cosmology as it was up to the
diagnostic; the flag turns true only together with status 0 and the two
interpolants; status 0 means the tables are built. -/
def growth_outcome (cosmo c : ccl_cosmology α) (s : Int) : Prop :=
  (s ≠ 0 → same_up_to_message cosmo c) ∧
  (cosmo.computed_growth = false → c.computed_growth = true →
    s = 0 ∧ ∃ g f, c.data.growth = some g ∧ c.data.fgrowth = some f) ∧
  (s = 0 → c.computed_growth = true ∧ c.params = cosmo.params)

/-- The number held by a `double` result; `NAN` counts as 0. -/
def CDouble.value (d : CDouble α) : α :=
  match d with
  | .NaN => 0
  | .val x => x

/-- Collaborators under which a build succeeds: a three-point scale-factor
grid, the uniform grid of `ccl_linear_spacing`, a quadrature that returns
`14 (b - a)`, and a root solver whose first convergence test succeeds. -/
def working_env : Env α :=
  { (example_env : Env α) with
    ccl_linlog_spacing := fun xminlog xmin xmax _ _ => some [xminlog, xmin, xmax]
    ccl_linear_spacing := fun xmin xmax N =>
      some ((List.range N.toNat).map fun i => xmin + (xmax - xmin) * (i : α) / ((N : α) - 1))
    gsl_integration_cquad := fun _ a b _ _ s => (0, 14 * (b - a), s) }

/-- The flat cosmology with a grid of two logarithmic and two linear points. -/
def small_grid_cosmology : ccl_cosmology α :=
  { (flat_lcdm : ccl_cosmology α) with
    spline_params :=
      { A_SPLINE_MINLOG := 0.0001, A_SPLINE_MIN := 0.1, A_SPLINE_MAX := 1
        A_SPLINE_NLOG := 2, A_SPLINE_NA := 2 } }

/-- A cosmology with a modified-growth table: Delta f = 0.1 at z = 0, 0.2 at
z = 5 and 0.3 at z = 20.  Of its grid points a = 0.0001, 0.1, 1 the first lies
beyond the table (z = 9999), the second inside it (z = 9) and the third on its
first point (z = 0). -/
def mgrowth_cosmology : ccl_cosmology α :=
  { (small_grid_cosmology : ccl_cosmology α) with
    params := { (small_grid_cosmology : ccl_cosmology α).params with
      has_mgrowth := true, nz_mgrowth := 3, z_mgrowth := [0, 5, 20]
      df_mgrowth := [0.1, 0.2, 0.3] } }

/-- Ordinate of the last tabulated point whose abscissa does not exceed `x`;
`cur` when there is none. -/
def step_lookup (x : α) : List α → List (CDouble α) → CDouble α → CDouble α
  | x0 :: xs, y0 :: ys, cur => if x0 ≤ x then step_lookup x xs ys y0 else cur
  | _, _, cur => cur

/-- Collaborators as in `working_env`, with an interpolant that evaluates to the
step function through its tabulated points and a quadrature that returns the
value of its integrand at the upper limit times the width of the interval. -/
def stepping_env : Env α :=
  { (working_env : Env α) with
    gsl_spline_eval_e := fun sp x =>
      (0, step_lookup x sp.x sp.y (sp.y.headD (CDouble.val 0)))
    gsl_integration_cquad := fun F a b _ _ s => (0, (F b s).1.value * (b - a), s) }

/-- An open cosmology (`k_sign = -1`) and a closed one (`k_sign = 1`) with
`sqrtk = 1/2`. -/
def curved_cosmology (k_sign : Int) : ccl_cosmology α :=
  { (flat_lcdm : ccl_cosmology α) with
    params := { (flat_lcdm : ccl_cosmology α).params with k_sign := k_sign, sqrtk := 1 / 2 } }

/-- The value the loop of lines 637-659 stores in `y[i]` for the grid point
`a_i`, when the status on entry of the iteration is `s`: the raw D, times
`exp(-integ)` when a modified-growth table is configured and `a_i > 0`,
divided by `growth0`. -/
def growth_row_D (m : libm α) (env : Env α) (cosmo : ccl_cosmology α)
    (df_a_spline : Option (gsl_spline α)) (growth0 : α) (s : Int) (a_i : α) : α :=
  match df_a_spline with
  | some sp =>
    if cosmo.params.has_mgrowth ∧ a_i > 0 then
      (growth_factor_and_growth_rate m env a_i env.indeterminate env.indeterminate cosmo s).2.1 *
        m.exp (-(env.gsl_integration_cquad (fun x t => (df_integrand env x sp, t)) a_i 1 0
          cosmo.gsl_params.INTEGRATION_DISTANCE_EPSREL
          (growth_factor_and_growth_rate m env a_i env.indeterminate env.indeterminate
            cosmo s).2.2.2).2.1) / growth0
    else
      (growth_factor_and_growth_rate m env a_i env.indeterminate env.indeterminate cosmo s).2.1
        / growth0
  | none =>
    (growth_factor_and_growth_rate m env a_i env.indeterminate env.indeterminate cosmo s).2.1
      / growth0

/-- The value the loop of lines 637-659 stores in `y2[i]` for the grid point
`a_i`: the raw f, plus the interpolated Delta f when a modified-growth table
is configured and `a_i > 0`. -/
def growth_row_f (m : libm α) (env : Env α) (cosmo : ccl_cosmology α)
    (df_a_spline : Option (gsl_spline α)) (s : Int) (a_i : α) : CDouble α :=
  match df_a_spline with
  | some sp =>
    if cosmo.params.has_mgrowth ∧ a_i > 0 then
      CDouble.val (growth_factor_and_growth_rate m env a_i env.indeterminate
        env.indeterminate cosmo s).2.2.1 + (env.gsl_spline_eval_e sp a_i).2
    else
      CDouble.val (growth_factor_and_growth_rate m env a_i env.indeterminate
        env.indeterminate cosmo s).2.2.1
  | none =>
    CDouble.val (growth_factor_and_growth_rate m env a_i env.indeterminate
      env.indeterminate cosmo s).2.2.1

/-- Collaborators under which the ODE driver never converges (GSL status -1,
state left as it was) on a platform whose conversion of NAN to `int` gives 0;
everything else succeeds as in `working_env`. -/
def failing_ode_env : Env α :=
  { (working_env : Env α) with
    gsl_odeiv2_driver_apply := fun _ _ _ _ _ _ y => (-1, y)
    NAN_as_int := 0 }

/-- Lines 447-448: the value assigned to `dchi` once the size of the chi grid
is known, `dchi = (chif-chi0)/na` with `na = (int)((chif-chi0)/5.)`; the
source annotates it `<=5, since na is an integer`. -/
def distances_dchi [FloorRing α] (chi0 chif : α) : α :=
  (chif - chi0) / (double_to_int ((chif - chi0) / 5) : α)

/-- The value of the counter `iter` when the `do ... while` loop of `a_of_chi`
(lines 320-327) is left: the number of solver iterations performed. -/
def a_of_chi_iterations (m : libm α) (env : Env α) (chi : α) (cosmo : ccl_cosmology α)
    (stat : Int) (a_old : α) : Int :=
  (a_of_chi_loop env (fdfzero m env chi cosmo) cosmo 0
    (env.gsl_root_fdfsolver_set (fdfzero m env chi cosmo) a_old stat).1 a_old
    (env.gsl_root_fdfsolver_set (fdfzero m env chi cosmo) a_old stat).2).2.1

/-- The value of `gslstatus`, the result of the last relative-step test, when
the loop of `a_of_chi` is left. -/
def a_of_chi_gslstatus (m : libm α) (env : Env α) (chi : α) (cosmo : ccl_cosmology α)
    (stat : Int) (a_old : α) : Int :=
  (a_of_chi_loop env (fdfzero m env chi cosmo) cosmo 0
    (env.gsl_root_fdfsolver_set (fdfzero m env chi cosmo) a_old stat).1 a_old
    (env.gsl_root_fdfsolver_set (fdfzero m env chi cosmo) a_old stat).2).1

/-- The value of `a_current`, the last iterate, when the loop of `a_of_chi` is
left. -/
def a_of_chi_last_iterate (m : libm α) (env : Env α) (chi : α) (cosmo : ccl_cosmology α)
    (stat : Int) (a_old : α) : α :=
  (a_of_chi_loop env (fdfzero m env chi cosmo) cosmo 0
    (env.gsl_root_fdfsolver_set (fdfzero m env chi cosmo) a_old stat).1 a_old
    (env.gsl_root_fdfsolver_set (fdfzero m env chi cosmo) a_old stat).2).2.2.1

/-- Collaborators whose relative-step test never reports convergence and whose
solver halves its root at every iteration. -/
def never_converging_env : Env α :=
  { (example_env : Env α) with
    gsl_root_fdfsolver_iterate := fun _ st s => (0, ⟨st.root / 2, st.f, st.df⟩, s)
    gsl_root_test_delta := fun _ _ _ _ => GSL_CONTINUE }

/-- The flat cosmology with an iteration limit of 2 for the root solver. -/
def two_iteration_cosmology : ccl_cosmology α :=
  { (flat_lcdm : ccl_cosmology α) with
    gsl_params := { (flat_lcdm : ccl_cosmology α).gsl_params with ROOT_N_ITERATION := 2 } }


/-- The collaborators do not clear the status: `int *status` is written by the
code and by `ccl_Omeganuh2` only to report an error, and GSL reaches it only
through the callbacks it is given.  A status that is non-zero on entry is
non-zero on exit of `ccl_Omeganuh2`, of a quadrature and of a root-solver call
whose callback has that property. -/
def errors_persist (env : Env α) : Prop :=
  (∀ a N mnu T s, s ≠ 0 → env.ccl_Omeganuh2_status a N mnu T s ≠ 0) ∧
  (∀ F a b e1 e2 s, (∀ x t, t ≠ 0 → (F x t).2 ≠ 0) → s ≠ 0 →
    (env.gsl_integration_cquad F a b e1 e2 s).2.2 ≠ 0) ∧
  (∀ FDF r s, (∀ x t, t ≠ 0 → (FDF x t).2 ≠ 0) → s ≠ 0 →
    (env.gsl_root_fdfsolver_set FDF r s).2 ≠ 0) ∧
  (∀ FDF st s, (∀ x t, t ≠ 0 → (FDF x t).2 ≠ 0) → s ≠ 0 →
    (env.gsl_root_fdfsolver_iterate FDF st s).2.2 ≠ 0)

/-- The part of `ccl_cosmology_compute_distances` that precedes the chi(a)
integration (lines 360-402): grid, work arrays, grid check, E(a) and its
interpolant. -/
def distances_before_chi (m : libm α) (env : Env α) (cosmo : ccl_cosmology α)
    (status : Int) : Option (distances_locals α) :=
  ((distances_check_grid (distances_alloc env cosmo status)).bind
    (distances_fill_E m env)).bind (distances_init_E env)

/-- The part of `ccl_cosmology_compute_distances` that precedes the inverse
solve (lines 360-467): the forward stage and the chi grid. -/
def distances_before_inverse [FloorRing α] (m : libm α) (env : Env α)
    (cosmo : ccl_cosmology α) (status : Int) : Option (distances_locals α) :=
  ((((distances_before_chi m env cosmo status).bind
    (distances_fill_chi m env)).bind
    (distances_init_chi env)).bind
    distances_boundaries).bind
    (distances_alloc_inverse env)

/-- The chi(a) loop (lines 405-406) after its first `n` passes: the values
stored so far and the status. -/
def chi_loop_state (m : libm α) (env : Env α) (L : distances_locals α) (a : List α)
    (n : Nat) : Option (List α × Int) :=
  (List.range n).foldlM
    (fun (acc : List α × Int) i =>
      (a[i]?).map fun ai =>
        (acc.1 ++ [(compute_chi m env ai L.cosmo acc.2).1],
         (compute_chi m env ai L.cosmo acc.2).2))
    ([], L.status)

/-- The loop of the inverse solve (lines 471-476) after its first `n` passes:
the array `a`, the warm start and the status. -/
def inverse_loop_state (m : libm α) (env : Env α) (L : distances_locals α)
    (a chi_a : List α) (n : Nat) : Option (List α × α × Int) :=
  (List.range n).foldlM
    (fun (acc : List α × α × Int) k =>
      (chi_a[k + 1]?).map fun c =>
        ((acc.1.set (k + 1) (a_of_chi m env c L.cosmo acc.2.2 acc.2.1).1),
         (a_of_chi m env c L.cosmo acc.2.2 acc.2.1).1,
         (a_of_chi m env c L.cosmo acc.2.2 acc.2.1).2))
    ((a.set 0 L.a0).set (L.na.toNat - 1) L.af, L.a0, L.status)

/-- Collaborators under which every quadrature fails (GSL status -1);
everything else as in `working_env`. -/
def failing_quadrature_env : Env α :=
  { (working_env : Env α) with gsl_integration_cquad := fun _ _ _ _ _ s => (-1, 0, s) }

/-- Collaborators under which the relative-step test of the root solver
reports a failure (GSL status -1); everything else as in `working_env`. -/
def failing_root_env : Env α :=
  { (working_env : Env α) with gsl_root_test_delta := fun _ _ _ _ => -1 }


/-- A loop `for (i = from; i < n; ++i) if (p(i)) { ...; break; }`: the index at
which it breaks, if it does.  The second argument is the number of indices
still to visit. -/
def first_index (p : Nat → Bool) : Nat → Nat → Option Nat
  | _, 0 => none
  | i, fuel + 1 => if p i then some i else first_index p (i + 1) fuel

/-- Lines 248-291 of `ccl_halofit.c`, in `ccl_halofit_struct_new`: the check of
the last entry of `vals` (the results of `get_rsigma`, -1 for a root that is
not bracketed) and the back-fill of the entries that are -1.  `a_vec` and
`vals` are the arrays of `n_a` doubles, `status` the status after the loop
over `get_rsigma`; the result is `vals` and the status on exit.  With
`n_a <= 0` or with fewer than `n_a` entries in an array the code reads outside
them, and the run has no result. -/
def halofit_backfill (a_vec vals : List α) (n_a : Int) (status : Int) :
    Option (List α × Int) :=
  if n_a ≤ 0 ∨ a_vec.length < n_a.toNat ∨ vals.length < n_a.toNat then none
  else
    let status1 := if vals.getD (n_a.toNat - 1) 0 = -1 then CCL_ERROR_ROOT else status
    if status1 = 0 then
      let first_valid := first_index (fun i => decide (vals.getD i 0 ≠ -1)) 1 (n_a.toNat - 1)
      let max_a : α := match first_valid with
        | some i => a_vec.getD i 0
        | none => -1
      let max_val : α := match first_valid with
        | some i => vals.getD i 0
        | none => -1
      let first_invalid := first_index (fun i => decide (vals.getD i 0 = -1)) 0 n_a.toNat
      let min_a : α := match first_invalid with
        | some i => a_vec.getD i 0
        | none => -1
      if min_a ≠ -1 then
        some ((List.range' 1 (n_a.toNat - 2)).foldl
          (fun v i =>
            if v.getD i 0 = -1 then
              v.set i ((a_vec.getD i 0 - min_a) / (max_a - min_a) * max_val +
                (1 - (a_vec.getD i 0 - min_a) / (max_a - min_a)) * v.getD 0 0)
            else v)
          (vals.set 0 1e-6), status1)
      else some (vals, status1)
    else some (vals, status1)


/-! ## Theorems: species density model -/

theorem rpow_neg_three {a : ℝ} (ha : 0 < a) : a ^ (-3 : ℝ) = 1 / (a * a * a) := by
  rw [Real.rpow_neg ha.le]
  have : a ^ (3 : ℝ) = a * a * a := by
    rw [show (3 : ℝ) = ((3 : ℕ) : ℝ) by norm_num, Real.rpow_natCast]; ring
  rw [this, one_div]

theorem rpow_neg_two {a : ℝ} (ha : 0 < a) : a ^ (-2 : ℝ) = 1 / (a * a) := by
  rw [Real.rpow_neg ha.le]
  have : a ^ (2 : ℝ) = a * a := by
    rw [show (2 : ℝ) = ((2 : ℕ) : ℝ) by norm_num, Real.rpow_natCast]; ring
  rw [this, one_div]

theorem rpow_neg_four {a : ℝ} (ha : 0 < a) : a ^ (-4 : ℝ) = 1 / (a * a * a * a) := by
  rw [Real.rpow_neg ha.le]
  have : a ^ (4 : ℝ) = a * a * a * a := by
    rw [show (4 : ℝ) = ((4 : ℕ) : ℝ) by norm_num, Real.rpow_natCast]; ring
  rw [this, one_div]

theorem rpow_dark_energy {a : ℝ} (ha : 0 < a) (w : ℝ) :
    a ^ (-3 * (1 + w)) = a ^ (-3 * w) / (a * a * a) := by
  rw [show -3 * (1 + w) = -3 * w + (-3 : ℝ) by ring, Real.rpow_add ha, rpow_neg_three ha]
  ring

/-- An integer count passes the test `> 1e-12` exactly when it is positive. -/
theorem count_gt_small (N : Int) : ((N : α) > 1e-12) ↔ 0 < N := by
  constructor
  · intro h
    by_contra hN
    have h1 : (N : α) ≤ 0 := by exact_mod_cast (not_lt.mp hN)
    have h2 : (0 : α) < 1e-12 := by norm_num
    exact absurd h (not_lt.mpr (h1.trans h2.le))
  · intro h
    have h1 : (1 : α) ≤ (N : α) := by exact_mod_cast h
    have h2 : (1e-12 : α) < 1 := by norm_num
    exact lt_of_lt_of_le h2 h1

/-- An integer count passes the test `> 0.0001` exactly when it is positive. -/
theorem count_gt_tenthousandth (N : Int) : ((N : α) > 0.0001) ↔ 0 < N := by
  constructor
  · intro h
    by_contra hN
    have h1 : (N : α) ≤ 0 := by exact_mod_cast (not_lt.mp hN)
    have h2 : (0 : α) < 0.0001 := by norm_num
    exact absurd h (not_lt.mpr (h1.trans h2.le))
  · intro h
    have h1 : (1 : α) ≤ (N : α) := by exact_mod_cast h
    have h2 : (0.0001 : α) < 1 := by norm_num
    exact lt_of_lt_of_le h2 h1

/-- The value of `h_over_h0` does not depend on the status on entry. -/
theorem h_over_h0_value_status (m : libm α) (env : Env α) (a : α) (cosmo : ccl_cosmology α)
    (s t : Int) : (h_over_h0 m env a cosmo s).1 = (h_over_h0 m env a cosmo t).1 := by
  unfold h_over_h0
  split_ifs <;> rfl

/-- Without massive neutrinos `h_over_h0` leaves the status alone. -/
theorem h_over_h0_status (m : libm α) (env : Env α) (a : α) (cosmo : ccl_cosmology α)
    (s : Int) (hN : ¬ ((cosmo.params.N_nu_mass : α) > 1e-12)) :
    (h_over_h0 m env a cosmo s).2 = s := by
  unfold h_over_h0
  rw [if_neg hN]

theorem CDouble.val_add_val (x y : α) :
    (CDouble.val x + CDouble.val y : CDouble α) = CDouble.val (x + y) := rfl

theorem CDouble.val_mul_val (x y : α) :
    (CDouble.val x * CDouble.val y : CDouble α) = CDouble.val (x * y) := rfl

theorem CDouble.val_mul (x : α) (d : CDouble α) :
    CDouble.val x * d = d.map (fun y => x * y) := by
  cases d <;> rfl

theorem CDouble.NaN_div (d : CDouble α) : (CDouble.NaN / d : CDouble α) = CDouble.NaN := by
  cases d <;> rfl

/-- Over the reals the factored radicand of the code is the spec's sum. -/
theorem h_over_h0_eq_spec (env : Env ℝ) (cosmo : ccl_cosmology ℝ) (status : Int) (a : ℝ)
    (ha : 0 < a) : (h_over_h0 libm_real env a cosmo status).1 = spec_E env cosmo a := by
  have ha0 : a ≠ 0 := ha.ne'
  unfold h_over_h0 spec_E spec_Om_nu
  simp only [libm_real]
  congr 1
  rw [rpow_neg_three ha, rpow_neg_two ha, rpow_neg_four ha,
    show -3 * (1 + cosmo.params.w0 + cosmo.params.wa)
      = -3 * (1 + (cosmo.params.w0 + cosmo.params.wa)) by ring,
    rpow_dark_energy ha]
  split_ifs <;> field_simp <;> ring

/-- The flat cosmology of scenario A satisfies the flatness sum. -/
theorem flat_lcdm_sum (env : Env ℝ) :
    (flat_lcdm : ccl_cosmology ℝ).params.Omega_m + (flat_lcdm : ccl_cosmology ℝ).params.Omega_l +
      (flat_lcdm : ccl_cosmology ℝ).params.Omega_k + (flat_lcdm : ccl_cosmology ℝ).params.Omega_g +
      (flat_lcdm : ccl_cosmology ℝ).params.Omega_n_rel + spec_Om_nu env flat_lcdm 1 = 1 := by
  simp only [flat_lcdm, spec_Om_nu]
  norm_num

/-- At the flat cosmology of scenario A, E(1) = 1. -/
theorem flat_lcdm_E_today (env : Env ℝ) (status : Int) :
    (h_over_h0 libm_real env 1 flat_lcdm status).1 = 1 := by
  rw [h_over_h0_eq_spec env flat_lcdm status 1 one_pos]
  unfold spec_E
  have hnu : spec_Om_nu env flat_lcdm 1 = 0 := by
    simp only [spec_Om_nu, flat_lcdm]
    norm_num
  rw [hnu]
  simp only [flat_lcdm, Real.one_rpow, sub_self, mul_zero, Real.exp_zero, mul_one]
  norm_num

/-- C1: for every cosmology and every real a > 0, `h_over_h0` equals the
square root of the spec's sum of density terms, where the massive-neutrino
term is `ccl_Omeganuh2 / h^2` when the count exceeds `1e-12` and `0`
otherwise; in the latter case the collaborator is not consulted and the
status is left as it was. -/
theorem C1_h_over_h0_is_spec_sum (env : Env ℝ) (cosmo : ccl_cosmology ℝ) (status : Int)
    (a : ℝ) (ha : 0 < a) :
    (h_over_h0 libm_real env a cosmo status).1 =
      Real.sqrt
        (cosmo.params.Omega_m * a ^ (-3 : ℝ) +
         cosmo.params.Omega_l * a ^ (-3 * (1 + cosmo.params.w0 + cosmo.params.wa)) *
            Real.exp (3 * cosmo.params.wa * (a - 1)) +
         cosmo.params.Omega_k * a ^ (-2 : ℝ) +
         (cosmo.params.Omega_g + cosmo.params.Omega_n_rel) * a ^ (-4 : ℝ) +
         spec_Om_nu env cosmo a) ∧
    (¬ ((cosmo.params.N_nu_mass : ℝ) > 1e-12) →
      spec_Om_nu env cosmo a = 0 ∧ (h_over_h0 libm_real env a cosmo status).2 = status ∧
      ∀ env2 : Env ℝ,
        h_over_h0 libm_real env2 a cosmo status = h_over_h0 libm_real env a cosmo status) :=
  ⟨h_over_h0_eq_spec env cosmo status a ha, fun hN =>
    ⟨by unfold spec_Om_nu; rw [if_neg hN], h_over_h0_status libm_real env a cosmo status hN,
     fun env2 => by unfold h_over_h0; rw [if_neg hN, if_neg hN]⟩⟩

/-- C1 at the flat cosmology and a = 1/2. -/
theorem C1_h_over_h0_is_spec_sum_witness :
    (0 : ℝ) < 1 / 2 ∧
    (h_over_h0 libm_real example_env (1 / 2) flat_lcdm 0).1 =
      spec_E example_env flat_lcdm (1 / 2) :=
  ⟨by norm_num, (C1_h_over_h0_is_spec_sum example_env flat_lcdm 0 (1 / 2) (by norm_num)).1⟩

/-- C2: for every cosmology (the massive-neutrino count is any integer) and
every a > 0 at which E(a) is non-zero, the density fractions of matter, dark
energy, radiation, curvature, massless and massive neutrinos returned by
`ccl_omega_x` add up to 1. -/
theorem C2_omega_x_sum_is_one (env : Env ℝ) (cosmo : ccl_cosmology ℝ) (status : Int)
    (a : ℝ) (ha : 0 < a) (hE : (h_over_h0 libm_real env a cosmo status).1 ≠ 0) :
    (ccl_omega_x libm_real env cosmo a ccl_species_m_label status).1 +
    (ccl_omega_x libm_real env cosmo a ccl_species_l_label status).1 +
    (ccl_omega_x libm_real env cosmo a ccl_species_g_label status).1 +
    (ccl_omega_x libm_real env cosmo a ccl_species_k_label status).1 +
    (ccl_omega_x libm_real env cosmo a ccl_species_ur_label status).1 +
    (ccl_omega_x libm_real env cosmo a ccl_species_nu_label status).1 = CDouble.val 1 := by
  have ha0 : a ≠ 0 := ha.ne'
  simp only [ccl_omega_x, CDouble.val_add_val]
  congr 1
  set s1 := (if (cosmo.params.N_nu_mass : ℝ) > 0.0001 then
      (env.ccl_Omeganuh2 a cosmo.params.N_nu_mass cosmo.params.mnu cosmo.params.T_CMB,
       ccl_check_status cosmo
        (env.ccl_Omeganuh2_status a cosmo.params.N_nu_mass cosmo.params.mnu
          cosmo.params.T_CMB status))
    else ((0 : ℝ), status)) with hs1
  rw [h_over_h0_value_status libm_real env a cosmo s1.2 status]
  set E := (h_over_h0 libm_real env a cosmo status).1 with hEdef
  have hspec : E = spec_E env cosmo a := h_over_h0_eq_spec env cosmo status a ha
  have hsq : E * E = cosmo.params.Omega_m * a ^ (-3 : ℝ) +
     cosmo.params.Omega_l * a ^ (-3 * (1 + cosmo.params.w0 + cosmo.params.wa)) *
        Real.exp (3 * cosmo.params.wa * (a - 1)) +
     cosmo.params.Omega_k * a ^ (-2 : ℝ) +
     (cosmo.params.Omega_g + cosmo.params.Omega_n_rel) * a ^ (-4 : ℝ) +
     spec_Om_nu env cosmo a := by
    rw [hspec]
    unfold spec_E
    apply Real.mul_self_sqrt
    by_contra hneg
    apply hE
    rw [hspec]
    unfold spec_E
    exact Real.sqrt_eq_zero_of_nonpos (not_le.mp hneg).le
  have h1 : s1.1 / cosmo.params.h / cosmo.params.h = spec_Om_nu env cosmo a := by
    unfold spec_Om_nu
    rw [hs1]
    by_cases hN : 0 < cosmo.params.N_nu_mass
    · rw [if_pos ((count_gt_tenthousandth _).mpr hN), if_pos ((count_gt_small _).mpr hN)]
      simp only [div_div, sq]
    · rw [if_neg (mt (count_gt_tenthousandth _).mp hN), if_neg (mt (count_gt_small _).mp hN)]
      simp
  simp only [libm_real]
  have key : cosmo.params.Omega_m / (a * a * a) +
      cosmo.params.Omega_l * a ^ (-3 * (1 + cosmo.params.w0 + cosmo.params.wa)) *
        Real.exp (3 * cosmo.params.wa * (a - 1)) +
      cosmo.params.Omega_g / (a * a * a * a) + cosmo.params.Omega_k / (a * a) +
      cosmo.params.Omega_n_rel / (a * a * a * a) +
      s1.1 / cosmo.params.h / cosmo.params.h = E * E := by
    rw [hsq, h1, rpow_neg_three ha, rpow_neg_two ha, rpow_neg_four ha]
    ring
  have hEE : E * E ≠ 0 := mul_ne_zero hE hE
  have hd : ∀ x : ℝ, x / E / E = x / (E * E) := fun x => div_div x E E
  rw [hd, hd, hd, hd, hd, hd, ← add_div, ← add_div, ← add_div, ← add_div, ← add_div, key,
    div_self hEE]

/-- C2 at the flat cosmology and a = 1, where E(1) = 1. -/
theorem C2_omega_x_sum_is_one_witness :
    (0 : ℝ) < 1 ∧ (h_over_h0 libm_real example_env 1 flat_lcdm 0).1 ≠ 0 ∧
    (ccl_omega_x libm_real example_env flat_lcdm 1 ccl_species_m_label 0).1 +
    (ccl_omega_x libm_real example_env flat_lcdm 1 ccl_species_l_label 0).1 +
    (ccl_omega_x libm_real example_env flat_lcdm 1 ccl_species_g_label 0).1 +
    (ccl_omega_x libm_real example_env flat_lcdm 1 ccl_species_k_label 0).1 +
    (ccl_omega_x libm_real example_env flat_lcdm 1 ccl_species_ur_label 0).1 +
    (ccl_omega_x libm_real example_env flat_lcdm 1 ccl_species_nu_label 0).1
      = CDouble.val 1 :=
  have hE : (h_over_h0 libm_real example_env 1 flat_lcdm 0).1 ≠ 0 := by
    rw [flat_lcdm_E_today example_env 0]
    exact one_ne_zero
  ⟨one_pos, hE, C2_omega_x_sum_is_one example_env flat_lcdm 0 1 one_pos hE⟩

/-- C3: for every cosmology whose density fractions plus the massive-neutrino
contribution at a = 1 sum to 1, `h_over_h0` at a = 1 is 1. -/
theorem C3_h_over_h0_today (env : Env ℝ) (cosmo : ccl_cosmology ℝ) (status : Int)
    (hsum : cosmo.params.Omega_m + cosmo.params.Omega_l + cosmo.params.Omega_k +
      cosmo.params.Omega_g + cosmo.params.Omega_n_rel + spec_Om_nu env cosmo 1 = 1) :
    (h_over_h0 libm_real env 1 cosmo status).1 = 1 := by
  rw [h_over_h0_eq_spec env cosmo status 1 one_pos]
  unfold spec_E
  have : cosmo.params.Omega_m * (1 : ℝ) ^ (-3 : ℝ) +
     cosmo.params.Omega_l * (1 : ℝ) ^ (-3 * (1 + cosmo.params.w0 + cosmo.params.wa)) *
        Real.exp (3 * cosmo.params.wa * (1 - 1)) +
     cosmo.params.Omega_k * (1 : ℝ) ^ (-2 : ℝ) +
     (cosmo.params.Omega_g + cosmo.params.Omega_n_rel) * (1 : ℝ) ^ (-4 : ℝ) +
     spec_Om_nu env cosmo 1 = 1 := by
    simp only [Real.one_rpow, sub_self, mul_zero, Real.exp_zero, mul_one]
    linarith
  rw [this, Real.sqrt_one]

/-- C3 at the flat cosmology of scenario A. -/
theorem C3_h_over_h0_today_witness :
    ((flat_lcdm : ccl_cosmology ℝ).params.Omega_m + (flat_lcdm : ccl_cosmology ℝ).params.Omega_l +
      (flat_lcdm : ccl_cosmology ℝ).params.Omega_k + (flat_lcdm : ccl_cosmology ℝ).params.Omega_g +
      (flat_lcdm : ccl_cosmology ℝ).params.Omega_n_rel +
      spec_Om_nu example_env flat_lcdm 1 = 1) ∧
    (h_over_h0 libm_real example_env 1 flat_lcdm 0).1 = 1 :=
  ⟨flat_lcdm_sum example_env,
   C3_h_over_h0_today example_env flat_lcdm 0 (flat_lcdm_sum example_env)⟩

/-- The value of `ccl_omega_x` does not depend on the status on entry. -/
theorem ccl_omega_x_value_status (m : libm α) (env : Env α) (cosmo : ccl_cosmology α)
    (a : α) (label : ccl_species_x_label) (s t : Int) :
    (ccl_omega_x m env cosmo a label s).1 = (ccl_omega_x m env cosmo a label t).1 := by
  unfold ccl_omega_x h_over_h0
  cases label <;> simp only <;> split_ifs <;> rfl

/-- C4: `ccl_rho_x` is the critical density `RHO_CRITICAL * h^2 * E(a)^2` times
`ccl_omega_x`, times `a^3` when `is_comoving` is non-zero and 1 otherwise (a
NaN fraction gives a NaN density); hence the comoving density is `a^3` times
the physical density at the same `a` and label. -/
theorem C4_rho_x_is_critical_times_omega (m : libm α) (env : Env α)
    (cosmo : ccl_cosmology α) (a : α) (label : ccl_species_x_label)
    (is_comoving : Int) (status : Int) :
    (ccl_rho_x m env cosmo a label is_comoving status).1 =
      (ccl_omega_x m env cosmo a label status).1.map (fun om =>
        env.ccl_constants.RHO_CRITICAL * cosmo.params.h ^ 2 *
          (h_over_h0 m env a cosmo status).1 ^ 2 * om *
          (if is_comoving ≠ 0 then a ^ 3 else 1)) ∧
    (is_comoving ≠ 0 →
      (ccl_rho_x m env cosmo a label is_comoving status).1 =
        (ccl_rho_x m env cosmo a label 0 status).1.map (fun rho => a ^ 3 * rho)) := by
  have hom := ccl_omega_x_value_status m env cosmo a label
    (h_over_h0 m env a cosmo status).2 status
  constructor
  · simp only [ccl_rho_x, CDouble.val_mul, hom]
    cases (ccl_omega_x m env cosmo a label status).1 with
    | NaN => rfl
    | val om =>
      simp only [CDouble.map]
      congr 1
      split_ifs <;> ring
  · intro hc
    simp only [ccl_rho_x, CDouble.val_mul, hom, if_pos hc]
    cases (ccl_omega_x m env cosmo a label status).1 with
    | NaN => rfl
    | val om =>
      simp only [CDouble.map, ne_eq, not_true_eq_false, if_false]
      congr 1
      ring

/-- C4 at the flat cosmology: the comoving matter density at a = 1/2. -/
theorem C4_rho_x_is_critical_times_omega_witness :
    (1 : Int) ≠ 0 ∧
    (ccl_rho_x libm_real example_env flat_lcdm (1 / 2) ccl_species_m_label 1 0).1 =
      (ccl_rho_x libm_real example_env flat_lcdm (1 / 2) ccl_species_m_label 0 0).1.map
        (fun rho => (1 / 2 : ℝ) ^ 3 * rho) :=
  ⟨one_ne_zero,
   (C4_rho_x_is_critical_times_omega libm_real example_env flat_lcdm (1 / 2)
      ccl_species_m_label 1 0).2 one_ne_zero⟩

/-! ## Theorems: query layer -/

/-- C5 (as amended): for every a > 1 the queries `ccl_comoving_radial_distance`,
`ccl_comoving_angular_distance`, `ccl_luminosity_distance`,
`ccl_distance_modulus`, `ccl_growth_factor` and `ccl_growth_rate` return NaN
and leave the status `CCL_ERROR_COMPUTECHI`, which is not the ParameterError
code, without building anything; `ccl_growth_factor_unnorm` first runs the
lazy growth build and then returns NaN, with `CCL_ERROR_COMPUTECHI` unless the
status after the build step is `CCL_ERROR_NOT_IMPLEMENTED`, which it keeps. -/
theorem C5_scale_factor_above_one [FloorRing α] (m : libm α) (env : Env α)
    (cosmo : ccl_cosmology α) (a : α) (status : Int) (ha : a > 1) :
    ccl_comoving_radial_distance m env cosmo a status = some (above_one_outcome cosmo) ∧
    ccl_comoving_angular_distance m env cosmo a status = some (above_one_outcome cosmo) ∧
    ccl_luminosity_distance m env cosmo a status = some (above_one_outcome cosmo) ∧
    ccl_distance_modulus m env cosmo a status = some (above_one_outcome cosmo) ∧
    ccl_growth_factor m env cosmo a status = some (above_one_outcome cosmo) ∧
    ccl_growth_rate m env cosmo a status = some (above_one_outcome cosmo) ∧
    ccl_growth_factor_unnorm m env cosmo a status =
      (ensure_growth m env cosmo status).map (fun b =>
        if b.2 ≠ CCL_ERROR_NOT_IMPLEMENTED then above_one_outcome b.1
        else (CDouble.NaN, b.1, b.2)) ∧
    CCL_ERROR_COMPUTECHI ≠ CCL_ERROR_PARAMETERS := by
  have h1 : ¬ (a > 1 - 1e-8 ∧ a ≤ 1) := fun h => absurd h.2 (not_le.mpr ha)
  have h2 : a ≠ 1 := ne_of_gt ha
  have hang : ccl_comoving_angular_distance m env cosmo a status
      = some (above_one_outcome cosmo) := by
    unfold ccl_comoving_angular_distance
    rw [if_neg h1, if_pos ha]
    rfl
  have hgf : ∀ (c : ccl_cosmology α) (s : Int),
      ccl_growth_factor m env c a s = some (above_one_outcome c) := by
    intro c s
    unfold ccl_growth_factor
    rw [if_neg h2, if_pos ha]
    rfl
  refine ⟨?_, hang, ?_, ?_, hgf cosmo status, ?_, ?_, by decide⟩
  · unfold ccl_comoving_radial_distance
    rw [if_neg h1, if_pos ha]
    rfl
  · unfold ccl_luminosity_distance
    rw [hang]
    rfl
  · unfold ccl_distance_modulus
    rw [if_neg h1, if_pos ha]
    rfl
  · unfold ccl_growth_rate
    rw [if_pos ha]
    rfl
  · unfold ccl_growth_factor_unnorm
    cases hb : ensure_growth m env cosmo status with
    | none => rfl
    | some b =>
      simp only [Option.some_bind, Option.map_some']
      by_cases hs : b.2 ≠ CCL_ERROR_NOT_IMPLEMENTED
      · rw [if_pos hs, if_pos hs, hgf b.1 b.2]
        rfl
      · rw [if_neg hs, if_neg hs]

/-- C5 at the flat cosmology and a = 3/2. -/
theorem C5_scale_factor_above_one_witness :
    (3 / 2 : ℝ) > 1 ∧
    ccl_growth_rate libm_real example_env flat_lcdm (3 / 2) 0
      = some (above_one_outcome flat_lcdm) :=
  ⟨by norm_num,
   (C5_scale_factor_above_one libm_real example_env flat_lcdm (3 / 2) 0
      (by norm_num)).2.2.2.2.2.1⟩

/-- C5 as stated fails: at a = 3/2 on the flat cosmology the status left by
`ccl_comoving_radial_distance` is 1033 (`CCL_ERROR_COMPUTECHI`), not the
ParameterError code. -/
theorem C5_counterexample :
    (ccl_comoving_radial_distance libm_real example_env flat_lcdm (3 / 2) 0).map
        (fun r => r.2.2) = some CCL_ERROR_COMPUTECHI ∧
    CCL_ERROR_COMPUTECHI ≠ CCL_ERROR_PARAMETERS := by
  constructor
  · unfold ccl_comoving_radial_distance
    rw [if_neg (by norm_num), if_pos (by norm_num)]
    rfl
  · decide

/-- With massive neutrinos the growth build is refused: the lazy build step
leaves the diagnostic and `CCL_ERROR_NOT_IMPLEMENTED`. -/
theorem ensure_growth_massive_nu (m : libm α) (env : Env α) (cosmo : ccl_cosmology α)
    (status : Int) (hN : cosmo.params.N_nu_mass > 0) (hc : cosmo.computed_growth = false) :
    ensure_growth m env cosmo status =
      some ((massive_nu_outcome cosmo).2.1, CCL_ERROR_NOT_IMPLEMENTED) := by
  unfold ensure_growth ccl_cosmology_compute_growth
  rw [if_pos hc, if_pos hN]
  rfl

/-- C6 (as amended): for every cosmology with massive neutrinos
(`N_nu_mass > 0`) whose growth tables are not built, every status on entry and
every a <= 1: `ccl_growth_factor_unnorm` and `ccl_growth_rate` return NaN, set
the status to `CCL_ERROR_NOT_IMPLEMENTED` and leave `computed_growth` false, and
so does `ccl_growth_factor` for a < 1; at a = 1 `ccl_growth_factor` returns
exactly 1 with cosmology and status untouched, because its special case
precedes the build. -/
theorem C6_growth_with_massive_neutrinos (m : libm α) (env : Env α)
    (cosmo : ccl_cosmology α) (a : α) (status : Int)
    (hN : cosmo.params.N_nu_mass > 0) (hc : cosmo.computed_growth = false) (ha : a ≤ 1) :
    (a ≠ 1 → ccl_growth_factor m env cosmo a status = some (massive_nu_outcome cosmo)) ∧
    (a = 1 → ccl_growth_factor m env cosmo a status = some (CDouble.val 1, cosmo, status)) ∧
    ccl_growth_factor_unnorm m env cosmo a status = some (massive_nu_outcome cosmo) ∧
    ccl_growth_rate m env cosmo a status = some (massive_nu_outcome cosmo) ∧
    (massive_nu_outcome cosmo).1 = CDouble.NaN ∧
    (massive_nu_outcome cosmo).2.2 = CCL_ERROR_NOT_IMPLEMENTED ∧
    (massive_nu_outcome cosmo).2.1.computed_growth = false := by
  have hb := ensure_growth_massive_nu m env cosmo status hN hc
  have hgt : ¬ a > 1 := not_lt.mpr ha
  refine ⟨?_, ?_, ?_, ?_, rfl, rfl, hc⟩
  · intro h1
    unfold ccl_growth_factor
    rw [if_neg h1, if_neg hgt, hb]
    rfl
  · intro h1
    unfold ccl_growth_factor
    rw [if_pos h1]
  · unfold ccl_growth_factor_unnorm
    rw [hb]
    rfl
  · unfold ccl_growth_rate
    rw [if_neg hgt, hb]
    rfl

/-- C6 at the cosmology with one massive species and a = 1/2. -/
theorem C6_growth_with_massive_neutrinos_witness :
    (massive_nu_cosmology : ccl_cosmology ℝ).params.N_nu_mass > 0 ∧
    (massive_nu_cosmology : ccl_cosmology ℝ).computed_growth = false ∧
    (1 / 2 : ℝ) ≤ 1 ∧ (1 / 2 : ℝ) ≠ 1 ∧
    ccl_growth_factor libm_real example_env massive_nu_cosmology (1 / 2) 0
      = some (massive_nu_outcome massive_nu_cosmology) :=
  ⟨by decide, rfl, by norm_num, by norm_num,
   (C6_growth_with_massive_neutrinos libm_real example_env massive_nu_cosmology (1 / 2) 0
      (by decide) rfl (by norm_num)).1 (by norm_num)⟩

/-- C6 as stated fails at a = 1: with one massive neutrino species and status
0, `ccl_growth_factor` returns 1, not NaN, and the status stays 0. -/
theorem C6_counterexample :
    ccl_growth_factor libm_real example_env massive_nu_cosmology 1 0
      = some (CDouble.val 1, massive_nu_cosmology, 0) ∧
    (massive_nu_cosmology : ccl_cosmology ℝ).params.N_nu_mass > 0 ∧
    (0 : Int) ≠ CCL_ERROR_NOT_IMPLEMENTED := by
  refine ⟨?_, by decide, by decide⟩
  unfold ccl_growth_factor
  rw [if_pos rfl]

/-- A bitwise OR of naturals is zero only when both operands are. -/
theorem nat_or_eq_zero {n k : ℕ} (h : n ||| k = 0) : n = 0 ∧ k = 0 := by
  have key : ∀ i, Nat.testBit n i = false ∧ Nat.testBit k i = false := by
    intro i
    have := congrArg (fun j => Nat.testBit j i) h
    simpa [Nat.testBit_or] using this
  exact ⟨Nat.eq_of_testBit_eq (fun i => by simp [(key i).1]),
         Nat.eq_of_testBit_eq (fun i => by simp [(key i).2])⟩

/-- The C operation `x | y` on integers is zero only when both operands are. -/
theorem int_lor_eq_zero {a b : Int} (h : Int.lor a b = 0) : a = 0 ∧ b = 0 := by
  cases a with
  | ofNat n =>
    cases b with
    | ofNat k =>
      have h1 : n ||| k = 0 := by
        have : ((n ||| k : ℕ) : Int) = 0 := h
        exact_mod_cast this
      obtain ⟨hn, hk⟩ := nat_or_eq_zero h1
      subst hn; subst hk
      exact ⟨rfl, rfl⟩
    | negSucc k => exact absurd h (by simp [Int.lor])
  | negSucc n =>
    cases b with
    | ofNat k => exact absurd h (by simp [Int.lor])
    | negSucc k => exact absurd h (by simp [Int.lor])

/-- `0 | y` is `y`. -/
theorem int_lor_zero_left (b : Int) : Int.lor 0 b = b := by
  cases b with
  | ofNat k => show ((0 ||| k : ℕ) : Int) = k; simp
  | negSucc k => show Int.negSucc (Nat.ldiff k 0) = Int.negSucc k; simp [Nat.ldiff]

/-- With the distance tables built the lazy build step does nothing. -/
theorem ensure_distances_built [FloorRing α] (m : libm α) (env : Env α)
    (cosmo : ccl_cosmology α) (status : Int) (hc : cosmo.computed_distances = true) :
    ensure_distances m env cosmo status = some (cosmo, status) := by
  unfold ensure_distances
  rw [if_neg (by simp [hc])]

/-- With the growth tables built the lazy build step does nothing. -/
theorem ensure_growth_built (m : libm α) (env : Env α) (cosmo : ccl_cosmology α)
    (status : Int) (hc : cosmo.computed_growth = true) :
    ensure_growth m env cosmo status = some (cosmo, status) := by
  unfold ensure_growth
  rw [if_neg (by simp [hc])]

/-- On built tables a failed evaluation makes `ccl_h_over_h0` return NaN with
the non-zero GSL status. -/
theorem ccl_h_over_h0_failed_evaluation [FloorRing α] (m : libm α) (env : Env α)
    (cosmo : ccl_cosmology α) (a : α) (status : Int) (sp : gsl_spline α)
    (hc : cosmo.computed_distances = true) (hsp : cosmo.data.E = some sp)
    (hfail : (env.gsl_spline_eval_e sp a).1 ≠ GSL_SUCCESS) :
    ∃ c s, ccl_h_over_h0 m env cosmo a status = some (CDouble.NaN, c, s) ∧ s ≠ 0 := by
  unfold ccl_h_over_h0
  rw [ensure_distances_built m env cosmo status hc]
  simp only [Option.some_bind, hsp, Option.map_some', if_pos hfail]
  exact ⟨_, _, rfl, hfail⟩

/-- On built tables a failed evaluation makes `ccl_comoving_radial_distance`
return NaN with the non-zero GSL status. -/
theorem ccl_comoving_radial_distance_failed_evaluation [FloorRing α] (m : libm α)
    (env : Env α) (cosmo : ccl_cosmology α) (a : α) (status : Int) (sp : gsl_spline α)
    (ha : a ≤ 1 - 1e-8)
    (hc : cosmo.computed_distances = true) (hsp : cosmo.data.chi = some sp)
    (hfail : (env.gsl_spline_eval_e sp a).1 ≠ GSL_SUCCESS) :
    ∃ c s, ccl_comoving_radial_distance m env cosmo a status = some (CDouble.NaN, c, s) ∧
      s ≠ 0 := by
  have h1 : ¬ (a > 1 - 1e-8 ∧ a ≤ 1) := fun h => absurd h.1 (not_lt.mpr ha)
  have h2 : ¬ a > 1 := not_lt.mpr (ha.trans (by norm_num))
  unfold ccl_comoving_radial_distance
  rw [if_neg h1, if_neg h2, ensure_distances_built m env cosmo status hc]
  simp only [Option.some_bind, hsp, Option.map_some', if_pos hfail]
  exact ⟨_, _, rfl, hfail⟩

/-- On built tables a failed evaluation makes `ccl_comoving_angular_distance`
return NaN with a non-zero status. -/
theorem ccl_comoving_angular_distance_failed_evaluation [FloorRing α] (m : libm α)
    (env : Env α) (cosmo : ccl_cosmology α) (a : α) (status : Int) (sp : gsl_spline α)
    (ha : a ≤ 1 - 1e-8)
    (hc : cosmo.computed_distances = true) (hsp : cosmo.data.chi = some sp)
    (hfail : (env.gsl_spline_eval_e sp a).1 ≠ GSL_SUCCESS) :
    ∃ c s, ccl_comoving_angular_distance m env cosmo a status = some (CDouble.NaN, c, s) ∧
      s ≠ 0 := by
  have h1 : ¬ (a > 1 - 1e-8 ∧ a ≤ 1) := fun h => absurd h.1 (not_lt.mpr ha)
  have h2 : ¬ a > 1 := not_lt.mpr (ha.trans (by norm_num))
  unfold ccl_comoving_angular_distance
  rw [if_neg h1, if_neg h2, ensure_distances_built m env cosmo status hc]
  simp only [Option.some_bind, hsp, Option.map_some', if_pos hfail]
  exact ⟨_, _, rfl, fun h => hfail (int_lor_eq_zero h).2⟩

/-- On built tables a failed evaluation makes `ccl_growth_factor` return NaN
with a non-zero status. -/
theorem ccl_growth_factor_failed_evaluation (m : libm α) (env : Env α)
    (cosmo : ccl_cosmology α) (a : α) (status : Int) (sp : gsl_spline α)
    (ha : a < 1)
    (hc : cosmo.computed_growth = true) (hsp : cosmo.data.growth = some sp)
    (hfail : (env.gsl_spline_eval_e sp a).1 ≠ GSL_SUCCESS) :
    ∃ c s, ccl_growth_factor m env cosmo a status = some (CDouble.NaN, c, s) ∧ s ≠ 0 := by
  unfold ccl_growth_factor
  rw [if_neg (ne_of_lt ha), if_neg (not_lt.mpr ha.le), ensure_growth_built m env cosmo status hc]
  by_cases hs : status ≠ CCL_ERROR_NOT_IMPLEMENTED
  · simp only [Option.some_bind, hsp, Option.map_some', if_pos hfail, if_pos hs]
    exact ⟨_, _, rfl, fun h => hfail (int_lor_eq_zero h).2⟩
  · refine ⟨cosmo, status, ?_, ?_⟩
    · simp only [Option.some_bind, if_neg hs]
    · rw [not_not.mp hs]
      decide

/-- On built tables a failed evaluation makes `ccl_growth_rate` return NaN
with a non-zero status. -/
theorem ccl_growth_rate_failed_evaluation (m : libm α) (env : Env α)
    (cosmo : ccl_cosmology α) (a : α) (status : Int) (sp : gsl_spline α)
    (ha : a ≤ 1)
    (hc : cosmo.computed_growth = true) (hsp : cosmo.data.fgrowth = some sp)
    (hfail : (env.gsl_spline_eval_e sp a).1 ≠ GSL_SUCCESS) :
    ∃ c s, ccl_growth_rate m env cosmo a status = some (CDouble.NaN, c, s) ∧ s ≠ 0 := by
  unfold ccl_growth_rate
  rw [if_neg (not_lt.mpr ha), ensure_growth_built m env cosmo status hc]
  by_cases hs : status ≠ CCL_ERROR_NOT_IMPLEMENTED
  · simp only [Option.some_bind, hsp, Option.map_some', if_pos hfail, if_pos hs]
    exact ⟨_, _, rfl, fun h => hfail (int_lor_eq_zero h).2⟩
  · refine ⟨cosmo, status, ?_, ?_⟩
    · simp only [Option.some_bind, if_neg hs]
    · rw [not_not.mp hs]
      decide

/-- C7 (the code departs from the claim): on built tables, when the
evaluation of the a(chi) interpolant fails with the GSL status 4 and leaves
0.0 in its output cell, `ccl_scale_factor_of_chi` at chi = 10 returns that
0.0, not NaN; it has no `return NAN` on the failure path, unlike the five
sibling queries. -/
theorem C7_scale_factor_of_chi_returns_failed_value :
    ccl_scale_factor_of_chi libm_real failing_eval_env built_cosmology 10 0
      = some (CDouble.val 0, built_cosmology, 4) ∧
    (CDouble.val 0 : CDouble ℝ) ≠ CDouble.NaN := by
  constructor
  · unfold ccl_scale_factor_of_chi
    rw [if_neg (by norm_num), if_neg (by norm_num),
      ensure_distances_built libm_real failing_eval_env built_cosmology 0 rfl]
    rfl
  · intro h
    cases h

/-- The distance build rejects a configured maximum scale factor above 1. -/
theorem compute_distances_bad_grid [FloorRing α] (m : libm α) (env : Env α)
    (cosmo : ccl_cosmology α) (status : Int) (hc : cosmo.computed_distances = false)
    (hmax : cosmo.spline_params.A_SPLINE_MAX > 1) :
    ccl_cosmology_compute_distances m env cosmo status =
      some (ccl_cosmology_set_status_message cosmo
        "ccl_background.c: scale factor cannot be larger than 1.\n", CCL_ERROR_COMPUTECHI) := by
  unfold ccl_cosmology_compute_distances
  rw [if_neg (by simp [hc]), if_pos hmax]

/-- C8 (the code departs from the claim): on a cosmology whose tables are not
built and whose configured maximum scale factor is 1.5, the lazy distance
build fails with `CCL_ERROR_COMPUTECHI`; `ccl_comoving_radial_distance` at
a = 1/2 then goes on to evaluate the chi(a) interpolant, which is still NULL,
instead of returning NaN with the status of the build.  The growth accessor
does the same after a build that fails with `CCL_ERROR_LINSPACE`: only
`CCL_ERROR_NOT_IMPLEMENTED` is checked before the evaluation. -/
theorem C8_failed_build_evaluates_unbuilt_cache :
    ensure_distances libm_real example_env bad_grid_cosmology 0 =
      some (ccl_cosmology_set_status_message (bad_grid_cosmology : ccl_cosmology ℝ)
        "ccl_background.c: scale factor cannot be larger than 1.\n", CCL_ERROR_COMPUTECHI) ∧
    (bad_grid_cosmology : ccl_cosmology ℝ).data.chi = none ∧
    ccl_comoving_radial_distance libm_real example_env bad_grid_cosmology (1 / 2) 0 = none ∧
    ensure_growth libm_real example_env flat_lcdm 0 =
      some (ccl_cosmology_set_status_message (flat_lcdm : ccl_cosmology ℝ)
        "ccl_background.c: ccl_cosmology_compute_growth(): Error creating logarithmically and then linear spacing in a\n",
        CCL_ERROR_LINSPACE) ∧
    ccl_growth_factor libm_real example_env flat_lcdm (1 / 2) 0 = none := by
  have hmax : (bad_grid_cosmology : ccl_cosmology ℝ).spline_params.A_SPLINE_MAX > 1 := by
    simp only [bad_grid_cosmology]
    norm_num
  have hd : ensure_distances libm_real example_env bad_grid_cosmology 0 =
      some (ccl_cosmology_set_status_message (bad_grid_cosmology : ccl_cosmology ℝ)
        "ccl_background.c: scale factor cannot be larger than 1.\n", CCL_ERROR_COMPUTECHI) := by
    unfold ensure_distances
    rw [if_pos (show (bad_grid_cosmology : ccl_cosmology ℝ).computed_distances = false from rfl),
      compute_distances_bad_grid libm_real example_env bad_grid_cosmology 0 rfl hmax]
    rfl
  have hg : ensure_growth libm_real example_env flat_lcdm 0 =
      some (ccl_cosmology_set_status_message (flat_lcdm : ccl_cosmology ℝ)
        "ccl_background.c: ccl_cosmology_compute_growth(): Error creating logarithmically and then linear spacing in a\n",
        CCL_ERROR_LINSPACE) := by
    unfold ensure_growth ccl_cosmology_compute_growth
    rw [if_pos (show (flat_lcdm : ccl_cosmology ℝ).computed_growth = false from rfl),
      if_neg (show ¬ (flat_lcdm : ccl_cosmology ℝ).params.N_nu_mass > 0 by decide),
      if_neg (show ¬ (flat_lcdm : ccl_cosmology ℝ).computed_growth = true by decide)]
    rfl
  refine ⟨hd, rfl, ?_, hg, ?_⟩
  · unfold ccl_comoving_radial_distance
    rw [if_neg (by norm_num), if_neg (by norm_num), hd]
    rfl
  · unfold ccl_growth_factor
    rw [if_neg (by norm_num), if_neg (by norm_num), hg]
    rfl

/-! ## Theorems: table builders -/

theorem same_up_to_message_refl (c : ccl_cosmology α) : same_up_to_message c c := by
  cases c
  rfl

theorem same_up_to_message_set (c c2 : ccl_cosmology α) (msg : String)
    (h : same_up_to_message c c2) :
    same_up_to_message c (ccl_cosmology_set_status_message c2 msg) := by
  unfold same_up_to_message ccl_cosmology_set_status_message at *
  rw [h]

theorem distances_alloc_message (env : Env α) (cosmo : ccl_cosmology α) (status : Int) :
    same_up_to_message cosmo (distances_alloc env cosmo status).cosmo := by
  unfold distances_alloc
  simp only
  split_ifs <;> exact same_up_to_message_set _ _ _ (same_up_to_message_refl _)

theorem distances_check_grid_message (c : ccl_cosmology α) (L L2 : distances_locals α)
    (hL : same_up_to_message c L.cosmo) (h : distances_check_grid L = some L2) :
    same_up_to_message c L2.cosmo := by
  unfold distances_check_grid at h
  split_ifs at h with h0
  · cases h; exact hL
  · simp only [Option.bind_eq_some] at h
    obtain ⟨a, -, a_first, -, a_last, -, h⟩ := h
    split_ifs at h <;> cases h
    · exact same_up_to_message_set _ _ _ hL
    · exact hL

theorem distances_fill_E_message (m : libm α) (env : Env α) (c : ccl_cosmology α)
    (L L2 : distances_locals α)
    (hL : same_up_to_message c L.cosmo) (h : distances_fill_E m env L = some L2) :
    same_up_to_message c L2.cosmo := by
  unfold distances_fill_E at h
  split_ifs at h with h0
  · cases h; exact hL
  · simp only [Option.bind_eq_some, Option.map_eq_some'] at h
    obtain ⟨a, -, r, -, h⟩ := h
    subst h
    exact hL

theorem distances_init_E_message (env : Env α) (c : ccl_cosmology α)
    (L L2 : distances_locals α)
    (hL : same_up_to_message c L.cosmo) (h : distances_init_E env L = some L2) :
    same_up_to_message c L2.cosmo := by
  unfold distances_init_E at h
  split_ifs at h with h0
  · cases h; exact hL
  · simp only [Option.bind_eq_some, Option.map_eq_some'] at h
    obtain ⟨a, -, E_a, -, h⟩ := h
    split_ifs at h <;> subst h
    · exact same_up_to_message_set _ _ _ hL
    · exact hL

theorem distances_fill_chi_message (m : libm α) (env : Env α) (c : ccl_cosmology α)
    (L L2 : distances_locals α)
    (hL : same_up_to_message c L.cosmo) (h : distances_fill_chi m env L = some L2) :
    same_up_to_message c L2.cosmo := by
  unfold distances_fill_chi at h
  split_ifs at h with h0
  · cases h; exact hL
  · simp only [Option.bind_eq_some, Option.map_eq_some'] at h
    obtain ⟨a, -, r, -, h⟩ := h
    split_ifs at h <;> subst h
    · exact same_up_to_message_set _ _ _ hL
    · exact hL

theorem distances_init_chi_message (env : Env α) (c : ccl_cosmology α)
    (L L2 : distances_locals α)
    (hL : same_up_to_message c L.cosmo) (h : distances_init_chi env L = some L2) :
    same_up_to_message c L2.cosmo := by
  unfold distances_init_chi at h
  split_ifs at h with h0
  · cases h; exact hL
  · simp only [Option.bind_eq_some, Option.map_eq_some'] at h
    obtain ⟨a, -, chi_a, -, h⟩ := h
    split_ifs at h <;> subst h
    · exact same_up_to_message_set _ _ _ hL
    · exact hL

theorem distances_boundaries_message (c : ccl_cosmology α) (L L2 : distances_locals α)
    (hL : same_up_to_message c L.cosmo) (h : distances_boundaries L = some L2) :
    same_up_to_message c L2.cosmo := by
  unfold distances_boundaries at h
  split_ifs at h with h0
  · cases h; exact hL
  · simp only [Option.bind_eq_some, Option.map_eq_some'] at h
    obtain ⟨a, -, chi_a, -, chi0, -, chif, -, a0, -, af, -, h⟩ := h
    subst h
    exact hL

theorem distances_alloc_inverse_message [FloorRing α] (env : Env α) (c : ccl_cosmology α)
    (L L2 : distances_locals α)
    (hL : same_up_to_message c L.cosmo) (h : distances_alloc_inverse env L = some L2) :
    same_up_to_message c L2.cosmo := by
  unfold distances_alloc_inverse at h
  by_cases h0 : L.status ≠ 0
  · rw [if_pos h0] at h
    cases h
  · rw [if_neg h0] at h
    simp only at h
    split_ifs at h <;>
      first
      | (cases h
         exact same_up_to_message_set _ _ _ hL)
      | (simp only [Option.bind_eq_some, Option.map_eq_some'] at h
         obtain ⟨ch, -, c_first, -, c_last, -, h⟩ := h
         split_ifs at h <;> subst h
         · exact same_up_to_message_set _ _ _ hL
         · exact hL)

theorem distances_solve_inverse_message (m : libm α) (env : Env α) (c : ccl_cosmology α)
    (L L2 : distances_locals α)
    (hL : same_up_to_message c L.cosmo) (h : distances_solve_inverse m env L = some L2) :
    same_up_to_message c L2.cosmo := by
  unfold distances_solve_inverse at h
  split_ifs at h with h0 h1
  · cases h; exact hL
  · simp [Option.bind_eq_some] at h
  · simp only [Option.bind_eq_some, Option.map_eq_some'] at h
    obtain ⟨a, -, chi_a, -, r, -, h⟩ := h
    split_ifs at h <;> subst h
    · exact same_up_to_message_set _ _ _ hL
    · exact hL

theorem distances_init_achi_message (env : Env α) (c : ccl_cosmology α)
    (L L2 : distances_locals α)
    (hL : same_up_to_message c L.cosmo) (h : distances_init_achi env L = some L2) :
    same_up_to_message c L2.cosmo := by
  unfold distances_init_achi at h
  split_ifs at h with h0
  · cases h; exact hL
  · simp only [Option.bind_eq_some, Option.map_eq_some'] at h
    obtain ⟨a, -, chi_a, -, h⟩ := h
    split_ifs at h <;> subst h
    · exact same_up_to_message_set _ _ _ hL
    · exact hL

/-- A run of the distance build that gets past the two entry checks ends in
`distances_install`, applied to locals whose cosmology is the one on entry up
to the diagnostic. -/
theorem compute_distances_locals [FloorRing α] (m : libm α) (env : Env α)
    (cosmo c : ccl_cosmology α) (status s : Int)
    (hc : cosmo.computed_distances = false) (hmax : ¬ cosmo.spline_params.A_SPLINE_MAX > 1)
    (h : ccl_cosmology_compute_distances m env cosmo status = some (c, s)) :
    ∃ L : distances_locals α, same_up_to_message cosmo L.cosmo ∧
      distances_install L = (c, s) := by
  unfold ccl_cosmology_compute_distances at h
  rw [if_neg (by simp [hc]), if_neg hmax] at h
  simp only [Option.map_eq_some', Option.bind_eq_some] at h
  obtain ⟨L9, ⟨L8, ⟨L7, ⟨L6, ⟨L5, ⟨L4, ⟨L3, ⟨L2, ⟨L1, h1, h2⟩, h3⟩, h4⟩, h5⟩, h6⟩, h7⟩, h8⟩,
    h9⟩, h10⟩ := h
  refine ⟨L9, ?_, h10⟩
  have e0 := distances_alloc_message env cosmo status
  have e1 := distances_check_grid_message cosmo _ _ e0 h1
  have e2 := distances_fill_E_message m env cosmo _ _ e1 h2
  have e3 := distances_init_E_message env cosmo _ _ e2 h3
  have e4 := distances_fill_chi_message m env cosmo _ _ e3 h4
  have e5 := distances_init_chi_message env cosmo _ _ e4 h5
  have e6 := distances_boundaries_message cosmo _ _ e5 h6
  have e7 := distances_alloc_inverse_message env cosmo _ _ e6 h7
  have e8 := distances_solve_inverse_message m env cosmo _ _ e7 h8
  exact distances_init_achi_message env cosmo _ _ e8 h9

/-- Outcome of the distance build: a non-zero status leaves the cosmology as
it was up to the diagnostic; the flag turns true only together with status 0
and the three interpolants; status 0 means the tables are built. -/
theorem compute_distances_outcome [FloorRing α] (m : libm α) (env : Env α)
    (cosmo c : ccl_cosmology α) (status s : Int)
    (h : ccl_cosmology_compute_distances m env cosmo status = some (c, s)) :
    (s ≠ 0 → same_up_to_message cosmo c) ∧
    (cosmo.computed_distances = false → c.computed_distances = true →
      s = 0 ∧ ∃ E chi achi, c.data.E = some E ∧ c.data.chi = some chi ∧
        c.data.achi = some achi) ∧
    (s = 0 → c.computed_distances = true) := by
  by_cases hc : cosmo.computed_distances = true
  · unfold ccl_cosmology_compute_distances at h
    rw [if_pos hc] at h
    cases h
    exact ⟨fun _ => same_up_to_message_refl _, fun h0 _ => (by rw [hc] at h0; cases h0),
      fun _ => hc⟩
  have hc2 : cosmo.computed_distances = false := by simpa using hc
  by_cases hmax : cosmo.spline_params.A_SPLINE_MAX > 1
  · rw [compute_distances_bad_grid m env cosmo status hc2 hmax] at h
    cases h
    refine ⟨fun _ => same_up_to_message_set _ _ _ (same_up_to_message_refl _), ?_, ?_⟩
    · intro _ h1
      rw [show (ccl_cosmology_set_status_message cosmo
        "ccl_background.c: scale factor cannot be larger than 1.\n").computed_distances
          = cosmo.computed_distances from rfl, hc2] at h1
      cases h1
    · intro h0
      exact absurd h0 (by decide)
  obtain ⟨L, hL, hi⟩ := compute_distances_locals m env cosmo c status s hc2 hmax h
  unfold distances_install at hi
  by_cases hs : L.status ≠ 0
  · rw [if_pos hs] at hi
    cases hi
    refine ⟨fun _ => hL, ?_, fun h0 => absurd h0 hs⟩
    intro _ h1
    rw [hL] at h1
    simp only [hc2] at h1
    cases h1
  · rw [if_neg hs] at hi
    cases hi
    have hs0 : L.status = 0 := not_not.mp hs
    exact ⟨fun h0 => absurd hs0 h0, fun _ _ => ⟨hs0, _, _, _, rfl, rfl, rfl⟩, fun _ => rfl⟩

/-- A return that only records a diagnostic and a non-zero status. -/
theorem growth_outcome_failure (cosmo : ccl_cosmology α) (msg : String) (code : Int)
    (hcode : code ≠ 0) :
    growth_outcome cosmo (ccl_cosmology_set_status_message cosmo msg) code := by
  refine ⟨fun _ => same_up_to_message_set _ _ _ (same_up_to_message_refl _), ?_,
    fun h0 => absurd h0 hcode⟩
  intro hc h1
  rw [show (ccl_cosmology_set_status_message cosmo msg).computed_growth
    = cosmo.computed_growth from rfl, hc] at h1
  cases h1

theorem growth_finish_outcome (env : Env α) (cosmo : ccl_cosmology α) (a : List α)
    (na : Int) (growth0 : α) (st : growth_loop_state α) :
    growth_outcome cosmo (growth_finish env cosmo a na growth0 st).1
      (growth_finish env cosmo a na growth0 st).2 := by
  unfold growth_finish
  by_cases hfail : st.chistatus ≠ 0 ∨ st.status_mg ≠ 0 ∨ st.status ≠ 0
  · rw [if_pos hfail]
    by_cases hmg : st.status_mg ≠ 0
    · simp only [if_pos hmg]
      by_cases hchi : st.chistatus ≠ 0
      · simp only [if_pos hchi]
        refine ⟨fun _ => same_up_to_message_set _ _ _
          (same_up_to_message_set _ _ _ (same_up_to_message_refl _)), ?_,
          fun h0 => absurd h0 (by decide)⟩
        intro hc h1
        rw [show (ccl_cosmology_set_status_message (ccl_cosmology_set_status_message cosmo
          "ccl_background.c: ccl_cosmology_compute_growth(): integral for linear growth factor didn't converge\n")
          "ccl_background.c: ccl_cosmology_compute_growth(): integral for MG growth factor didn't converge\n").computed_growth
          = cosmo.computed_growth from rfl, hc] at h1
        cases h1
      · simp only [if_neg hchi]
        exact growth_outcome_failure cosmo _ _ (by decide)
    · simp only [if_neg hmg]
      by_cases hchi : st.chistatus ≠ 0
      · simp only [if_pos hchi]
        exact growth_outcome_failure cosmo _ _ (by decide)
      · simp only [if_neg hchi]
        have hs : st.status ≠ 0 := by
          rcases hfail with h | h | h
          · exact absurd h hchi
          · exact absurd h hmg
          · exact h
        refine ⟨fun _ => same_up_to_message_refl _, ?_, fun h0 => absurd h0 hs⟩
        intro hc h1
        rw [hc] at h1
        cases h1
  · rw [if_neg hfail]
    have hs : st.status = 0 := by
      by_contra h
      exact hfail (Or.inr (Or.inr h))
    by_cases hD : env.gsl_spline_init a (List.map CDouble.val st.y) na ≠ 0
    · rw [if_pos hD]
      exact growth_outcome_failure cosmo _ CCL_ERROR_SPLINE (by decide)
    · rw [if_neg hD]
      by_cases hf : env.gsl_spline_init a st.y2 na ≠ 0
      · rw [if_pos hf]
        exact growth_outcome_failure cosmo _ CCL_ERROR_SPLINE (by decide)
      · rw [if_neg hf]
        exact ⟨fun h0 => absurd hs h0, fun _ _ => ⟨hs, _, _, rfl, rfl⟩, fun _ => ⟨rfl, rfl⟩⟩

theorem growth_tables_outcome (m : libm α) (env : Env α) (cosmo c : ccl_cosmology α)
    (a : List α) (na : Int) (df_a_spline : Option (gsl_spline α)) (status s : Int)
    (h : growth_tables m env cosmo a na df_a_spline status = some (c, s)) :
    growth_outcome cosmo c s := by
  unfold growth_tables at h
  split_ifs at h
  · cases h
    exact growth_outcome_failure cosmo _ _ (by decide)
  · cases h
    exact growth_outcome_failure cosmo _ _ (by decide)
  · simp only [Option.map_eq_some'] at h
    obtain ⟨st, -, h⟩ := h
    have := growth_finish_outcome env cosmo a na
      (growth_factor_and_growth_rate m env 1 env.indeterminate env.indeterminate
        cosmo status).2.1 st
    rw [h] at this
    exact this

/-- An early return of the modified-growth block carries a non-zero status. -/
theorem growth_mgrowth_spline_failure (env : Env α) (cosmo : ccl_cosmology α) (a : List α)
    (na : Int) (e : String × Int)
    (h : growth_mgrowth_spline env cosmo a na = some (.inl e)) : e.2 ≠ 0 := by
  unfold growth_mgrowth_spline at h
  split_ifs at h
  · cases h
    decide
  · cases h
    decide
  · simp only [Option.map_eq_some'] at h
    obtain ⟨r, -, h⟩ := h
    split_ifs at h <;> cases h <;> decide

/-- Outcome of the growth build. -/
theorem compute_growth_outcome (m : libm α) (env : Env α) (cosmo c : ccl_cosmology α)
    (status s : Int)
    (h : ccl_cosmology_compute_growth m env cosmo status = some (c, s)) :
    growth_outcome cosmo c s ∧ (s = 0 → ¬ cosmo.params.N_nu_mass > 0) := by
  unfold ccl_cosmology_compute_growth at h
  by_cases hN : cosmo.params.N_nu_mass > 0
  · rw [if_pos hN] at h
    cases h
    exact ⟨growth_outcome_failure cosmo _ _ (by decide), fun h0 => absurd h0 (by decide)⟩
  rw [if_neg hN] at h
  refine ⟨?_, fun _ => hN⟩
  by_cases hc : cosmo.computed_growth = true
  · rw [if_pos hc] at h
    cases h
    exact ⟨fun _ => same_up_to_message_refl _, fun h0 _ => (by rw [hc] at h0; cases h0),
      fun _ => ⟨hc, rfl⟩⟩
  rw [if_neg hc] at h
  simp only at h
  split at h
  · cases h
    exact growth_outcome_failure cosmo _ _ (by decide)
  · simp only [Option.bind_eq_some] at h
    obtain ⟨a_first, -, a_last, -, h⟩ := h
    split_ifs at h
    · cases h
      exact growth_outcome_failure cosmo _ _ (by decide)
    · simp only [Option.bind_eq_some] at h
      obtain ⟨r, hr, h⟩ := h
      cases r with
      | inl e =>
        simp only at h
        cases h
        exact growth_outcome_failure cosmo _ _ (growth_mgrowth_spline_failure env cosmo _ _ e hr)
      | inr sp => exact growth_tables_outcome m env cosmo c _ _ _ status s h
    · exact growth_tables_outcome m env cosmo c _ _ _ status s h

/-- C9: build atomicity.  Whenever `ccl_cosmology_compute_distances` returns
with a non-zero status, `computed_distances` and the cache fields `E`, `chi`,
`achi` are as on entry (the cosmology changes at most in its diagnostic); the
flag goes from false to true only on a run that ends with status 0 and
installs the three interpolants.  The same holds for
`ccl_cosmology_compute_growth` with `computed_growth`, `growth`, `fgrowth` and
`growth0`. -/
theorem C9_build_atomicity [FloorRing α] (m : libm α) (env : Env α)
    (cosmo : ccl_cosmology α) (status : Int) :
    (∀ c s, ccl_cosmology_compute_distances m env cosmo status = some (c, s) →
      (s ≠ 0 →
        c.computed_distances = cosmo.computed_distances ∧ c.data.E = cosmo.data.E ∧
        c.data.chi = cosmo.data.chi ∧ c.data.achi = cosmo.data.achi ∧
        same_up_to_message cosmo c) ∧
      (cosmo.computed_distances = false → c.computed_distances = true →
        s = 0 ∧ ∃ E chi achi, c.data.E = some E ∧ c.data.chi = some chi ∧
          c.data.achi = some achi)) ∧
    (∀ c s, ccl_cosmology_compute_growth m env cosmo status = some (c, s) →
      (s ≠ 0 →
        c.computed_growth = cosmo.computed_growth ∧ c.data.growth = cosmo.data.growth ∧
        c.data.fgrowth = cosmo.data.fgrowth ∧ c.data.growth0 = cosmo.data.growth0 ∧
        same_up_to_message cosmo c) ∧
      (cosmo.computed_growth = false → c.computed_growth = true →
        s = 0 ∧ ∃ g f, c.data.growth = some g ∧ c.data.fgrowth = some f)) := by
  constructor
  · intro c s h
    obtain ⟨h1, h2, -⟩ := compute_distances_outcome m env cosmo c status s h
    refine ⟨fun hs => ?_, h2⟩
    have hm := h1 hs
    refine ⟨?_, ?_, ?_, ?_, hm⟩ <;> rw [hm]
  · intro c s h
    obtain ⟨⟨h1, h2, -⟩, -⟩ := compute_growth_outcome m env cosmo c status s h
    refine ⟨fun hs => ?_, h2⟩
    have hm := h1 hs
    refine ⟨?_, ?_, ?_, ?_, hm⟩ <;> rw [hm]

/-- C9 on two failing builds: the distance build of the configuration with
maximum scale factor 1.5, and the growth build when the grid helper returns
NULL. -/
theorem C9_build_atomicity_witness :
    (ccl_cosmology_compute_distances libm_real example_env bad_grid_cosmology 0 =
      some (ccl_cosmology_set_status_message (bad_grid_cosmology : ccl_cosmology ℝ)
        "ccl_background.c: scale factor cannot be larger than 1.\n", CCL_ERROR_COMPUTECHI) ∧
     CCL_ERROR_COMPUTECHI ≠ 0 ∧
     (ccl_cosmology_set_status_message (bad_grid_cosmology : ccl_cosmology ℝ)
        "ccl_background.c: scale factor cannot be larger than 1.\n").computed_distances
       = (bad_grid_cosmology : ccl_cosmology ℝ).computed_distances) ∧
    (ccl_cosmology_compute_growth libm_real example_env flat_lcdm 0 =
      some (ccl_cosmology_set_status_message (flat_lcdm : ccl_cosmology ℝ)
        "ccl_background.c: ccl_cosmology_compute_growth(): Error creating logarithmically and then linear spacing in a\n",
        CCL_ERROR_LINSPACE) ∧
     CCL_ERROR_LINSPACE ≠ 0 ∧
     (ccl_cosmology_set_status_message (flat_lcdm : ccl_cosmology ℝ)
        "ccl_background.c: ccl_cosmology_compute_growth(): Error creating logarithmically and then linear spacing in a\n").data.growth
       = (flat_lcdm : ccl_cosmology ℝ).data.growth) := by
  have hd : ccl_cosmology_compute_distances libm_real example_env bad_grid_cosmology 0 =
      some (ccl_cosmology_set_status_message (bad_grid_cosmology : ccl_cosmology ℝ)
        "ccl_background.c: scale factor cannot be larger than 1.\n", CCL_ERROR_COMPUTECHI) :=
    compute_distances_bad_grid libm_real example_env bad_grid_cosmology 0 rfl
      (by simp only [bad_grid_cosmology]; norm_num)
  have hg : ccl_cosmology_compute_growth libm_real example_env flat_lcdm 0 =
      some (ccl_cosmology_set_status_message (flat_lcdm : ccl_cosmology ℝ)
        "ccl_background.c: ccl_cosmology_compute_growth(): Error creating logarithmically and then linear spacing in a\n",
        CCL_ERROR_LINSPACE) := by
    unfold ccl_cosmology_compute_growth
    rw [if_neg (show ¬ (flat_lcdm : ccl_cosmology ℝ).params.N_nu_mass > 0 by decide),
      if_neg (show ¬ (flat_lcdm : ccl_cosmology ℝ).computed_growth = true by decide)]
    rfl
  exact ⟨⟨hd, by decide,
      ((((C9_build_atomicity libm_real example_env bad_grid_cosmology 0).1 _ _ hd).1
        (by decide)).1)⟩,
    ⟨hg, by decide,
      ((((C9_build_atomicity libm_real example_env flat_lcdm 0).2 _ _ hg).1
        (by decide)).2.1)⟩⟩

/-- C10: idempotence of the builders.  With `computed_distances` true
`ccl_cosmology_compute_distances` changes neither the cosmology nor the
status; with `computed_growth` true and no massive neutrinos
`ccl_cosmology_compute_growth` changes neither; and after a build that ends
with status 0 a second build changes nothing. -/
theorem C10_builders_idempotent [FloorRing α] (m : libm α) (env : Env α)
    (cosmo : ccl_cosmology α) (status : Int) :
    (cosmo.computed_distances = true →
      ccl_cosmology_compute_distances m env cosmo status = some (cosmo, status)) ∧
    (cosmo.computed_growth = true → cosmo.params.N_nu_mass ≤ 0 →
      ccl_cosmology_compute_growth m env cosmo status = some (cosmo, status)) ∧
    (∀ c, ccl_cosmology_compute_distances m env cosmo status = some (c, 0) →
      ccl_cosmology_compute_distances m env c 0 = some (c, 0)) ∧
    (∀ c, ccl_cosmology_compute_growth m env cosmo status = some (c, 0) →
      ccl_cosmology_compute_growth m env c 0 = some (c, 0)) := by
  have hd : ∀ (c : ccl_cosmology α) (s : Int), c.computed_distances = true →
      ccl_cosmology_compute_distances m env c s = some (c, s) := by
    intro c s hc
    unfold ccl_cosmology_compute_distances
    rw [if_pos hc]
  have hg : ∀ (c : ccl_cosmology α) (s : Int), c.computed_growth = true →
      c.params.N_nu_mass ≤ 0 → ccl_cosmology_compute_growth m env c s = some (c, s) := by
    intro c s hc hN
    unfold ccl_cosmology_compute_growth
    rw [if_neg (not_lt.mpr hN), if_pos hc]
  refine ⟨hd cosmo status, hg cosmo status, ?_, ?_⟩
  · intro c h
    exact hd c 0 ((compute_distances_outcome m env cosmo c status 0 h).2.2 rfl)
  · intro c h
    obtain ⟨⟨-, -, h3⟩, hN⟩ := compute_growth_outcome m env cosmo c status 0 h
    obtain ⟨hc, hp⟩ := h3 rfl
    exact hg c 0 hc (by rw [hp]; exact not_lt.mp (hN rfl))

/-! ## A build that succeeds -/

/-- Without massive neutrinos `h_over_h0` leaves the status alone. -/
theorem small_grid_status (env : Env ℝ) (a : ℝ) (s : Int) :
    (h_over_h0 libm_real env a small_grid_cosmology s).2 = s := by
  apply h_over_h0_status
  simp only [small_grid_cosmology, flat_lcdm]
  norm_num

/-- Under `working_env` the inverse solve stops at its first convergence test
and keeps the warm-start value. -/
theorem working_env_a_of_chi (m : libm α) (chi : α) (cosmo : ccl_cosmology α) (s : Int)
    (a_old : α) :
    a_of_chi m working_env chi cosmo s a_old = (if chi = 0 then 1 else a_old, s) := by
  unfold a_of_chi
  split_ifs with h
  · rfl
  · simp only
    unfold a_of_chi_loop
    simp [working_env, example_env, GSL_CONTINUE, GSL_SUCCESS]

/-- The distance build of the small-grid cosmology under `working_env` ends
with status 0; the abscissas of its inverse table, the chi grid, are 0, 9.999
and 19.998. -/
theorem small_grid_distances_table :
    ∃ c, ccl_cosmology_compute_distances libm_real working_env small_grid_cosmology 0
      = some (c, 0) ∧
      c.data.achi.map (fun sp => sp.x) = some [0, 9999 / 1000, 9999 / 500] := by
  have e2 : (2 : ℤ).toNat = 2 := rfl
  have e3 : (3 : ℤ).toNat = 3 := rfl
  have r3 : List.range 3 = [0, 1, 2] := rfl
  have r1 : List.range 1 = [0] := rfl
  have hmalloc : ∀ k n, (working_env : Env ℝ).malloc k n = true := fun _ _ => rfl
  have hlinlog : ∀ a b c d e, (working_env : Env ℝ).ccl_linlog_spacing a b c d e
      = some [a, b, c] := fun _ _ _ _ _ => rfl
  have hinit : ∀ x y n, (working_env : Env ℝ).gsl_spline_init x y n = 0 := fun _ _ _ => rfl
  have hcquad : ∀ f a b e1 e2 s, (working_env : Env ℝ).gsl_integration_cquad f a b e1 e2 s
      = (0, 14 * (b - a), s) := fun _ _ _ _ _ _ => rfl
  have hind : (working_env : Env ℝ).indeterminate = 0 := rfl
  have hNA : (small_grid_cosmology : ccl_cosmology ℝ).spline_params.A_SPLINE_NA = 2 := rfl
  have hNLOG : (small_grid_cosmology : ccl_cosmology ℝ).spline_params.A_SPLINE_NLOG = 2 := rfl
  have hMINLOG : (small_grid_cosmology : ccl_cosmology ℝ).spline_params.A_SPLINE_MINLOG
      = 0.0001 := rfl
  have hMIN : (small_grid_cosmology : ccl_cosmology ℝ).spline_params.A_SPLINE_MIN = 0.1 := rfl
  have hMAX : (small_grid_cosmology : ccl_cosmology ℝ).spline_params.A_SPLINE_MAX = 1 := rfl
  have hh : (small_grid_cosmology : ccl_cosmology ℝ).params.h = 0.7 := rfl
  have hcd : (small_grid_cosmology : ccl_cosmology ℝ).computed_distances = false := rfl
  have hlin : ∀ lo hi : ℝ, (working_env : Env ℝ).ccl_linear_spacing lo hi 3
      = some [lo + (hi - lo) * 0 / 2, lo + (hi - lo) * 1 / 2, lo + (hi - lo) * 2 / 2] := by
    intro lo hi
    simp only [working_env, e3, r3, List.map]
    norm_num
  unfold ccl_cosmology_compute_distances
  rw [if_neg (by simp [hcd]), if_neg (by rw [hMAX]; norm_num)]
  have h1 : distances_check_grid (distances_alloc (working_env : Env ℝ) small_grid_cosmology 0)
      = some (distances_alloc working_env small_grid_cosmology 0) := by
    unfold distances_check_grid
    norm_num [distances_alloc, array_get, hmalloc, hlinlog, hNA, hNLOG, hMINLOG, hMAX, e2]
  rw [h1, Option.some_bind]
  unfold distances_fill_E
  norm_num [distances_alloc, array_get, hmalloc, hlinlog, hNA, hNLOG, hMINLOG, hMIN, hMAX, e2, e3,
    r3, List.foldlM, small_grid_status]
  unfold distances_init_E
  norm_num [hinit]
  unfold distances_fill_chi
  norm_num [e3, r3, List.foldlM, compute_chi, hcquad, GSL_SUCCESS, hh]
  unfold distances_init_chi
  norm_num [hinit]
  unfold distances_boundaries
  norm_num [array_get, e2]
  unfold distances_alloc_inverse
  norm_num [array_get, e2, e3, double_to_int, hmalloc, hlin, hind]
  unfold distances_solve_inverse
  norm_num [e3, r1, List.foldlM, working_env_a_of_chi]
  unfold distances_init_achi
  norm_num [hinit]
  unfold distances_install
  norm_num

/-- The distance build of the small-grid cosmology under `working_env` ends
with status 0. -/
theorem small_grid_distances_build :
    ∃ c, ccl_cosmology_compute_distances libm_real working_env small_grid_cosmology 0
      = some (c, 0) :=
  small_grid_distances_table.imp fun _ h => h.1

/-- The growth build of the small-grid cosmology under `working_env` ends with
status 0. -/
theorem small_grid_growth_build :
    ∃ c, ccl_cosmology_compute_growth libm_real working_env small_grid_cosmology 0
      = some (c, 0) := by
  have e2 : (2 : ℤ).toNat = 2 := rfl
  have e3 : (3 : ℤ).toNat = 3 := rfl
  have r3 : List.range 3 = [0, 1, 2] := rfl
  have hmalloc : ∀ k n, (working_env : Env ℝ).malloc k n = true := fun _ _ => rfl
  have hlinlog : ∀ a b c d e, (working_env : Env ℝ).ccl_linlog_spacing a b c d e
      = some [a, b, c] := fun _ _ _ _ _ => rfl
  have hinit : ∀ x y n, (working_env : Env ℝ).gsl_spline_init x y n = 0 := fun _ _ _ => rfl
  have hode : ∀ f h0 e1 e2 t0 t1 y,
      (working_env : Env ℝ).gsl_odeiv2_driver_apply f h0 e1 e2 t0 t1 y = (0, y) :=
    fun _ _ _ _ _ _ _ => rfl
  have hNA : (small_grid_cosmology : ccl_cosmology ℝ).spline_params.A_SPLINE_NA = 2 := rfl
  have hNLOG : (small_grid_cosmology : ccl_cosmology ℝ).spline_params.A_SPLINE_NLOG = 2 := rfl
  have hMINLOG : (small_grid_cosmology : ccl_cosmology ℝ).spline_params.A_SPLINE_MINLOG
      = 0.0001 := rfl
  have hMIN : (small_grid_cosmology : ccl_cosmology ℝ).spline_params.A_SPLINE_MIN = 0.1 := rfl
  have hMAX : (small_grid_cosmology : ccl_cosmology ℝ).spline_params.A_SPLINE_MAX = 1 := rfl
  have hEPS : (small_grid_cosmology : ccl_cosmology ℝ).gsl_params.EPS_SCALEFAC_GROWTH
      = 1e-6 := rfl
  have hmg : (small_grid_cosmology : ccl_cosmology ℝ).params.has_mgrowth = false := rfl
  have hN : (small_grid_cosmology : ccl_cosmology ℝ).params.N_nu_mass = 0 := rfl
  have hcg : (small_grid_cosmology : ccl_cosmology ℝ).computed_growth = false := rfl
  unfold ccl_cosmology_compute_growth
  norm_num [hN, hcg, hlinlog, hNA, hNLOG, hMINLOG, hMIN, hMAX, array_get, e2, hmg]
  unfold growth_tables
  norm_num [hmalloc, e3, r3, List.foldlM, growth_loop_body, hmg, growth_factor_and_growth_rate,
    hEPS, hode, GSL_SUCCESS, small_grid_status, int_lor_zero_left]
  unfold growth_finish
  norm_num [hinit]

/-- C10 on tables that are built, and on the two builds of the small-grid
cosmology, which succeed from the unbuilt state. -/
theorem C10_builders_idempotent_witness :
    ((built_cosmology : ccl_cosmology ℝ).computed_distances = true ∧
      ccl_cosmology_compute_distances libm_real example_env built_cosmology 7
        = some (built_cosmology, 7)) ∧
    ((built_cosmology : ccl_cosmology ℝ).computed_growth = true ∧
      (built_cosmology : ccl_cosmology ℝ).params.N_nu_mass ≤ 0 ∧
      ccl_cosmology_compute_growth libm_real example_env built_cosmology 7
        = some (built_cosmology, 7)) ∧
    (∃ c, ccl_cosmology_compute_distances libm_real working_env small_grid_cosmology 0
        = some (c, 0) ∧
      ccl_cosmology_compute_distances libm_real working_env c 0 = some (c, 0)) ∧
    (∃ c, ccl_cosmology_compute_growth libm_real working_env small_grid_cosmology 0
        = some (c, 0) ∧
      ccl_cosmology_compute_growth libm_real working_env c 0 = some (c, 0)) :=
  ⟨⟨rfl, (C10_builders_idempotent libm_real example_env built_cosmology 7).1 rfl⟩,
   ⟨rfl, by decide,
    (C10_builders_idempotent libm_real example_env built_cosmology 7).2.1 rfl (by decide)⟩,
   small_grid_distances_build.elim fun c hc =>
    ⟨c, hc, (C10_builders_idempotent libm_real working_env small_grid_cosmology 0).2.2.1 c hc⟩,
   small_grid_growth_build.elim fun c hc =>
    ⟨c, hc, (C10_builders_idempotent libm_real working_env small_grid_cosmology 0).2.2.2 c hc⟩⟩

/-! ## Theorems: vectorized queries and special cases -/

theorem take_succ_set {β : Type} (l : List β) (n : Nat) (v : β) (h : n < l.length) :
    (l.set n v).take (n + 1) = l.take n ++ [v] := by
  induction l generalizing n with
  | nil => simp at h
  | cons x xs ih =>
    cases n with
    | zero => simp
    | succ k =>
      simp only [List.set_cons_succ, List.take_succ_cons, List.cons_append]
      rw [ih k (by simpa using h)]

/-- The loop of a vectorized query, entered at index `pre.length` with the
elements `rest` still to do, runs the scalar query over `rest` in order. -/
theorem vectorized_loop_eq
    (scalar : ccl_cosmology α → α → Int → Option (CDouble α × ccl_cosmology α × Int))
    (rest pre : List α) (out : List (CDouble α)) (c : ccl_cosmology α) (s : Int)
    (hlen : out.length = pre.length + rest.length) :
    (List.range' pre.length rest.length).foldlM
        (fun (acc : List (CDouble α) × ccl_cosmology α × Int) i =>
          ((pre ++ rest)[i]?).bind fun ai =>
          (scalar acc.2.1 ai 0).bind fun r =>
          if i < acc.1.length then some (acc.1.set i r.1, r.2.1, Int.lor acc.2.2 r.2.2)
          else none)
        (out, c, s) =
      (scalar_sequence scalar c rest).map fun t =>
        (out.take pre.length ++ t.1.map Prod.fst ++ out.drop (pre.length + rest.length), t.2,
         (t.1.map Prod.snd).foldl Int.lor s) := by
  induction rest generalizing pre out c s with
  | nil =>
    simp [scalar_sequence, List.range', pure]
  | cons x xs ih =>
    have hget : (pre ++ x :: xs)[pre.length]? = some x := by
      rw [List.getElem?_append_right (le_refl _)]
      simp
    have hlt : pre.length < out.length := by rw [hlen]; simp
    rw [List.length_cons, List.range'_succ, List.foldlM_cons]
    simp only [hget, Option.some_bind, scalar_sequence]
    cases hr : scalar c x 0 with
    | none => simp
    | some r =>
      simp only [Option.some_bind, if_pos hlt, Option.bind_eq_bind, Option.map_map]
      have hpre : pre ++ x :: xs = (pre ++ [x]) ++ xs := by simp
      have hl2 : (out.set pre.length r.1).length = (pre ++ [x]).length + xs.length := by
        simp [hlen]; omega
      have := ih (pre ++ [x]) (out.set pre.length r.1) r.2.1 (Int.lor s r.2.2) hl2
      simp only [List.length_append, List.length_singleton] at this
      rw [← hpre] at this
      rw [this]
      congr 1
      funext t
      simp only [Function.comp, List.map_cons, List.foldl_cons]
      rw [take_succ_set out pre.length r.1 hlt]
      simp [List.drop_set_of_lt, Nat.add_assoc, Nat.add_comm 1]

/-- The shared loop meets the element-wise contract for every scalar query. -/
theorem vectorized_query_contract
    (scalar : ccl_cosmology α → α → Int → Option (CDouble α × ccl_cosmology α × Int)) :
    elementwise_contract (vectorized_query scalar) scalar := by
  intro cosmo a output status hlen
  unfold vectorized_query
  have h := vectorized_loop_eq scalar a [] output cosmo status (by simpa using hlen)
  simp only [List.length_nil, List.nil_append, List.take_zero, Nat.zero_add] at h
  rw [Int.toNat_ofNat, List.range_eq_range', h]
  congr 1
  funext t
  rw [← hlen, List.drop_length, List.append_nil]

/-- With `na = 0` the loop does nothing. -/
theorem vectorized_query_zero
    (scalar : ccl_cosmology α → α → Int → Option (CDouble α × ccl_cosmology α × Int))
    (cosmo : ccl_cosmology α) (a : List α) (output : List (CDouble α)) (status : Int) :
    vectorized_query scalar cosmo 0 a output status = some (output, cosmo, status) := by
  unfold vectorized_query
  rfl

/-- C11: each of the nine vectorized queries meets the element-wise
contract over its scalar query: on an input sequence of length n every
`output[i]` with i < n is the value of the scalar query on `a[i]`, started
with status 0 on the cosmology left by the elements before it, and the
final status is the entry status OR'ed with every per-element status, so
an element that fails does not stop the later ones; with n = 0 output,
cosmology and status are left as they were. -/
theorem C11_vectorized_queries_elementwise [FloorRing α] (m : libm α) (env : Env α) :
    elementwise_contract (ccl_h_over_h0s m env) (ccl_h_over_h0 m env) ∧
    elementwise_contract (ccl_comoving_radial_distances m env)
      (ccl_comoving_radial_distance m env) ∧
    elementwise_contract (ccl_comoving_angular_distances m env)
      (ccl_comoving_angular_distance m env) ∧
    elementwise_contract (ccl_luminosity_distances m env) (ccl_luminosity_distance m env) ∧
    elementwise_contract (ccl_distance_moduli m env) (ccl_distance_modulus m env) ∧
    elementwise_contract (ccl_scale_factor_of_chis m env) (ccl_scale_factor_of_chi m env) ∧
    elementwise_contract (ccl_growth_factors m env) (ccl_growth_factor m env) ∧
    elementwise_contract (ccl_growth_factors_unnorm m env) (ccl_growth_factor_unnorm m env) ∧
    elementwise_contract (ccl_growth_rates m env) (ccl_growth_rate m env) ∧
    (∀ (cosmo : ccl_cosmology α) (a : List α) (output : List (CDouble α)) (status : Int),
      ccl_h_over_h0s m env cosmo 0 a output status = some (output, cosmo, status) ∧
      ccl_comoving_radial_distances m env cosmo 0 a output status
        = some (output, cosmo, status) ∧
      ccl_comoving_angular_distances m env cosmo 0 a output status
        = some (output, cosmo, status) ∧
      ccl_luminosity_distances m env cosmo 0 a output status = some (output, cosmo, status) ∧
      ccl_distance_moduli m env cosmo 0 a output status = some (output, cosmo, status) ∧
      ccl_scale_factor_of_chis m env cosmo 0 a output status = some (output, cosmo, status) ∧
      ccl_growth_factors m env cosmo 0 a output status = some (output, cosmo, status) ∧
      ccl_growth_factors_unnorm m env cosmo 0 a output status
        = some (output, cosmo, status) ∧
      ccl_growth_rates m env cosmo 0 a output status = some (output, cosmo, status)) :=
  ⟨vectorized_query_contract _, vectorized_query_contract _, vectorized_query_contract _,
   vectorized_query_contract _, vectorized_query_contract _, vectorized_query_contract _,
   vectorized_query_contract _, vectorized_query_contract _, vectorized_query_contract _,
   fun cosmo a output status =>
    ⟨vectorized_query_zero _ cosmo a output status,
     vectorized_query_zero _ cosmo a output status,
     vectorized_query_zero _ cosmo a output status,
     vectorized_query_zero _ cosmo a output status,
     vectorized_query_zero _ cosmo a output status,
     vectorized_query_zero _ cosmo a output status,
     vectorized_query_zero _ cosmo a output status,
     vectorized_query_zero _ cosmo a output status,
     vectorized_query_zero _ cosmo a output status⟩⟩

/-- C11 on a batch with two failing elements: the growth factors at
a = 1/2, 1, 3/2 of the cosmology with a massive neutrino species.  The
outputs are NaN, 1, NaN and the status is 1040 | 0 | 1033 = 1049. -/
theorem C11_vectorized_queries_elementwise_witness :
    ([CDouble.val 0, CDouble.val 0, CDouble.val 0] : List (CDouble ℝ)).length
      = ([1 / 2, 1, 3 / 2] : List ℝ).length ∧
    (ccl_growth_factors libm_real example_env massive_nu_cosmology 3 [1 / 2, 1, 3 / 2]
        [CDouble.val 0, CDouble.val 0, CDouble.val 0] 0).map (fun r => (r.1, r.2.2))
      = some ([CDouble.NaN, CDouble.val 1, CDouble.NaN], 1049) := by
  refine ⟨rfl, ?_⟩
  have h := (C11_vectorized_queries_elementwise libm_real example_env).2.2.2.2.2.2.1
    massive_nu_cosmology [1 / 2, 1, 3 / 2] [CDouble.val 0, CDouble.val 0, CDouble.val 0] 0 rfl
  have e1 : ccl_growth_factor libm_real example_env massive_nu_cosmology (1 / 2) 0
      = some (massive_nu_outcome massive_nu_cosmology) := by
    unfold ccl_growth_factor
    rw [if_neg (by norm_num), if_neg (by norm_num),
      ensure_growth_massive_nu libm_real example_env massive_nu_cosmology 0 (by decide) rfl]
    rfl
  have e2 : ∀ c : ccl_cosmology ℝ,
      ccl_growth_factor libm_real example_env c 1 0 = some (CDouble.val 1, c, 0) := by
    intro c
    unfold ccl_growth_factor
    rw [if_pos rfl]
  have e3 : ∀ c : ccl_cosmology ℝ,
      ccl_growth_factor libm_real example_env c (3 / 2) 0 = some (above_one_outcome c) := by
    intro c
    unfold ccl_growth_factor
    rw [if_neg (by norm_num), if_pos (by norm_num)]
    rfl
  have hlen : (([1 / 2, 1, 3 / 2] : List ℝ).length : Int) = 3 := rfl
  rw [hlen] at h
  rw [h]
  simp only [scalar_sequence, e1, e2, e3, Option.some_bind, Option.map_some',
    massive_nu_outcome, above_one_outcome]
  rfl

/-- C12: the exact special cases.  For every cosmology, built or not,
`ccl_comoving_radial_distance` and `ccl_comoving_angular_distance` at a = 1
return 0, `ccl_growth_factor` at a = 1 returns 1 and
`ccl_scale_factor_of_chi` at chi = 0 returns 1; each returns the cosmology
and the status it was given, whatever the collaborators are, so nothing is
built or evaluated. -/
theorem C12_exact_special_cases [FloorRing α] (m : libm α) (env : Env α)
    (cosmo : ccl_cosmology α) (status : Int) :
    ccl_comoving_radial_distance m env cosmo 1 status = some (CDouble.val 0, cosmo, status) ∧
    ccl_comoving_angular_distance m env cosmo 1 status = some (CDouble.val 0, cosmo, status) ∧
    ccl_growth_factor m env cosmo 1 status = some (CDouble.val 1, cosmo, status) ∧
    ccl_scale_factor_of_chi m env cosmo 0 status = some (CDouble.val 1, cosmo, status) := by
  have h1 : (1 : α) > 1 - 1e-8 ∧ (1 : α) ≤ 1 := ⟨by norm_num, le_refl _⟩
  have h0 : (0 : α) < 1e-8 ∧ (0 : α) ≥ 0 := ⟨by norm_num, le_refl _⟩
  refine ⟨?_, ?_, ?_, ?_⟩
  · unfold ccl_comoving_radial_distance
    rw [if_pos h1]
  · unfold ccl_comoving_angular_distance
    rw [if_pos h1]
  · unfold ccl_growth_factor
    rw [if_pos rfl]
  · unfold ccl_scale_factor_of_chi
    rw [if_pos h0]

/-- C13: for every a below the early-growth cutoff `EPS_SCALEFAC_GROWTH`,
`growth_factor_and_growth_rate` returns 0 with D = a and f = 1 and leaves the
status unchanged; the result is the same for every math library and every
collaborator, so neither the ODE driver nor E(a) is consulted. -/
theorem C13_growth_below_cutoff (m : libm α) (env : Env α) (a gf fg : α)
    (cosmo : ccl_cosmology α) (stat : Int)
    (ha : a < cosmo.gsl_params.EPS_SCALEFAC_GROWTH) :
    growth_factor_and_growth_rate m env a gf fg cosmo stat = (0, a, 1, stat) ∧
    ∀ (m2 : libm α) (env2 : Env α),
      growth_factor_and_growth_rate m2 env2 a gf fg cosmo stat
        = growth_factor_and_growth_rate m env a gf fg cosmo stat := by
  have h : ∀ (m2 : libm α) (env2 : Env α),
      growth_factor_and_growth_rate m2 env2 a gf fg cosmo stat = (0, a, 1, stat) := by
    intro m2 env2
    unfold growth_factor_and_growth_rate
    rw [if_pos ha]
  exact ⟨h m env, fun m2 env2 => by rw [h m2 env2, h m env]⟩

/-- C13 at the flat cosmology, whose cutoff is 1e-6, and a = 1e-7. -/
theorem C13_growth_below_cutoff_witness :
    (1e-7 : ℝ) < (flat_lcdm : ccl_cosmology ℝ).gsl_params.EPS_SCALEFAC_GROWTH ∧
    growth_factor_and_growth_rate libm_real example_env 1e-7 5 5 flat_lcdm 0
      = (0, 1e-7, 1, 0) :=
  have h : (1e-7 : ℝ) < (flat_lcdm : ccl_cosmology ℝ).gsl_params.EPS_SCALEFAC_GROWTH := by
    simp only [flat_lcdm]
    norm_num
  ⟨h, (C13_growth_below_cutoff libm_real example_env 1e-7 5 5 flat_lcdm 0 h).1⟩

/-- C19: for every a and every label outside the seven recognised values
`ccl_omega_x` returns NaN and sets the status to `CCL_ERROR_PARAMETERS`; for
the critical label it returns exactly 1 for every a. -/
theorem C19_omega_x_labels (m : libm α) (env : Env α) (cosmo : ccl_cosmology α) (a : α)
    (code : Int) (status : Int) :
    ccl_omega_x m env cosmo a (ccl_species_x_label.unsupported code) status
      = (CDouble.NaN, CCL_ERROR_PARAMETERS) ∧
    (ccl_omega_x m env cosmo a ccl_species_crit_label status).1 = CDouble.val 1 :=
  ⟨rfl, rfl⟩

/-- C17 (as amended): on a cosmology whose distances are not computed and
whose configured `A_SPLINE_MAX` exceeds 1, `ccl_cosmology_compute_distances`
returns at once, for every status on entry, with the status
`CCL_ERROR_COMPUTECHI`, which is not the ParameterError code; it records the
diagnostic, builds nothing and leaves `computed_distances` false. -/
theorem C17_grid_maximum_above_one [FloorRing α] (m : libm α) (env : Env α)
    (cosmo : ccl_cosmology α) (status : Int) (hc : cosmo.computed_distances = false)
    (hmax : cosmo.spline_params.A_SPLINE_MAX > 1) :
    ccl_cosmology_compute_distances m env cosmo status =
      some (ccl_cosmology_set_status_message cosmo
        "ccl_background.c: scale factor cannot be larger than 1.\n", CCL_ERROR_COMPUTECHI) ∧
    CCL_ERROR_COMPUTECHI ≠ CCL_ERROR_PARAMETERS ∧
    (ccl_cosmology_set_status_message cosmo
        "ccl_background.c: scale factor cannot be larger than 1.\n").computed_distances = false ∧
    (ccl_cosmology_set_status_message cosmo
        "ccl_background.c: scale factor cannot be larger than 1.\n").data = cosmo.data ∧
    ∀ (m2 : libm α) (env2 : Env α),
      ccl_cosmology_compute_distances m2 env2 cosmo status
        = ccl_cosmology_compute_distances m env cosmo status := by
  refine ⟨compute_distances_bad_grid m env cosmo status hc hmax, by decide, hc, rfl, ?_⟩
  intro m2 env2
  rw [compute_distances_bad_grid m env cosmo status hc hmax,
    compute_distances_bad_grid m2 env2 cosmo status hc hmax]

/-- C17 at the configuration with `A_SPLINE_MAX = 1.5`. -/
theorem C17_grid_maximum_above_one_witness :
    (bad_grid_cosmology : ccl_cosmology ℝ).computed_distances = false ∧
    (bad_grid_cosmology : ccl_cosmology ℝ).spline_params.A_SPLINE_MAX > 1 ∧
    ccl_cosmology_compute_distances libm_real example_env bad_grid_cosmology 0 =
      some (ccl_cosmology_set_status_message (bad_grid_cosmology : ccl_cosmology ℝ)
        "ccl_background.c: scale factor cannot be larger than 1.\n", CCL_ERROR_COMPUTECHI) :=
  have hmax : (bad_grid_cosmology : ccl_cosmology ℝ).spline_params.A_SPLINE_MAX > 1 := by
    simp only [bad_grid_cosmology]
    norm_num
  ⟨rfl, hmax,
   (C17_grid_maximum_above_one libm_real example_env bad_grid_cosmology 0 rfl hmax).1⟩

/-- C17 as stated fails: with `A_SPLINE_MAX = 1.5` and status 0 the build
leaves the status `CCL_ERROR_COMPUTECHI`, which differs from
`CCL_ERROR_PARAMETERS`. -/
theorem C17_counterexample :
    (ccl_cosmology_compute_distances libm_real example_env bad_grid_cosmology 0).map
        (fun r => r.2) = some CCL_ERROR_COMPUTECHI ∧
    CCL_ERROR_COMPUTECHI ≠ CCL_ERROR_PARAMETERS := by
  refine ⟨?_, by decide⟩
  rw [compute_distances_bad_grid libm_real example_env bad_grid_cosmology 0 rfl
    (by simp only [bad_grid_cosmology]; norm_num)]
  rfl

/-- C20: `ccl_sinn` over the reals.  With `k_sign = 0` it returns chi
unchanged and leaves the status alone.  With `k_sign = 1` and `sqrtk > 0`
the value v satisfies |v * sqrtk| <= 1 and is the same at chi and at
chi + 2 pi / sqrtk.  With `k_sign = -1` and `sqrtk > 0` the value satisfies
v * sqrtk = sinh (sqrtk * chi) and is strictly increasing in chi.  In all
three cases cosmology and status are returned as given. -/
theorem C20_sinn_by_curvature_sign (cosmo : ccl_cosmology ℝ) (chi : ℝ) (status : Int) :
    (cosmo.params.k_sign = 0 →
      ∀ c : CDouble ℝ, ccl_sinn libm_real cosmo c status = (c, cosmo, status)) ∧
    (cosmo.params.k_sign = 1 → 0 < cosmo.params.sqrtk →
      ∃ v, ccl_sinn libm_real cosmo (CDouble.val chi) status = (CDouble.val v, cosmo, status) ∧
        |v * cosmo.params.sqrtk| ≤ 1 ∧
        ccl_sinn libm_real cosmo (CDouble.val (chi + 2 * Real.pi / cosmo.params.sqrtk)) status
          = (CDouble.val v, cosmo, status)) ∧
    (cosmo.params.k_sign = -1 → 0 < cosmo.params.sqrtk →
      ∃ v, ccl_sinn libm_real cosmo (CDouble.val chi) status = (CDouble.val v, cosmo, status) ∧
        v * cosmo.params.sqrtk = Real.sinh (cosmo.params.sqrtk * chi) ∧
        ∀ chi2, chi < chi2 →
          ∃ v2, ccl_sinn libm_real cosmo (CDouble.val chi2) status
              = (CDouble.val v2, cosmo, status) ∧ v < v2) := by
  refine ⟨?_, ?_, ?_⟩
  · intro hk c
    unfold ccl_sinn
    rw [if_neg (by rw [hk]; decide), if_neg (by rw [hk]; decide), if_pos hk]
  · intro hk hs
    have hs0 : cosmo.params.sqrtk ≠ 0 := hs.ne'
    have hform : ∀ x : ℝ, ccl_sinn libm_real cosmo (CDouble.val x) status
        = (CDouble.val (Real.sin (cosmo.params.sqrtk * x) / cosmo.params.sqrtk),
           cosmo, status) := by
      intro x
      unfold ccl_sinn
      rw [if_neg (by rw [hk]; decide), if_pos hk]
      rfl
    refine ⟨_, hform chi, ?_, ?_⟩
    · rw [div_mul_cancel₀ _ hs0]
      exact Real.abs_sin_le_one _
    · rw [hform]
      have : cosmo.params.sqrtk * (chi + 2 * Real.pi / cosmo.params.sqrtk)
          = cosmo.params.sqrtk * chi + 2 * Real.pi := by
        field_simp
        ring
      rw [this, Real.sin_add_two_pi]
  · intro hk hs
    have hs0 : cosmo.params.sqrtk ≠ 0 := hs.ne'
    have hform : ∀ x : ℝ, ccl_sinn libm_real cosmo (CDouble.val x) status
        = (CDouble.val (Real.sinh (cosmo.params.sqrtk * x) / cosmo.params.sqrtk),
           cosmo, status) := by
      intro x
      unfold ccl_sinn
      rw [if_pos hk]
      rfl
    refine ⟨_, hform chi, div_mul_cancel₀ _ hs0, ?_⟩
    intro chi2 h12
    refine ⟨_, hform chi2, ?_⟩
    apply div_lt_div_of_pos_right _ hs
    exact Real.sinh_strictMono (mul_lt_mul_of_pos_left h12 hs)

/-- C20 on the flat cosmology, and on a closed and an open one with
`sqrtk = 1/2`. -/
theorem C20_sinn_by_curvature_sign_witness :
    ((flat_lcdm : ccl_cosmology ℝ).params.k_sign = 0 ∧
      ccl_sinn libm_real flat_lcdm (CDouble.val 3) 0 = (CDouble.val 3, flat_lcdm, 0)) ∧
    ((curved_cosmology 1 : ccl_cosmology ℝ).params.k_sign = 1 ∧
      0 < (curved_cosmology 1 : ccl_cosmology ℝ).params.sqrtk ∧
      ∃ v, ccl_sinn libm_real (curved_cosmology 1) (CDouble.val 3) 0
          = (CDouble.val v, curved_cosmology 1, 0) ∧
        |v * (curved_cosmology 1 : ccl_cosmology ℝ).params.sqrtk| ≤ 1) ∧
    ((curved_cosmology (-1) : ccl_cosmology ℝ).params.k_sign = -1 ∧
      0 < (curved_cosmology (-1) : ccl_cosmology ℝ).params.sqrtk ∧
      ∃ v, ccl_sinn libm_real (curved_cosmology (-1)) (CDouble.val 3) 0
          = (CDouble.val v, curved_cosmology (-1), 0) ∧
        v * (curved_cosmology (-1) : ccl_cosmology ℝ).params.sqrtk
          = Real.sinh ((curved_cosmology (-1) : ccl_cosmology ℝ).params.sqrtk * 3)) := by
  have hp : (0 : ℝ) < (curved_cosmology 1 : ccl_cosmology ℝ).params.sqrtk := by
    simp only [curved_cosmology]
    norm_num
  have hn : (0 : ℝ) < (curved_cosmology (-1) : ccl_cosmology ℝ).params.sqrtk := by
    simp only [curved_cosmology]
    norm_num
  refine ⟨⟨rfl, (C20_sinn_by_curvature_sign flat_lcdm 3 0).1 rfl _⟩, ⟨rfl, hp, ?_⟩,
    ⟨rfl, hn, ?_⟩⟩
  · obtain ⟨v, h1, h2, -⟩ := (C20_sinn_by_curvature_sign (curved_cosmology 1) 3 0).2.1 rfl hp
    exact ⟨v, h1, h2⟩
  · obtain ⟨v, h1, h2, -⟩ := (C20_sinn_by_curvature_sign (curved_cosmology (-1)) 3 0).2.2 rfl hn
    exact ⟨v, h1, h2⟩

/-! ## Theorems: growth tables -/

/-- Without massive neutrinos `growth_factor_and_growth_rate` leaves the
status alone. -/
theorem growth_factor_and_growth_rate_status (m : libm α) (env : Env α) (a gf fg : α)
    (cosmo : ccl_cosmology α) (s : Int) (hN : ¬ ((cosmo.params.N_nu_mass : α) > 1e-12)) :
    (growth_factor_and_growth_rate m env a gf fg cosmo s).2.2.2 = s := by
  unfold growth_factor_and_growth_rate
  by_cases h1 : a < cosmo.gsl_params.EPS_SCALEFAC_GROWTH
  · simp only [if_pos h1, h_over_h0_status m env _ cosmo _ hN]
  · simp only [if_neg h1, h_over_h0_status m env _ cosmo _ hN]
    split_ifs <;> rfl

/-- One iteration of the growth loop appends one row to each table. -/
theorem growth_loop_body_row (m : libm α) (env : Env α) (cosmo : ccl_cosmology α)
    (df_a_spline : Option (gsl_spline α)) (growth0 a_i : α) (st st2 : growth_loop_state α)
    (hN : ¬ ((cosmo.params.N_nu_mass : α) > 1e-12))
    (h : growth_loop_body m env cosmo df_a_spline growth0 a_i st = some st2) :
    st2.status = st.status ∧
    st2.y = st.y ++ [growth_row_D m env cosmo df_a_spline growth0 st.status a_i] ∧
    st2.y2 = st.y2 ++ [growth_row_f m env cosmo df_a_spline st.status a_i] ∧
    st2.chistatus = Int.lor st.chistatus
      (growth_factor_and_growth_rate m env a_i env.indeterminate env.indeterminate
        cosmo st.status).1 := by
  unfold growth_loop_body at h
  unfold growth_row_D growth_row_f
  by_cases hmg : cosmo.params.has_mgrowth ∧ a_i > 0
  · simp only [if_pos hmg] at h ⊢
    cases df_a_spline with
    | none => simp at h
    | some sp =>
      simp only [Option.map_some', Option.some.injEq] at h
      subst h
      exact ⟨growth_factor_and_growth_rate_status m env _ _ _ cosmo _ hN, rfl, rfl, rfl⟩
  · simp only [if_neg hmg, Option.some.injEq] at h ⊢
    subst h
    refine ⟨growth_factor_and_growth_rate_status m env _ _ _ cosmo _ hN, ?_, ?_, rfl⟩
    · cases df_a_spline <;> rfl
    · cases df_a_spline <;> rfl

/-- After the growth loop over `n` grid points the tables hold one row per
grid point, in order, and the status is the one on entry. -/
theorem growth_loop_rows (m : libm α) (env : Env α) (cosmo : ccl_cosmology α)
    (a : List α) (df_a_spline : Option (gsl_spline α)) (growth0 : α)
    (hN : ¬ ((cosmo.params.N_nu_mass : α) > 1e-12))
    (n : Nat) (st0 st : growth_loop_state α)
    (h : (List.range n).foldlM
      (fun (st : growth_loop_state α) i =>
        (a[i]?).bind fun ai => growth_loop_body m env cosmo df_a_spline growth0 ai st)
      st0 = some st) :
    st.status = st0.status ∧
    st.y.length = st0.y.length + n ∧ st.y2.length = st0.y2.length + n ∧
    ∀ i, i < n → ∃ a_i, a[i]? = some a_i ∧
      st.y[st0.y.length + i]? = some (growth_row_D m env cosmo df_a_spline growth0 st0.status a_i) ∧
      st.y2[st0.y2.length + i]? = some (growth_row_f m env cosmo df_a_spline st0.status a_i) := by
  induction n generalizing st with
  | zero =>
    simp only [List.range_zero, List.foldlM_nil, pure, Option.some.injEq] at h
    subst h
    exact ⟨rfl, rfl, rfl, fun i hi => absurd hi (Nat.not_lt_zero i)⟩
  | succ k ih =>
    rw [List.range_succ, List.foldlM_append] at h
    simp only [List.foldlM_cons, List.foldlM_nil, Option.bind_eq_bind, Option.bind_eq_some] at h
    obtain ⟨st1, h1, st2, ⟨ak, hak, hbody⟩, hpure⟩ := h
    simp only [pure, Option.some.injEq] at hpure
    subst hpure
    obtain ⟨hs1, hy1, hy21, hrows⟩ := ih st1 h1
    obtain ⟨hs2, hy2, hy22, -⟩ := growth_loop_body_row m env cosmo df_a_spline growth0 ak st1 st2
      hN hbody
    refine ⟨by rw [hs2, hs1], by rw [hy2, List.length_append, hy1]; simp; omega,
      by rw [hy22, List.length_append, hy21]; simp; omega, ?_⟩
    intro i hi
    rcases Nat.lt_succ_iff_lt_or_eq.mp hi with hlt | heq
    · obtain ⟨a_i, hai, hyi, hy2i⟩ := hrows i hlt
      refine ⟨a_i, hai, ?_, ?_⟩
      · rw [hy2, List.getElem?_append_left (by rw [hy1]; omega)]
        exact hyi
      · rw [hy22, List.getElem?_append_left (by rw [hy21]; omega)]
        exact hy2i
    · subst heq
      refine ⟨ak, hak, ?_, ?_⟩
      · rw [hy2, List.getElem?_append_right (by rw [hy1]), hy1, hs1]
        simp
      · rw [hy22, List.getElem?_append_right (by rw [hy21]), hy21, hs1]
        simp

/-- A final step that ends with status 0 installed the two tables and
`growth0`. -/
theorem growth_finish_success (env : Env α) (cosmo c : ccl_cosmology α) (a : List α)
    (na : Int) (growth0 : α) (st : growth_loop_state α)
    (h : growth_finish env cosmo a na growth0 st = (c, 0)) :
    c.data.growth = some ⟨a.take na.toNat, st.y.map CDouble.val⟩ ∧
    c.data.fgrowth = some ⟨a.take na.toNat, st.y2⟩ ∧ c.data.growth0 = growth0 := by
  unfold growth_finish at h
  by_cases hfail : st.chistatus ≠ 0 ∨ st.status_mg ≠ 0 ∨ st.status ≠ 0
  · rw [if_pos hfail] at h
    exfalso
    by_cases hmg : st.status_mg ≠ 0
    · simp only [if_pos hmg, Prod.mk.injEq] at h
      exact absurd h.2 (by decide)
    · simp only [if_neg hmg] at h
      by_cases hchi : st.chistatus ≠ 0
      · simp only [if_pos hchi, Prod.mk.injEq] at h
        exact absurd h.2 (by decide)
      · simp only [if_neg hchi, Prod.mk.injEq] at h
        rcases hfail with h1 | h1 | h1
        · exact hchi h1
        · exact hmg h1
        · exact h1 h.2
  · rw [if_neg hfail] at h
    by_cases hD : env.gsl_spline_init a (List.map CDouble.val st.y) na ≠ 0
    · rw [if_pos hD] at h
      simp only [Prod.mk.injEq] at h
      exact absurd h.2 (by decide)
    · rw [if_neg hD] at h
      by_cases hf : env.gsl_spline_init a st.y2 na ≠ 0
      · rw [if_pos hf] at h
        simp only [Prod.mk.injEq] at h
        exact absurd h.2 (by decide)
      · rw [if_neg hf] at h
        simp only [Prod.mk.injEq] at h
        obtain ⟨h1, -⟩ := h
        subst h1
        exact ⟨rfl, rfl, rfl⟩

/-- The tables installed by a run of `growth_tables` that ends with status 0:
`growth0` is the raw D at `a = 1`, and row `i` of the two tables is the row the
loop stores for the grid point `a[i]`. -/
theorem growth_tables_rows (m : libm α) (env : Env α) (cosmo c : ccl_cosmology α)
    (a : List α) (na : Int) (df_a_spline : Option (gsl_spline α)) (status : Int)
    (hN : ¬ ((cosmo.params.N_nu_mass : α) > 1e-12))
    (h : growth_tables m env cosmo a na df_a_spline status = some (c, 0)) :
    c.data.growth0 =
      (growth_factor_and_growth_rate m env 1 env.indeterminate env.indeterminate
        cosmo status).2.1 ∧
    ∃ yD yf, c.data.growth = some ⟨a.take na.toNat, yD⟩ ∧
      c.data.fgrowth = some ⟨a.take na.toNat, yf⟩ ∧
      yD.length = na.toNat ∧ yf.length = na.toNat ∧
      ∀ i, i < na.toNat → ∃ a_i, a[i]? = some a_i ∧
        yD[i]? = some (CDouble.val (growth_row_D m env cosmo df_a_spline
          c.data.growth0 status a_i)) ∧
        yf[i]? = some (growth_row_f m env cosmo df_a_spline status a_i) := by
  unfold growth_tables at h
  by_cases h4 : env.malloc 4 na = false
  · rw [if_pos h4] at h
    simp only [Option.some.injEq, Prod.mk.injEq] at h
    exact absurd h.2 (by decide)
  rw [if_neg h4] at h
  by_cases h5 : env.malloc 5 na = false
  · rw [if_pos h5] at h
    simp only [Option.some.injEq, Prod.mk.injEq] at h
    exact absurd h.2 (by decide)
  rw [if_neg h5] at h
  simp only [Option.map_eq_some'] at h
  obtain ⟨st, hfold, hfin⟩ := h
  obtain ⟨hg, hf, h0⟩ := growth_finish_success env cosmo c a na _ st hfin
  obtain ⟨hs, hy, hy2, hrows⟩ := growth_loop_rows m env cosmo a df_a_spline _ hN _ _ st hfold
  simp only [growth_factor_and_growth_rate_status m env _ _ _ cosmo _ hN, List.length_nil,
    Nat.zero_add] at hs hy hy2 hrows
  refine ⟨h0, _, _, hg, hf, by rw [List.length_map, hy], hy2, ?_⟩
  intro i hi
  obtain ⟨a_i, hai, hyi, hy2i⟩ := hrows i hi
  refine ⟨a_i, hai, ?_, ?_⟩
  · rw [List.getElem?_map, hyi, h0]
    rfl
  · exact hy2i

/-- The value stored by the resampling step at the grid point `a_i`, read
through `v`: 0 for `a_i <= 0`; for `a_i > 0` and z = 1/a_i - 1 the first
tabulated Delta f when z does not exceed the first tabulated redshift, the
last one when z exceeds the last tabulated redshift, and the redshift
interpolant at z otherwise. -/
theorem growth_resample_df_value (env : Env α) (cosmo : ccl_cosmology α)
    (df_z_spline : gsl_spline α) (s : Int) (a_i : α) (r : Int × CDouble α)
    (v : Option (CDouble α))
    (h : growth_resample_df env cosmo df_z_spline s a_i = some r) (hv : v = some r.2) :
    (a_i ≤ 0 → v = some (CDouble.val 0)) ∧
    (a_i > 0 → ∃ z_first, array_get cosmo.params.z_mgrowth 0 = some z_first ∧
      (1 / a_i - 1 ≤ z_first →
        ∃ d, array_get cosmo.params.df_mgrowth 0 = some d ∧ v = some (CDouble.val d)) ∧
      (z_first < 1 / a_i - 1 →
        ∃ z_last, array_get cosmo.params.z_mgrowth (cosmo.params.nz_mgrowth - 1)
            = some z_last ∧
          (z_last < 1 / a_i - 1 →
            ∃ d, array_get cosmo.params.df_mgrowth (cosmo.params.nz_mgrowth - 1) = some d ∧
              v = some (CDouble.val d)) ∧
          (1 / a_i - 1 ≤ z_last →
            v = some (env.gsl_spline_eval_e df_z_spline (1 / a_i - 1)).2))) := by
  subst hv
  unfold growth_resample_df at h
  by_cases ha : a_i > 0
  · rw [if_pos ha] at h
    simp only [Option.bind_eq_some] at h
    obtain ⟨z_first, hz0, h⟩ := h
    refine ⟨fun hle => absurd ha (not_lt.mpr hle),
      fun _ => ⟨z_first, hz0, fun hz => ?_, fun hz => ?_⟩⟩
    · rw [if_pos hz] at h
      simp only [Option.map_eq_some'] at h
      obtain ⟨d, hd, hr⟩ := h
      exact ⟨d, hd, by rw [← hr]⟩
    · rw [if_neg (not_le.mpr hz)] at h
      simp only [Option.bind_eq_some] at h
      obtain ⟨z_last, hz1, h⟩ := h
      refine ⟨z_last, hz1, fun hz2 => ?_, fun hz2 => ?_⟩
      · rw [if_pos hz2] at h
        simp only [Option.map_eq_some'] at h
        obtain ⟨d, hd, hr⟩ := h
        exact ⟨d, hd, by rw [← hr]⟩
      · rw [if_neg (not_lt.mpr hz2)] at h
        cases h
        rfl
  · rw [if_neg ha] at h
    cases h
    exact ⟨fun _ => rfl, fun h => absurd h ha⟩

/-- After the resampling loop (lines 575-588) over `n` grid points the array
`df_arr` holds, in order, the value of the resampling step at each grid
point. -/
theorem growth_resample_rows (env : Env α) (cosmo : ccl_cosmology α) (a : List α)
    (df_z_spline : gsl_spline α) (n : Nat) (init r : List (CDouble α) × Int)
    (h : (List.range n).foldlM
      (fun (acc : List (CDouble α) × Int) i =>
        (a[i]?).bind fun ai =>
          (growth_resample_df env cosmo df_z_spline acc.2 ai).map fun r =>
            (acc.1 ++ [r.2], r.1))
      init = some r) :
    r.1.length = init.1.length + n ∧
    ∀ i, i < n → ∃ a_i s v, a[i]? = some a_i ∧
      growth_resample_df env cosmo df_z_spline s a_i = some v ∧
      r.1[init.1.length + i]? = some v.2 := by
  induction n generalizing r with
  | zero =>
    simp only [List.range_zero, List.foldlM_nil, pure, Option.some.injEq] at h
    subst h
    exact ⟨rfl, fun i hi => absurd hi (Nat.not_lt_zero i)⟩
  | succ k ih =>
    rw [List.range_succ, List.foldlM_append] at h
    simp only [List.foldlM_cons, List.foldlM_nil, Option.bind_eq_bind, Option.bind_eq_some,
      Option.map_eq_some'] at h
    obtain ⟨r1, h1, r2, ⟨ak, hak, v, hv, hr2⟩, hpure⟩ := h
    simp only [pure, Option.some.injEq] at hpure
    subst hpure
    subst hr2
    obtain ⟨hlen, hrows⟩ := ih r1 h1
    refine ⟨by simp only [List.length_append, hlen, List.length_singleton]; omega, ?_⟩
    intro i hi
    rcases Nat.lt_succ_iff_lt_or_eq.mp hi with hlt | heq
    · obtain ⟨a_i, s, w, hai, hw, hyi⟩ := hrows i hlt
      refine ⟨a_i, s, w, hai, hw, ?_⟩
      rw [List.getElem?_append_left (by rw [hlen]; omega)]
      exact hyi
    · subst heq
      refine ⟨ak, r1.2, v, hak, hv, ?_⟩
      rw [List.getElem?_append_right (by rw [hlen]), hlen]
      simp

/-- The interpolant that the modified-growth block builds: its abscissas are
the grid and its ordinate at the grid point `a_i` is the resampled value. -/
theorem growth_mgrowth_spline_contents (env : Env α) (cosmo : ccl_cosmology α)
    (a : List α) (na : Int) (sp : gsl_spline α)
    (h : growth_mgrowth_spline env cosmo a na = some (.inr sp)) :
    sp.x = a.take na.toNat ∧ sp.y.length = na.toNat ∧
    ∀ i a_i, i < na.toNat → a[i]? = some a_i →
      (a_i ≤ 0 → sp.y[i]? = some (CDouble.val 0)) ∧
      (a_i > 0 → ∃ z_first, array_get cosmo.params.z_mgrowth 0 = some z_first ∧
        (1 / a_i - 1 ≤ z_first →
          ∃ d, array_get cosmo.params.df_mgrowth 0 = some d ∧ sp.y[i]? = some (CDouble.val d)) ∧
        (z_first < 1 / a_i - 1 →
          ∃ z_last, array_get cosmo.params.z_mgrowth (cosmo.params.nz_mgrowth - 1)
              = some z_last ∧
            (z_last < 1 / a_i - 1 →
              ∃ d, array_get cosmo.params.df_mgrowth (cosmo.params.nz_mgrowth - 1) = some d ∧
                sp.y[i]? = some (CDouble.val d)) ∧
            (1 / a_i - 1 ≤ z_last →
              sp.y[i]? = some (env.gsl_spline_eval_e
                  ⟨cosmo.params.z_mgrowth.take cosmo.params.nz_mgrowth.toNat,
                    (cosmo.params.df_mgrowth.map CDouble.val).take cosmo.params.nz_mgrowth.toNat⟩
                  (1 / a_i - 1)).2))) := by
  unfold growth_mgrowth_spline at h
  by_cases h1 : env.malloc 3 na = false
  · rw [if_pos h1] at h
    cases h
  rw [if_neg h1] at h
  by_cases h2 : env.gsl_spline_init cosmo.params.z_mgrowth
      (cosmo.params.df_mgrowth.map CDouble.val) cosmo.params.nz_mgrowth ≠ 0
  · rw [if_pos h2] at h
    cases h
  rw [if_neg h2] at h
  simp only [Option.map_eq_some'] at h
  obtain ⟨r, hfold, hr⟩ := h
  by_cases h3 : r.2 ≠ 0
  · rw [if_pos h3] at hr
    cases hr
  rw [if_neg h3] at hr
  by_cases h4 : env.gsl_spline_init a r.1 na ≠ 0
  · rw [if_pos h4] at hr
    cases hr
  rw [if_neg h4] at hr
  cases hr
  obtain ⟨hlen, hrows⟩ := growth_resample_rows env cosmo a _ _ _ _ hfold
  refine ⟨rfl, by rw [hlen]; simp, ?_⟩
  intro i a_i hi hai
  obtain ⟨a_j, s, w, haj, hw, hyi⟩ := hrows i hi
  rw [hai] at haj
  cases haj
  simp only [List.length_nil, Nat.zero_add] at hyi
  exact growth_resample_df_value env cosmo _ s a_i w _ hw hyi

/-- The resampling step reads the redshift interpolant only for redshifts
above the first and not above the last tabulated one: an evaluation routine
that agrees with the collaborator there gives the same step. -/
theorem growth_resample_df_congr (env : Env α) (cosmo : ccl_cosmology α)
    (df_z_spline : gsl_spline α) (e2 : gsl_spline α → α → Int × CDouble α)
    (hagree : ∀ z z_first z_last, array_get cosmo.params.z_mgrowth 0 = some z_first →
      array_get cosmo.params.z_mgrowth (cosmo.params.nz_mgrowth - 1) = some z_last →
      z_first < z → z ≤ z_last →
      e2 df_z_spline z = env.gsl_spline_eval_e df_z_spline z)
    (s : Int) (a_i : α) :
    growth_resample_df { env with gsl_spline_eval_e := e2 } cosmo df_z_spline s a_i
      = growth_resample_df env cosmo df_z_spline s a_i := by
  unfold growth_resample_df
  by_cases ha : a_i > 0
  · simp only [if_pos ha]
    cases hz0 : array_get cosmo.params.z_mgrowth 0 with
    | none => rfl
    | some z_first =>
      simp only [Option.some_bind]
      by_cases hz : 1 / a_i - 1 ≤ z_first
      · simp only [if_pos hz]
      · simp only [if_neg hz]
        cases hz1 : array_get cosmo.params.z_mgrowth (cosmo.params.nz_mgrowth - 1) with
        | none => rfl
        | some z_last =>
          simp only [Option.some_bind]
          by_cases hz2 : 1 / a_i - 1 > z_last
          · simp only [if_pos hz2]
          · simp only [if_neg hz2]
            rw [hagree _ z_first z_last hz0 hz1 (not_le.mp hz) (not_lt.mp hz2)]
  · simp only [if_neg ha]

/-- The modified-growth block with an evaluation routine that agrees with the
collaborator on the redshifts above the first and not above the last
tabulated one. -/
theorem growth_mgrowth_spline_congr (env : Env α) (cosmo : ccl_cosmology α) (a : List α)
    (na : Int) (e2 : gsl_spline α → α → Int × CDouble α)
    (hagree : ∀ z z_first z_last, array_get cosmo.params.z_mgrowth 0 = some z_first →
      array_get cosmo.params.z_mgrowth (cosmo.params.nz_mgrowth - 1) = some z_last →
      z_first < z → z ≤ z_last →
      e2 ⟨cosmo.params.z_mgrowth.take cosmo.params.nz_mgrowth.toNat,
          (cosmo.params.df_mgrowth.map CDouble.val).take cosmo.params.nz_mgrowth.toNat⟩ z
        = env.gsl_spline_eval_e
          ⟨cosmo.params.z_mgrowth.take cosmo.params.nz_mgrowth.toNat,
           (cosmo.params.df_mgrowth.map CDouble.val).take cosmo.params.nz_mgrowth.toNat⟩ z) :
    growth_mgrowth_spline { env with gsl_spline_eval_e := e2 } cosmo a na
      = growth_mgrowth_spline env cosmo a na := by
  unfold growth_mgrowth_spline
  simp only [growth_resample_df_congr env cosmo _ e2 hagree]

/-- A successful growth build with a modified-growth table has built the
Delta f(a) interpolant and run the table loop on it. -/
theorem compute_growth_with_mgrowth (m : libm α) (env : Env α) (cosmo c : ccl_cosmology α)
    (status : Int) (hc : cosmo.computed_growth = false)
    (hmg : cosmo.params.has_mgrowth = true)
    (h : ccl_cosmology_compute_growth m env cosmo status = some (c, 0)) :
    ¬ ((cosmo.params.N_nu_mass : α) > 1e-12) ∧
    ∃ a sp,
      env.ccl_linlog_spacing cosmo.spline_params.A_SPLINE_MINLOG
        cosmo.spline_params.A_SPLINE_MIN cosmo.spline_params.A_SPLINE_MAX
        cosmo.spline_params.A_SPLINE_NLOG cosmo.spline_params.A_SPLINE_NA = some a ∧
      growth_mgrowth_spline env cosmo a
        (cosmo.spline_params.A_SPLINE_NA + cosmo.spline_params.A_SPLINE_NLOG - 1) = some (.inr sp) ∧
      growth_tables m env cosmo a
        (cosmo.spline_params.A_SPLINE_NA + cosmo.spline_params.A_SPLINE_NLOG - 1) (some sp) status
        = some (c, 0) := by
  unfold ccl_cosmology_compute_growth at h
  by_cases hN : cosmo.params.N_nu_mass > 0
  · rw [if_pos hN] at h
    simp only [Option.some.injEq, Prod.mk.injEq] at h
    exact absurd h.2 (by decide)
  rw [if_neg hN] at h
  have hN2 : ¬ ((cosmo.params.N_nu_mass : α) > 1e-12) :=
    fun hgt => hN ((count_gt_small cosmo.params.N_nu_mass).mp hgt)
  rw [if_neg (by rw [hc]; decide)] at h
  simp only at h
  split at h
  · simp only [Option.some.injEq, Prod.mk.injEq] at h
    exact absurd h.2 (by decide)
  · rename_i a ha
    simp only [Option.bind_eq_some] at h
    obtain ⟨a_first, -, a_last, -, h⟩ := h
    split_ifs at h with hgrid
    · simp only [Option.some.injEq, Prod.mk.injEq] at h
      exact absurd h.2 (by decide)
    · simp only [Option.bind_eq_some] at h
      obtain ⟨r, hr, h⟩ := h
      cases r with
      | inl e =>
        simp only [Option.some.injEq, Prod.mk.injEq] at h
        exact absurd h.2 (growth_mgrowth_spline_failure env cosmo _ _ e hr)
      | inr sp =>
        simp only at h
        exact ⟨hN2, a, sp, ha, hr, h⟩

/-- C14: contents of the growth tables.  On a run of
`ccl_cosmology_compute_growth` that starts from tables not computed and ends
with status 0, with (D_i, f_i) the raw output of
`growth_factor_and_growth_rate` at the grid point a_i: the stored `growth0`
is the raw D at a = 1; the abscissas of both tables are the grid; without a
modified-growth table the D entry is D_i / growth0 and the f entry is f_i.
With a modified-growth table, df is the interpolant over the grid whose
ordinate at a grid point a_i is Delta f resampled at z = 1/a_i - 1 (0 for
a_i <= 0, the first or last tabulated value beyond the table, the redshift
interpolant inside it); for a_i > 0 the D entry is D_i * exp(-I_i) / growth0,
where I_i is the result of the quadrature over [a_i, 1] of the integrand that
is 0 for x <= 0 and df(x) / x otherwise, and the f entry is f_i + df(a_i). -/
theorem C14_growth_table_contents (m : libm α) (env : Env α) (cosmo c : ccl_cosmology α)
    (status : Int) (hc : cosmo.computed_growth = false)
    (h : ccl_cosmology_compute_growth m env cosmo status = some (c, 0)) :
    ∃ a gD gf,
      env.ccl_linlog_spacing cosmo.spline_params.A_SPLINE_MINLOG
        cosmo.spline_params.A_SPLINE_MIN cosmo.spline_params.A_SPLINE_MAX
        cosmo.spline_params.A_SPLINE_NLOG cosmo.spline_params.A_SPLINE_NA = some a ∧
      c.data.growth = some gD ∧ c.data.fgrowth = some gf ∧
      c.data.growth0 =
        (growth_factor_and_growth_rate m env 1 env.indeterminate env.indeterminate
          cosmo status).2.1 ∧
      gD.x = a.take (cosmo.spline_params.A_SPLINE_NA + cosmo.spline_params.A_SPLINE_NLOG
        - 1).toNat ∧
      gf.x = gD.x ∧
      gD.y.length = (cosmo.spline_params.A_SPLINE_NA + cosmo.spline_params.A_SPLINE_NLOG
        - 1).toNat ∧
      gf.y.length = gD.y.length ∧
      (∀ i, i < gD.y.length → ∃ a_i, a[i]? = some a_i) ∧
      (cosmo.params.has_mgrowth = false →
        ∀ i a_i, i < gD.y.length → a[i]? = some a_i →
          gD.y[i]? = some (CDouble.val
            ((growth_factor_and_growth_rate m env a_i env.indeterminate env.indeterminate
              cosmo status).2.1 / c.data.growth0)) ∧
          gf.y[i]? = some (CDouble.val
            (growth_factor_and_growth_rate m env a_i env.indeterminate env.indeterminate
              cosmo status).2.2.1)) ∧
      (cosmo.params.has_mgrowth = true →
        ∃ sp, growth_mgrowth_spline env cosmo a
            (cosmo.spline_params.A_SPLINE_NA + cosmo.spline_params.A_SPLINE_NLOG - 1)
            = some (.inr sp) ∧
          sp.x = gD.x ∧ sp.y.length = gD.y.length ∧
          (∀ i a_i, i < gD.y.length → a[i]? = some a_i →
            (a_i ≤ 0 → sp.y[i]? = some (CDouble.val 0)) ∧
            (a_i > 0 → ∃ z_first, array_get cosmo.params.z_mgrowth 0 = some z_first ∧
              (1 / a_i - 1 ≤ z_first →
                ∃ d, array_get cosmo.params.df_mgrowth 0 = some d ∧ sp.y[i]? = some (CDouble.val d)) ∧
              (z_first < 1 / a_i - 1 →
                ∃ z_last, array_get cosmo.params.z_mgrowth (cosmo.params.nz_mgrowth - 1)
                    = some z_last ∧
                  (z_last < 1 / a_i - 1 →
                    ∃ d, array_get cosmo.params.df_mgrowth (cosmo.params.nz_mgrowth - 1) = some d ∧
                      sp.y[i]? = some (CDouble.val d)) ∧
                  (1 / a_i - 1 ≤ z_last →
                    sp.y[i]? = some (env.gsl_spline_eval_e
                        ⟨cosmo.params.z_mgrowth.take cosmo.params.nz_mgrowth.toNat,
                          (cosmo.params.df_mgrowth.map CDouble.val).take cosmo.params.nz_mgrowth.toNat⟩
                        (1 / a_i - 1)).2)))) ∧
          ∀ i a_i, i < gD.y.length → a[i]? = some a_i → a_i > 0 →
            gD.y[i]? = some (CDouble.val
              ((growth_factor_and_growth_rate m env a_i env.indeterminate env.indeterminate
                  cosmo status).2.1 *
                m.exp (-(env.gsl_integration_cquad
                  (fun x t =>
                    (if x ≤ 0 then CDouble.val 0
                     else (env.gsl_spline_eval_e sp x).2 / CDouble.val x, t))
                  a_i 1 0 cosmo.gsl_params.INTEGRATION_DISTANCE_EPSREL status).2.1)
                / c.data.growth0)) ∧
            gf.y[i]? = some (CDouble.val
              (growth_factor_and_growth_rate m env a_i env.indeterminate env.indeterminate
                cosmo status).2.2.1 + (env.gsl_spline_eval_e sp a_i).2)) := by
  unfold ccl_cosmology_compute_growth at h
  by_cases hN : cosmo.params.N_nu_mass > 0
  · rw [if_pos hN] at h
    simp only [Option.some.injEq, Prod.mk.injEq] at h
    exact absurd h.2 (by decide)
  rw [if_neg hN] at h
  have hN2 : ¬ ((cosmo.params.N_nu_mass : α) > 1e-12) :=
    fun hgt => hN ((count_gt_small cosmo.params.N_nu_mass).mp hgt)
  rw [if_neg (by rw [hc]; decide)] at h
  simp only at h
  split at h
  · simp only [Option.some.injEq, Prod.mk.injEq] at h
    exact absurd h.2 (by decide)
  · rename_i a ha
    simp only [Option.bind_eq_some] at h
    obtain ⟨a_first, -, a_last, -, h⟩ := h
    split_ifs at h with hgrid hmg
    · simp only [Option.some.injEq, Prod.mk.injEq] at h
      exact absurd h.2 (by decide)
    · simp only [Option.bind_eq_some] at h
      obtain ⟨r, hr, h⟩ := h
      cases r with
      | inl e =>
        simp only [Option.some.injEq, Prod.mk.injEq] at h
        exact absurd h.2 (growth_mgrowth_spline_failure env cosmo _ _ e hr)
      | inr sp =>
        simp only at h
        obtain ⟨h0, yD, yf, hg, hf, hlD, hlf, hrows⟩ :=
          growth_tables_rows m env cosmo c a _ (some sp) status hN2 h
        obtain ⟨hspx, hspl, hsprows⟩ := growth_mgrowth_spline_contents env cosmo a _ sp hr
        refine ⟨a, _, _, ha, hg, hf, h0, rfl, rfl, hlD, by rw [hlf, hlD],
          fun i hi => ?_, fun hno => ?_,
          fun _ => ⟨sp, hr, hspx, by rw [hspl, hlD],
            fun i a_i hi hai => hsprows i a_i (by rw [← hlD]; exact hi) hai,
            fun i a_i hi hai hpos => ?_⟩⟩
        · obtain ⟨a_i, hai, -⟩ := hrows i (by rw [← hlD]; exact hi)
          exact ⟨a_i, hai⟩
        · rw [hmg] at hno
          cases hno
        · obtain ⟨a_j, haj, hyi, hy2i⟩ := hrows i (by rw [← hlD]; exact hi)
          rw [hai] at haj
          cases haj
          unfold growth_row_D at hyi
          unfold growth_row_f at hy2i
          simp only [if_pos (show ((cosmo.params.has_mgrowth = true) ∧ a_i > 0) from ⟨hmg, hpos⟩),
            growth_factor_and_growth_rate_status m env _ _ _ cosmo _ hN2] at hyi hy2i
          exact ⟨hyi, hy2i⟩
    · obtain ⟨h0, yD, yf, hg, hf, hlD, hlf, hrows⟩ :=
        growth_tables_rows m env cosmo c a _ none status hN2 h
      refine ⟨a, _, _, ha, hg, hf, h0, rfl, rfl, hlD, by rw [hlf, hlD],
        fun i hi => ?_, fun _ i a_i hi hai => ?_, fun hyes => absurd hyes hmg⟩
      · obtain ⟨a_i, hai, -⟩ := hrows i (by rw [← hlD]; exact hi)
        exact ⟨a_i, hai⟩
      · obtain ⟨a_j, haj, hyi, hy2i⟩ := hrows i (by rw [← hlD]; exact hi)
        rw [hai] at haj
        cases haj
        exact ⟨hyi, hy2i⟩

/-- Under `stepping_env` the modified-growth block of the cosmology with a
modified-growth table resamples Delta f to 0.3, 0.2 and 0.1 at the grid points
a = 0.0001, 0.1 and 1. -/
theorem mgrowth_spline_value :
    growth_mgrowth_spline (stepping_env : Env ℝ) mgrowth_cosmology [0.0001, 0.1, 1] 3
      = some (.inr ⟨[0.0001, 0.1, 1],
          [CDouble.val 0.3, CDouble.val 0.2, CDouble.val 0.1]⟩) := by
  have e2 : (2 : ℤ).toNat = 2 := rfl
  have e3 : (3 : ℤ).toNat = 3 := rfl
  have r3 : List.range 3 = [0, 1, 2] := rfl
  have hmalloc : ∀ k n, (stepping_env : Env ℝ).malloc k n = true := fun _ _ => rfl
  have hinit : ∀ x y n, (stepping_env : Env ℝ).gsl_spline_init x y n = 0 := fun _ _ _ => rfl
  have heval : ∀ sp x, (stepping_env : Env ℝ).gsl_spline_eval_e sp x
      = (0, step_lookup x sp.x sp.y (sp.y.headD (CDouble.val 0))) := fun _ _ => rfl
  have hz : (mgrowth_cosmology : ccl_cosmology ℝ).params.z_mgrowth = [0, 5, 20] := rfl
  have hdf : (mgrowth_cosmology : ccl_cosmology ℝ).params.df_mgrowth = [0.1, 0.2, 0.3] := rfl
  have hnz : (mgrowth_cosmology : ccl_cosmology ℝ).params.nz_mgrowth = 3 := rfl
  unfold growth_mgrowth_spline
  norm_num [hmalloc, hinit, e3, r3, List.foldlM, growth_resample_df, hz, hdf, hnz, array_get,
    e2, heval, step_lookup, int_lor_zero_left]

/-- The growth build of the cosmology with a modified-growth table under
`stepping_env` ends with status 0. -/
theorem mgrowth_growth_build :
    ∃ c, ccl_cosmology_compute_growth libm_real stepping_env mgrowth_cosmology 0
      = some (c, 0) := by
  have e2 : (2 : ℤ).toNat = 2 := rfl
  have e3 : (3 : ℤ).toNat = 3 := rfl
  have r3 : List.range 3 = [0, 1, 2] := rfl
  have hmalloc : ∀ k n, (stepping_env : Env ℝ).malloc k n = true := fun _ _ => rfl
  have hlinlog : ∀ a b c d e, (stepping_env : Env ℝ).ccl_linlog_spacing a b c d e
      = some [a, b, c] := fun _ _ _ _ _ => rfl
  have hinit : ∀ x y n, (stepping_env : Env ℝ).gsl_spline_init x y n = 0 := fun _ _ _ => rfl
  have hode : ∀ f h0 e1 e2 t0 t1 y,
      (stepping_env : Env ℝ).gsl_odeiv2_driver_apply f h0 e1 e2 t0 t1 y = (0, y) :=
    fun _ _ _ _ _ _ _ => rfl
  have heval : ∀ sp x, ((stepping_env : Env ℝ).gsl_spline_eval_e sp x).1 = 0 :=
    fun _ _ => rfl
  have hquad1 : ∀ f a b e1 e2 s,
      ((stepping_env : Env ℝ).gsl_integration_cquad f a b e1 e2 s).1 = 0 :=
    fun _ _ _ _ _ _ => rfl
  have hquad2 : ∀ f a b e1 e2 s,
      ((stepping_env : Env ℝ).gsl_integration_cquad f a b e1 e2 s).2.2 = s :=
    fun _ _ _ _ _ _ => rfl
  have hNA : (mgrowth_cosmology : ccl_cosmology ℝ).spline_params.A_SPLINE_NA = 2 := rfl
  have hNLOG : (mgrowth_cosmology : ccl_cosmology ℝ).spline_params.A_SPLINE_NLOG = 2 := rfl
  have hMINLOG : (mgrowth_cosmology : ccl_cosmology ℝ).spline_params.A_SPLINE_MINLOG
      = 0.0001 := rfl
  have hMIN : (mgrowth_cosmology : ccl_cosmology ℝ).spline_params.A_SPLINE_MIN = 0.1 := rfl
  have hMAX : (mgrowth_cosmology : ccl_cosmology ℝ).spline_params.A_SPLINE_MAX = 1 := rfl
  have hEPS : (mgrowth_cosmology : ccl_cosmology ℝ).gsl_params.EPS_SCALEFAC_GROWTH
      = 1e-6 := rfl
  have hmg : (mgrowth_cosmology : ccl_cosmology ℝ).params.has_mgrowth = true := rfl
  have hN : (mgrowth_cosmology : ccl_cosmology ℝ).params.N_nu_mass = 0 := rfl
  have hcg : (mgrowth_cosmology : ccl_cosmology ℝ).computed_growth = false := rfl
  have hst : ∀ a s, (h_over_h0 libm_real (stepping_env : Env ℝ) a mgrowth_cosmology s).2 = s :=
    fun a s => h_over_h0_status libm_real stepping_env a mgrowth_cosmology s
      (by rw [hN]; norm_num)
  unfold ccl_cosmology_compute_growth
  norm_num [hN, hcg, hlinlog, hNA, hNLOG, hMINLOG, hMIN, hMAX, array_get, e2, hmg]
  have hl : ([1 / 10000, 1 / 10, 1] : List ℝ) = [0.0001, 0.1, 1] := by norm_num
  rw [hl, mgrowth_spline_value]
  unfold growth_tables
  norm_num [hmalloc, e3, r3, List.foldlM, growth_loop_body, hmg, growth_factor_and_growth_rate,
    hEPS, hode, GSL_SUCCESS, hst, int_lor_zero_left, heval, hquad1, hquad2]
  unfold growth_finish
  norm_num [hinit]

/-- C14 on the cosmology with a modified-growth table under `stepping_env`
(three grid points, all positive; at a = 0.1 the resampled Delta f is 0.2 and
the quadrature over [0.1, 1] is 0.1 / 1 * 0.9 = 9/100) and on the small-grid
cosmology without one under `working_env`. -/
theorem C14_growth_table_contents_witness :
    (mgrowth_cosmology : ccl_cosmology ℝ).computed_growth = false ∧
    (∃ c, ccl_cosmology_compute_growth libm_real stepping_env mgrowth_cosmology 0
        = some (c, 0) ∧
      ∃ gD gf, c.data.growth = some gD ∧ c.data.fgrowth = some gf ∧
        c.data.growth0 = (growth_factor_and_growth_rate libm_real stepping_env 1
          (stepping_env : Env ℝ).indeterminate (stepping_env : Env ℝ).indeterminate
          mgrowth_cosmology 0).2.1 ∧
        gD.x = [0.0001, 0.1, 1] ∧ gD.y.length = 3 ∧
        gD.y[1]? = some (CDouble.val
          ((growth_factor_and_growth_rate libm_real stepping_env 0.1
              (stepping_env : Env ℝ).indeterminate (stepping_env : Env ℝ).indeterminate
              mgrowth_cosmology 0).2.1 *
            Real.exp (-(9 / 100)) / c.data.growth0)) ∧
        gf.y[1]? = some (CDouble.val
          (growth_factor_and_growth_rate libm_real stepping_env 0.1
            (stepping_env : Env ℝ).indeterminate (stepping_env : Env ℝ).indeterminate
            mgrowth_cosmology 0).2.2.1 + CDouble.val 0.2)) ∧
    (∃ c, ccl_cosmology_compute_growth libm_real working_env small_grid_cosmology 0
        = some (c, 0) ∧
      ∃ gD gf, c.data.growth = some gD ∧ c.data.fgrowth = some gf ∧
        gD.y[1]? = some (CDouble.val
          ((growth_factor_and_growth_rate libm_real working_env 0.1
              (working_env : Env ℝ).indeterminate (working_env : Env ℝ).indeterminate
              small_grid_cosmology 0).2.1 / c.data.growth0)) ∧
        gf.y[1]? = some (CDouble.val
          (growth_factor_and_growth_rate libm_real working_env 0.1
            (working_env : Env ℝ).indeterminate (working_env : Env ℝ).indeterminate
            small_grid_cosmology 0).2.2.1)) := by
  refine ⟨rfl, ?_, ?_⟩
  · obtain ⟨c, hc⟩ := mgrowth_growth_build
    obtain ⟨a, gD, gf, ha, hg, hf, h0, hx, -, hl, -, -, -, hyes⟩ :=
      C14_growth_table_contents libm_real stepping_env mgrowth_cosmology c 0 rfl hc
    have ha2 : a = [0.0001, 0.1, 1] := by
      have := ha.symm
      simpa [stepping_env, working_env, mgrowth_cosmology, small_grid_cosmology] using this
    subst ha2
    obtain ⟨sp, hsp, -, -, -, hrows⟩ := hyes rfl
    have hsp2 : growth_mgrowth_spline (stepping_env : Env ℝ) mgrowth_cosmology
        [0.0001, 0.1, 1] 3 = some (.inr sp) := hsp
    rw [mgrowth_spline_value] at hsp2
    simp only [Option.some.injEq, Sum.inr.injEq] at hsp2
    subst hsp2
    have hl3 : gD.y.length = 3 := hl
    obtain ⟨h1, h2⟩ := hrows 1 0.1 (by rw [hl3]; decide) rfl (by norm_num)
    have hdiv : ∀ x y : ℝ, (CDouble.val x / CDouble.val y : CDouble ℝ) = CDouble.val (x / y) :=
      fun _ _ => rfl
    have hquad : ∀ F a b e1 e2 s, (stepping_env : Env ℝ).gsl_integration_cquad F a b e1 e2 s
        = (0, (F b s).1.value * (b - a), s) := fun _ _ _ _ _ _ => rfl
    have heval : ∀ sp x, (stepping_env : Env ℝ).gsl_spline_eval_e sp x
        = (0, step_lookup x sp.x sp.y (sp.y.headD (CDouble.val 0))) := fun _ _ => rfl
    have hexp : ∀ x, (libm_real : libm ℝ).exp x = Real.exp x := fun _ => rfl
    have hI : ((1 : ℝ) / 10 / 1 * (1 - 1 / 10)) = 9 / 100 := by norm_num
    rw [hquad] at h1
    norm_num [heval, step_lookup, hdiv, CDouble.value, hexp] at h1 h2
    refine ⟨c, hc, gD, gf, hg, hf, h0, hx, hl3, ?_, ?_⟩
    · rw [h1]
      norm_num
    · rw [h2]
      norm_num [CDouble.val_add_val]
  · obtain ⟨c, hc⟩ := small_grid_growth_build
    obtain ⟨a, gD, gf, ha, hg, hf, -, -, -, hl, -, -, hno, -⟩ :=
      C14_growth_table_contents libm_real working_env small_grid_cosmology c 0 rfl hc
    have ha2 : a = [0.0001, 0.1, 1] := by
      have := ha.symm
      simpa [working_env, small_grid_cosmology] using this
    subst ha2
    have hl3 : gD.y.length = 3 := hl
    obtain ⟨h1, h2⟩ := hno rfl 1 0.1 (by rw [hl3]; decide) rfl
    exact ⟨c, hc, gD, gf, hg, hf, h1, h2⟩

/-- C15: the modified-growth resampling of `ccl_cosmology_compute_growth`.  On
a build with a modified-growth table that starts from tables not computed and
ends with status 0, the modified-growth block has handed to the Delta f(a)
interpolant the grid and, for each grid point a_i with z = 1/a_i - 1, the
value: 0 for a_i <= 0; for a_i > 0 the first tabulated Delta f when z does not
exceed the first tabulated redshift, the last one when z exceeds the last
tabulated redshift, and the redshift interpolant at z otherwise.  The f table
of the build is f_i plus that interpolant at a_i.  The redshift interpolant is
not evaluated outside the table: replacing the evaluation routine by one that
agrees with it for redshifts above the first and not above the last tabulated
one gives the same Delta f(a) interpolant.  `df_integrand` is 0 for every
a <= 0. -/
theorem C15_mgrowth_resampling (m : libm α) (env : Env α) (cosmo c : ccl_cosmology α)
    (status : Int) (hc : cosmo.computed_growth = false)
    (hmg : cosmo.params.has_mgrowth = true)
    (h : ccl_cosmology_compute_growth m env cosmo status = some (c, 0)) :
    ∃ a sp gf,
      env.ccl_linlog_spacing cosmo.spline_params.A_SPLINE_MINLOG
        cosmo.spline_params.A_SPLINE_MIN cosmo.spline_params.A_SPLINE_MAX
        cosmo.spline_params.A_SPLINE_NLOG cosmo.spline_params.A_SPLINE_NA = some a ∧
      growth_mgrowth_spline env cosmo a
        (cosmo.spline_params.A_SPLINE_NA + cosmo.spline_params.A_SPLINE_NLOG - 1) = some (.inr sp) ∧
      c.data.fgrowth = some gf ∧
      sp.x = a.take (cosmo.spline_params.A_SPLINE_NA + cosmo.spline_params.A_SPLINE_NLOG - 1).toNat ∧
      sp.y.length = (cosmo.spline_params.A_SPLINE_NA + cosmo.spline_params.A_SPLINE_NLOG - 1).toNat ∧
      (∀ i a_i,
        i < (cosmo.spline_params.A_SPLINE_NA + cosmo.spline_params.A_SPLINE_NLOG - 1).toNat →
        a[i]? = some a_i →
        (a_i ≤ 0 → sp.y[i]? = some (CDouble.val 0)) ∧
        (a_i > 0 → ∃ z_first, array_get cosmo.params.z_mgrowth 0 = some z_first ∧
          (1 / a_i - 1 ≤ z_first →
            ∃ d, array_get cosmo.params.df_mgrowth 0 = some d ∧ sp.y[i]? = some (CDouble.val d)) ∧
          (z_first < 1 / a_i - 1 →
            ∃ z_last, array_get cosmo.params.z_mgrowth (cosmo.params.nz_mgrowth - 1)
                = some z_last ∧
              (z_last < 1 / a_i - 1 →
                ∃ d, array_get cosmo.params.df_mgrowth (cosmo.params.nz_mgrowth - 1) = some d ∧
                  sp.y[i]? = some (CDouble.val d)) ∧
              (1 / a_i - 1 ≤ z_last →
                sp.y[i]? = some (env.gsl_spline_eval_e
                    ⟨cosmo.params.z_mgrowth.take cosmo.params.nz_mgrowth.toNat,
                      (cosmo.params.df_mgrowth.map CDouble.val).take cosmo.params.nz_mgrowth.toNat⟩
                    (1 / a_i - 1)).2))) ∧
        (a_i > 0 → gf.y[i]? = some (CDouble.val
          (growth_factor_and_growth_rate m env a_i env.indeterminate env.indeterminate
            cosmo status).2.2.1 + (env.gsl_spline_eval_e sp a_i).2))) ∧
      (∀ e2 : gsl_spline α → α → Int × CDouble α,
        (∀ z z_first z_last, array_get cosmo.params.z_mgrowth 0 = some z_first →
          array_get cosmo.params.z_mgrowth (cosmo.params.nz_mgrowth - 1) = some z_last →
          z_first < z → z ≤ z_last →
          e2 ⟨cosmo.params.z_mgrowth.take cosmo.params.nz_mgrowth.toNat,
              (cosmo.params.df_mgrowth.map CDouble.val).take cosmo.params.nz_mgrowth.toNat⟩ z
            = env.gsl_spline_eval_e
              ⟨cosmo.params.z_mgrowth.take cosmo.params.nz_mgrowth.toNat,
               (cosmo.params.df_mgrowth.map CDouble.val).take cosmo.params.nz_mgrowth.toNat⟩
              z) →
        growth_mgrowth_spline { env with gsl_spline_eval_e := e2 } cosmo a
          (cosmo.spline_params.A_SPLINE_NA + cosmo.spline_params.A_SPLINE_NLOG - 1) = some (.inr sp)) ∧
      (∀ (x : α) (df_a_spline : gsl_spline α), x ≤ 0 →
        df_integrand env x df_a_spline = CDouble.val 0) := by
  obtain ⟨hN, a, sp, ha, hsp, htab⟩ := compute_growth_with_mgrowth m env cosmo c status hc hmg h
  obtain ⟨-, yD, yf, -, hf, -, hlf, hrows⟩ :=
    growth_tables_rows m env cosmo c a _ (some sp) status hN htab
  obtain ⟨hspx, hspl, hsprows⟩ := growth_mgrowth_spline_contents env cosmo a _ sp hsp
  refine ⟨a, sp, _, ha, hsp, hf, hspx, hspl, fun i a_i hi hai => ?_, fun e2 hagree => ?_,
    fun x sp2 hx => ?_⟩
  · obtain ⟨r1, r2⟩ := hsprows i a_i hi hai
    refine ⟨r1, r2, fun hpos => ?_⟩
    obtain ⟨a_j, haj, -, hy2i⟩ := hrows i hi
    rw [hai] at haj
    cases haj
    unfold growth_row_f at hy2i
    simp only [if_pos (show ((cosmo.params.has_mgrowth = true) ∧ a_i > 0) from ⟨hmg, hpos⟩)]
      at hy2i
    exact hy2i
  · rw [growth_mgrowth_spline_congr env cosmo a _ e2 hagree]
    exact hsp
  · unfold df_integrand
    rw [if_pos hx]

/-- C15 on the cosmology with a modified-growth table (Delta f = 0.1, 0.2, 0.3
at z = 0, 5, 20) built under `stepping_env`: at a = 0.0001 (z = 9999, beyond
the table) the resampled value is the last tabulated one, at a = 0.1 (z = 9)
it is the step interpolant at 9, which is 0.2, and at a = 1 (z = 0) it is the
first tabulated one. -/
theorem C15_mgrowth_resampling_witness :
    (mgrowth_cosmology : ccl_cosmology ℝ).computed_growth = false ∧
    (mgrowth_cosmology : ccl_cosmology ℝ).params.has_mgrowth = true ∧
    ∃ (c : ccl_cosmology ℝ) (sp : gsl_spline ℝ),
      ccl_cosmology_compute_growth libm_real stepping_env mgrowth_cosmology 0 = some (c, 0) ∧
      growth_mgrowth_spline (stepping_env : Env ℝ) mgrowth_cosmology [0.0001, 0.1, 1] 3
        = some (.inr sp) ∧
      sp.x = [0.0001, 0.1, 1] ∧
      sp.y[0]? = some (CDouble.val (0.3 : ℝ)) ∧ sp.y[1]? = some (CDouble.val (0.2 : ℝ)) ∧
      sp.y[2]? = some (CDouble.val (0.1 : ℝ)) := by
  refine ⟨rfl, rfl, ?_⟩
  obtain ⟨c, hc⟩ := mgrowth_growth_build
  obtain ⟨a, sp, gf, ha, hsp, -, hx, -, hrule, -, -⟩ :=
    C15_mgrowth_resampling libm_real stepping_env mgrowth_cosmology c 0 rfl rfl hc
  have ha2 : a = [0.0001, 0.1, 1] := by
    have := ha.symm
    simpa [stepping_env, working_env, mgrowth_cosmology, small_grid_cosmology] using this
  subst ha2
  have heval : ∀ sp x, (stepping_env : Env ℝ).gsl_spline_eval_e sp x
      = (0, step_lookup x sp.x sp.y (sp.y.headD (CDouble.val 0))) := fun _ _ => rfl
  have hz : (mgrowth_cosmology : ccl_cosmology ℝ).params.z_mgrowth = [0, 5, 20] := rfl
  have hdf : (mgrowth_cosmology : ccl_cosmology ℝ).params.df_mgrowth = [0.1, 0.2, 0.3] := rfl
  have hnz : (mgrowth_cosmology : ccl_cosmology ℝ).params.nz_mgrowth = 3 := rfl
  have hz0 : ∀ z : ℝ, array_get (mgrowth_cosmology : ccl_cosmology ℝ).params.z_mgrowth 0
      = some z → z = 0 := by
    intro z hzz
    rw [hz] at hzz
    cases hzz
    rfl
  have hz1 : ∀ z : ℝ, array_get (mgrowth_cosmology : ccl_cosmology ℝ).params.z_mgrowth
      ((mgrowth_cosmology : ccl_cosmology ℝ).params.nz_mgrowth - 1) = some z → z = 20 := by
    intro z hzz
    rw [hz, hnz] at hzz
    cases hzz
    rfl
  have hd0 : ∀ d : ℝ, array_get (mgrowth_cosmology : ccl_cosmology ℝ).params.df_mgrowth 0
      = some d → d = 0.1 := by
    intro d hd
    rw [hdf] at hd
    cases hd
    rfl
  have hd1 : ∀ d : ℝ, array_get (mgrowth_cosmology : ccl_cosmology ℝ).params.df_mgrowth
      ((mgrowth_cosmology : ccl_cosmology ℝ).params.nz_mgrowth - 1) = some d → d = 0.3 := by
    intro d hd
    rw [hdf, hnz] at hd
    cases hd
    rfl
  refine ⟨c, sp, hc, hsp, hx, ?_, ?_, ?_⟩
  · obtain ⟨z_first, hzf, -, hB⟩ := ((hrule 0 0.0001 (by decide) rfl).2.1) (by norm_num)
    obtain ⟨z_last, hzl, hC, -⟩ := hB (by rw [hz0 _ hzf]; norm_num)
    obtain ⟨d, hd, hv⟩ := hC (by rw [hz1 _ hzl]; norm_num)
    rw [hv, hd1 _ hd]
  · obtain ⟨z_first, hzf, -, hB⟩ := ((hrule 1 0.1 (by decide) rfl).2.1) (by norm_num)
    obtain ⟨z_last, hzl, -, hD⟩ := hB (by rw [hz0 _ hzf]; norm_num)
    have hv := hD (by rw [hz1 _ hzl]; norm_num)
    rw [hv, heval, hz, hdf, hnz]
    norm_num [step_lookup]
  · obtain ⟨z_first, hzf, hA, -⟩ := ((hrule 2 1 (by decide) rfl).2.1) (by norm_num)
    obtain ⟨d, hd, hv⟩ := hA (by rw [hz0 _ hzf]; norm_num)
    rw [hv, hd0 _ hd]

/-! ## Theorems: the chi grid of the inverse table -/

/-- For a non-negative quotient the conversion `(int)` does not exceed it. -/
theorem double_to_int_le [FloorRing α] (x : α) (hx : 0 ≤ x) : ((double_to_int x : Int) : α) ≤ x := by
  unfold double_to_int
  rw [if_pos hx]
  exact Int.floor_le x

/-- A uniform grid starts at its first point and advances by its spacing. -/
theorem uniform_grid_point (grid : List α) (x0 d : α) (hfirst : grid[0]? = some x0)
    (hunif : ∀ i x y, grid[i]? = some x → grid[i + 1]? = some y → y - x = d) :
    ∀ i, i < grid.length → grid[i]? = some (x0 + (i : α) * d) := by
  intro i
  induction i with
  | zero =>
    intro _
    rw [hfirst]
    simp
  | succ k ih =>
    intro hk
    have hk2 : k < grid.length := Nat.lt_of_succ_lt hk
    have h1 := ih hk2
    have h2 : grid[k + 1]? = some (grid[k + 1]) := List.getElem?_eq_getElem hk
    have h3 := hunif k _ _ h1 h2
    rw [h2]
    congr 1
    push_cast
    linarith

/-- A uniform grid from `chi0` to `chif > chi0` with `(int)((chif-chi0)/5)`
points has a spacing above 5. -/
theorem uniform_grid_spacing [FloorRing α] (chi0 chif d : α) (grid : List α)
    (hlt : chi0 < chif)
    (hlen : (grid.length : Int) = double_to_int ((chif - chi0) / 5))
    (hfirst : grid[0]? = some chi0) (hlast : grid[grid.length - 1]? = some chif)
    (hunif : ∀ i x y, grid[i]? = some x → grid[i + 1]? = some y → y - x = d) :
    2 ≤ grid.length ∧ 5 < d := by
  have hpos : 0 < grid.length := by
    rcases Nat.eq_zero_or_pos grid.length with h0 | h0
    · rw [List.length_eq_zero.mp h0] at hfirst
      simp at hfirst
    · exact h0
  have hpt := uniform_grid_point grid chi0 d hfirst hunif (grid.length - 1) (by omega)
  rw [hlast] at hpt
  have hchif : chif = chi0 + ((grid.length - 1 : Nat) : α) * d := Option.some.inj hpt
  have h2 : 2 ≤ grid.length := by
    by_contra hnot
    have h1 : grid.length - 1 = 0 := by omega
    rw [h1] at hchif
    simp at hchif
    exact absurd hchif (ne_of_gt hlt)
  refine ⟨h2, ?_⟩
  have hq : (0 : α) ≤ (chif - chi0) / 5 := by
    apply div_nonneg
    · linarith
    · norm_num
  have hle := double_to_int_le ((chif - chi0) / 5) hq
  rw [← hlen] at hle
  have hcast : ((grid.length - 1 : Nat) : α) = (grid.length : α) - 1 := by
    rw [Nat.cast_sub (by omega)]
    simp
  rw [hcast] at hchif
  have hn : (2 : α) ≤ (grid.length : α) := by exact_mod_cast h2
  have hle2 : (grid.length : α) ≤ (chif - chi0) / 5 := by exact_mod_cast hle
  rw [le_div_iff₀ (by norm_num : (0 : α) < 5)] at hle2
  by_contra hd
  have hd2 : d ≤ 5 := not_lt.mp hd
  have : ((grid.length : α) - 1) * d ≤ ((grid.length : α) - 1) * 5 :=
    mul_le_mul_of_nonneg_left hd2 (by linarith)
  linarith

/-- The reassigned `dchi` is at least 5 whenever the grid has a point. -/
theorem distances_dchi_ge_five [FloorRing α] (chi0 chif : α) (hlt : chi0 < chif)
    (hn : 0 < double_to_int ((chif - chi0) / 5)) : 5 ≤ distances_dchi chi0 chif := by
  unfold distances_dchi
  have hq : (0 : α) ≤ (chif - chi0) / 5 := by
    apply div_nonneg
    · linarith
    · norm_num
  have hle := double_to_int_le ((chif - chi0) / 5) hq
  have hpos : (0 : α) < (double_to_int ((chif - chi0) / 5) : α) := by exact_mod_cast hn
  rw [le_div_iff₀ hpos]
  rw [le_div_iff₀ (by norm_num : (0 : α) < 5)] at hle
  linarith

/-- C18: the chi grid of the inverse table is coarser than 5.  The distance
build of the small-grid cosmology under `working_env` succeeds with
chi0 = 0 < chif = 19.998; `(int)((chif - chi0)/5)` is 3, the uniform grid
from chi0 to chif is 0, 9.999, 19.998, and both steps, 9.999, exceed 5; the
value the source stores in `dchi` and annotates `<=5` is 6.666. -/
theorem C18_chi_grid_spacing_exceeds_five :
    (∃ c, ccl_cosmology_compute_distances libm_real working_env small_grid_cosmology 0
        = some (c, 0) ∧
      c.data.achi.map (fun sp => sp.x) = some [0, 9999 / 1000, 9999 / 500]) ∧
    double_to_int (((9999 / 500 : ℝ) - 0) / 5) = 3 ∧
    (working_env : Env ℝ).ccl_linear_spacing 0 (9999 / 500) 3
      = some [0, 9999 / 1000, 9999 / 500] ∧
    (5 : ℝ) < 9999 / 1000 - 0 ∧ (5 : ℝ) < 9999 / 500 - 9999 / 1000 ∧
    distances_dchi (0 : ℝ) (9999 / 500) = 3333 / 500 ∧
    (5 : ℝ) < distances_dchi (0 : ℝ) (9999 / 500) := by
  have hn : double_to_int (((9999 / 500 : ℝ) - 0) / 5) = 3 := by
    unfold double_to_int
    rw [if_pos (by norm_num)]
    rw [Int.floor_eq_iff]
    norm_num
  have hd : distances_dchi (0 : ℝ) (9999 / 500) = 3333 / 500 := by
    unfold distances_dchi
    rw [hn]
    norm_num
  refine ⟨small_grid_distances_table, hn, ?_, by norm_num, by norm_num, hd, ?_⟩
  · have e3 : (3 : ℤ).toNat = 3 := rfl
    have r3 : List.range 3 = [0, 1, 2] := rfl
    simp only [working_env, e3, r3, List.map]
    norm_num
  · rw [hd]
    norm_num

/-! ## Theorems: failures during the growth build -/

/-- The return value of `growth_factor_and_growth_rate` when the ODE driver
does not report success: the conversion of NAN to `int`. -/
theorem growth_factor_and_growth_rate_failure (m : libm α) (env : Env α) (a gf fg : α)
    (cosmo : ccl_cosmology α) (s : Int) (ha : ¬ a < cosmo.gsl_params.EPS_SCALEFAC_GROWTH)
    (hode : (env.gsl_odeiv2_driver_apply (growth_ode_system m env cosmo)
      (0.1 * cosmo.gsl_params.EPS_SCALEFAC_GROWTH) 0 cosmo.gsl_params.ODE_GROWTH_EPSREL
      cosmo.gsl_params.EPS_SCALEFAC_GROWTH a
      (cosmo.gsl_params.EPS_SCALEFAC_GROWTH,
       cosmo.gsl_params.EPS_SCALEFAC_GROWTH * cosmo.gsl_params.EPS_SCALEFAC_GROWTH *
        cosmo.gsl_params.EPS_SCALEFAC_GROWTH *
        (h_over_h0 m env cosmo.gsl_params.EPS_SCALEFAC_GROWTH cosmo s).1)).1 ≠ GSL_SUCCESS) :
    (growth_factor_and_growth_rate m env a gf fg cosmo s).1 = env.NAN_as_int ∧
    (growth_factor_and_growth_rate m env a gf fg cosmo s).2.1 = gf ∧
    (growth_factor_and_growth_rate m env a gf fg cosmo s).2.2.1 = fg := by
  unfold growth_factor_and_growth_rate
  simp only [if_neg ha, if_pos hode, and_self]

/-- One iteration of the growth loop leaves `chistatus` and `status_mg` zero
only if they were zero before, the return value at the grid point is zero and,
on the modified-growth path, the quadrature reported success. -/
theorem growth_loop_body_flags (m : libm α) (env : Env α) (cosmo : ccl_cosmology α)
    (df_a_spline : Option (gsl_spline α)) (growth0 a_i : α) (st st2 : growth_loop_state α)
    (h : growth_loop_body m env cosmo df_a_spline growth0 a_i st = some st2) :
    (st2.chistatus = 0 → st.chistatus = 0 ∧
      (growth_factor_and_growth_rate m env a_i env.indeterminate env.indeterminate
        cosmo st.status).1 = 0) ∧
    (st2.status_mg = 0 → st.status_mg = 0 ∧
      ∀ sp, df_a_spline = some sp → cosmo.params.has_mgrowth = true → a_i > 0 →
        (env.gsl_integration_cquad (fun x t => (df_integrand env x sp, t)) a_i 1 0
          cosmo.gsl_params.INTEGRATION_DISTANCE_EPSREL
          (growth_factor_and_growth_rate m env a_i env.indeterminate env.indeterminate
            cosmo st.status).2.2.2).1 = GSL_SUCCESS) := by
  unfold growth_loop_body at h
  by_cases hmg : cosmo.params.has_mgrowth ∧ a_i > 0
  · simp only [if_pos hmg] at h
    cases df_a_spline with
    | none => simp at h
    | some sp =>
      simp only [Option.map_some', Option.some.injEq] at h
      subst h
      refine ⟨fun h0 => int_lor_eq_zero h0, fun h0 => ?_⟩
      simp only at h0
      by_cases hq : (env.gsl_integration_cquad (fun x s => (df_integrand env x sp, s)) a_i 1 0
          cosmo.gsl_params.INTEGRATION_DISTANCE_EPSREL
          (growth_factor_and_growth_rate m env a_i env.indeterminate env.indeterminate
            cosmo st.status).2.2.2).1 ≠ GSL_SUCCESS
      · rw [if_pos hq] at h0
        exact absurd (int_lor_eq_zero h0).2 hq
      · rw [if_neg hq] at h0
        have hq2 := not_not.mp hq
        refine ⟨?_, fun sp2 hsp _ _ => ?_⟩
        · by_cases he : (env.gsl_spline_eval_e sp a_i).1 ≠ GSL_SUCCESS
          · rw [if_pos he] at h0
            exact (int_lor_eq_zero h0).1
          · rw [if_neg he] at h0
            exact h0
        · cases hsp
          exact hq2
  · simp only [if_neg hmg, Option.some.injEq] at h
    subst h
    exact ⟨fun h0 => int_lor_eq_zero h0,
      fun h0 => ⟨h0, fun sp _ h1 h2 => absurd ⟨h1, h2⟩ hmg⟩⟩

/-- After the growth loop `chistatus` and `status_mg` are zero only if they
were zero before it, every return value at a grid point was zero and every
modified-growth quadrature reported success. -/
theorem growth_loop_flags (m : libm α) (env : Env α) (cosmo : ccl_cosmology α)
    (a : List α) (df_a_spline : Option (gsl_spline α)) (growth0 : α)
    (hN : ¬ ((cosmo.params.N_nu_mass : α) > 1e-12))
    (n : Nat) (st0 st : growth_loop_state α)
    (h : (List.range n).foldlM
      (fun (st : growth_loop_state α) i =>
        (a[i]?).bind fun ai => growth_loop_body m env cosmo df_a_spline growth0 ai st)
      st0 = some st) :
    st.status = st0.status ∧
    (st.chistatus = 0 → st0.chistatus = 0 ∧
      ∀ i a_i, i < n → a[i]? = some a_i →
        (growth_factor_and_growth_rate m env a_i env.indeterminate env.indeterminate
          cosmo st0.status).1 = 0) ∧
    (st.status_mg = 0 → st0.status_mg = 0 ∧
      ∀ i a_i sp, i < n → a[i]? = some a_i → df_a_spline = some sp →
        cosmo.params.has_mgrowth = true → a_i > 0 →
        (env.gsl_integration_cquad (fun x t => (df_integrand env x sp, t)) a_i 1 0
          cosmo.gsl_params.INTEGRATION_DISTANCE_EPSREL st0.status).1 = GSL_SUCCESS) := by
  induction n generalizing st with
  | zero =>
    simp only [List.range_zero, List.foldlM_nil, pure, Option.some.injEq] at h
    subst h
    exact ⟨rfl, fun h0 => ⟨h0, fun i _ hi => absurd hi (Nat.not_lt_zero i)⟩,
      fun h0 => ⟨h0, fun i _ _ hi => absurd hi (Nat.not_lt_zero i)⟩⟩
  | succ k ih =>
    rw [List.range_succ, List.foldlM_append] at h
    simp only [List.foldlM_cons, List.foldlM_nil, Option.bind_eq_bind, Option.bind_eq_some] at h
    obtain ⟨st1, h1, st2, ⟨ak, hak, hbody⟩, hpure⟩ := h
    simp only [pure, Option.some.injEq] at hpure
    subst hpure
    obtain ⟨hs1, hchi1, hmg1⟩ := ih st1 h1
    obtain ⟨hs2, -, -, -⟩ := growth_loop_body_row m env cosmo df_a_spline growth0 ak st1 st2
      hN hbody
    obtain ⟨hchi2, hmg2⟩ := growth_loop_body_flags m env cosmo df_a_spline growth0 ak st1 st2
      hbody
    rw [hs1] at hchi2 hmg2
    rw [growth_factor_and_growth_rate_status m env _ _ _ cosmo _ hN] at hmg2
    refine ⟨by rw [hs2, hs1], fun h0 => ?_, fun h0 => ?_⟩
    · obtain ⟨hc1, hg⟩ := hchi2 h0
      obtain ⟨hc0, hrows⟩ := hchi1 hc1
      refine ⟨hc0, fun i a_i hi hai => ?_⟩
      rcases Nat.lt_succ_iff_lt_or_eq.mp hi with hlt | heq
      · exact hrows i a_i hlt hai
      · subst heq
        rw [hak] at hai
        cases hai
        exact hg
    · obtain ⟨hm1, hq⟩ := hmg2 h0
      obtain ⟨hm0, hrows⟩ := hmg1 hm1
      refine ⟨hm0, fun i a_i sp hi hai hsp hhas hpos => ?_⟩
      rcases Nat.lt_succ_iff_lt_or_eq.mp hi with hlt | heq
      · exact hrows i a_i sp hlt hai hsp hhas hpos
      · subst heq
        rw [hak] at hai
        cases hai
        exact hq sp hsp hhas hpos

/-- The final step reports the integration error as soon as `chistatus` or
`status_mg` is non-zero, and leaves the cosmology as it was up to the
diagnostic. -/
theorem growth_finish_integ (env : Env α) (cosmo : ccl_cosmology α) (a : List α)
    (na : Int) (growth0 : α) (st : growth_loop_state α)
    (h : st.chistatus ≠ 0 ∨ st.status_mg ≠ 0) :
    (growth_finish env cosmo a na growth0 st).2 = CCL_ERROR_INTEG ∧
    same_up_to_message cosmo (growth_finish env cosmo a na growth0 st).1 := by
  have hout := (growth_finish_outcome env cosmo a na growth0 st).1
  have hcode : (growth_finish env cosmo a na growth0 st).2 = CCL_ERROR_INTEG := by
    unfold growth_finish
    rw [if_pos (by tauto)]
    by_cases hmg : st.status_mg ≠ 0
    · simp only [if_pos hmg]
    · simp only [if_neg hmg]
      have hchi : st.chistatus ≠ 0 := by tauto
      simp only [if_pos hchi]
  exact ⟨hcode, hout (by rw [hcode]; decide)⟩

/-- The final step reports the spline error when the flags are zero and the
construction of one of the two interpolants fails. -/
theorem growth_finish_spline (env : Env α) (cosmo : ccl_cosmology α) (a : List α)
    (na : Int) (growth0 : α) (st : growth_loop_state α)
    (hchi : st.chistatus = 0) (hmg : st.status_mg = 0) (hs : st.status = 0)
    (h : env.gsl_spline_init a (st.y.map CDouble.val) na ≠ 0 ∨
      env.gsl_spline_init a st.y2 na ≠ 0) :
    (growth_finish env cosmo a na growth0 st).2 = CCL_ERROR_SPLINE ∧
    same_up_to_message cosmo (growth_finish env cosmo a na growth0 st).1 := by
  have hout := (growth_finish_outcome env cosmo a na growth0 st).1
  have hcode : (growth_finish env cosmo a na growth0 st).2 = CCL_ERROR_SPLINE := by
    unfold growth_finish
    rw [if_neg (by rw [hchi, hmg, hs]; simp)]
    by_cases hD : env.gsl_spline_init a (List.map CDouble.val st.y) na ≠ 0
    · rw [if_pos hD]
    · rw [if_neg hD]
      have hf : env.gsl_spline_init a st.y2 na ≠ 0 := by tauto
      rw [if_pos hf]
  exact ⟨hcode, hout (by rw [hcode]; decide)⟩

/-- A run of the loop stage that does not end with the integration error saw
a zero return value at `a = 1` and at every grid point, and a successful
quadrature at every grid point of the modified-growth path. -/
theorem growth_tables_integ (m : libm α) (env : Env α) (cosmo c : ccl_cosmology α)
    (a : List α) (na : Int) (df_a_spline : Option (gsl_spline α)) (status s : Int)
    (hN : ¬ ((cosmo.params.N_nu_mass : α) > 1e-12))
    (h4 : env.malloc 4 na = true) (h5 : env.malloc 5 na = true)
    (h : growth_tables m env cosmo a na df_a_spline status = some (c, s))
    (hs : s ≠ CCL_ERROR_INTEG) :
    (growth_factor_and_growth_rate m env 1 env.indeterminate env.indeterminate
      cosmo status).1 = 0 ∧
    (∀ i a_i, i < na.toNat → a[i]? = some a_i →
      (growth_factor_and_growth_rate m env a_i env.indeterminate env.indeterminate
        cosmo status).1 = 0) ∧
    (∀ i a_i sp, i < na.toNat → a[i]? = some a_i → df_a_spline = some sp →
      cosmo.params.has_mgrowth = true → a_i > 0 →
      (env.gsl_integration_cquad (fun x t => (df_integrand env x sp, t)) a_i 1 0
        cosmo.gsl_params.INTEGRATION_DISTANCE_EPSREL status).1 = GSL_SUCCESS) := by
  unfold growth_tables at h
  rw [if_neg (by rw [h4]; decide), if_neg (by rw [h5]; decide)] at h
  simp only [Option.map_eq_some'] at h
  obtain ⟨st, hfold, hfin⟩ := h
  obtain ⟨-, hchi, hmg⟩ := growth_loop_flags m env cosmo a df_a_spline _ hN _ _ st hfold
  simp only [growth_factor_and_growth_rate_status m env _ _ _ cosmo _ hN] at hchi hmg
  have hflags : st.chistatus = 0 ∧ st.status_mg = 0 := by
    by_contra hnot
    have hor : st.chistatus ≠ 0 ∨ st.status_mg ≠ 0 := by tauto
    have hcode := (growth_finish_integ env cosmo a na
      (growth_factor_and_growth_rate m env 1 env.indeterminate env.indeterminate
        cosmo status).2.1 st hor).1
    rw [hfin] at hcode
    exact hs hcode
  obtain ⟨hc0, hrows⟩ := hchi hflags.1
  obtain ⟨-, hq⟩ := hmg hflags.2
  exact ⟨(int_lor_eq_zero hc0).2, hrows, hq⟩

/-- C16: an ODE failure that goes unreported.  Under `failing_ode_env` the ODE
driver reports a failure on every call and the conversion of NAN to `int` is
0: on the small-grid cosmology, which has no massive neutrinos,
`growth_factor_and_growth_rate` at a = 1 and at the grid point 0.1 returns 0
and leaves the output cells as they were, and `ccl_cosmology_compute_growth`
ends with status 0, `computed_growth` true and both interpolants installed,
`growth0` being the indeterminate content of its cell. -/
theorem C16_ode_failure_unreported :
    (∀ f h0 e1 e2 t0 t1 (y : ℝ × ℝ),
      ((failing_ode_env : Env ℝ).gsl_odeiv2_driver_apply f h0 e1 e2 t0 t1 y).1 ≠ GSL_SUCCESS) ∧
    (small_grid_cosmology : ccl_cosmology ℝ).params.N_nu_mass = 0 ∧
    (small_grid_cosmology : ccl_cosmology ℝ).computed_growth = false ∧
    growth_factor_and_growth_rate libm_real failing_ode_env 1
      (failing_ode_env : Env ℝ).indeterminate (failing_ode_env : Env ℝ).indeterminate
      small_grid_cosmology 0
      = (0, (failing_ode_env : Env ℝ).indeterminate, (failing_ode_env : Env ℝ).indeterminate, 0) ∧
    growth_factor_and_growth_rate libm_real failing_ode_env 0.1
      (failing_ode_env : Env ℝ).indeterminate (failing_ode_env : Env ℝ).indeterminate
      small_grid_cosmology 0
      = (0, (failing_ode_env : Env ℝ).indeterminate, (failing_ode_env : Env ℝ).indeterminate, 0) ∧
    ∃ c, ccl_cosmology_compute_growth libm_real failing_ode_env small_grid_cosmology 0
        = some (c, 0) ∧
      c.computed_growth = true ∧ c.data.growth.isSome = true ∧ c.data.fgrowth.isSome = true ∧
      c.data.growth0 = (failing_ode_env : Env ℝ).indeterminate := by
  have e2 : (2 : ℤ).toNat = 2 := rfl
  have e3 : (3 : ℤ).toNat = 3 := rfl
  have r3 : List.range 3 = [0, 1, 2] := rfl
  have hmalloc : ∀ k n, (failing_ode_env : Env ℝ).malloc k n = true := fun _ _ => rfl
  have hlinlog : ∀ a b c d e, (failing_ode_env : Env ℝ).ccl_linlog_spacing a b c d e
      = some [a, b, c] := fun _ _ _ _ _ => rfl
  have hinit : ∀ x y n, (failing_ode_env : Env ℝ).gsl_spline_init x y n = 0 :=
    fun _ _ _ => rfl
  have hode : ∀ f h0 e1 e2 t0 t1 y,
      (failing_ode_env : Env ℝ).gsl_odeiv2_driver_apply f h0 e1 e2 t0 t1 y = (-1, y) :=
    fun _ _ _ _ _ _ _ => rfl
  have hnan : (failing_ode_env : Env ℝ).NAN_as_int = 0 := rfl
  have hNA : (small_grid_cosmology : ccl_cosmology ℝ).spline_params.A_SPLINE_NA = 2 := rfl
  have hNLOG : (small_grid_cosmology : ccl_cosmology ℝ).spline_params.A_SPLINE_NLOG = 2 := rfl
  have hMINLOG : (small_grid_cosmology : ccl_cosmology ℝ).spline_params.A_SPLINE_MINLOG
      = 0.0001 := rfl
  have hMIN : (small_grid_cosmology : ccl_cosmology ℝ).spline_params.A_SPLINE_MIN = 0.1 := rfl
  have hMAX : (small_grid_cosmology : ccl_cosmology ℝ).spline_params.A_SPLINE_MAX = 1 := rfl
  have hEPS : (small_grid_cosmology : ccl_cosmology ℝ).gsl_params.EPS_SCALEFAC_GROWTH
      = 1e-6 := rfl
  have hmg : (small_grid_cosmology : ccl_cosmology ℝ).params.has_mgrowth = false := rfl
  have hN : (small_grid_cosmology : ccl_cosmology ℝ).params.N_nu_mass = 0 := rfl
  have hcg : (small_grid_cosmology : ccl_cosmology ℝ).computed_growth = false := rfl
  have hg : ∀ a : ℝ, ¬ a < 1e-6 →
      growth_factor_and_growth_rate libm_real failing_ode_env a
        (failing_ode_env : Env ℝ).indeterminate (failing_ode_env : Env ℝ).indeterminate
        small_grid_cosmology 0
      = (0, (failing_ode_env : Env ℝ).indeterminate,
          (failing_ode_env : Env ℝ).indeterminate, 0) := by
    intro a ha
    unfold growth_factor_and_growth_rate
    rw [hEPS, if_neg ha]
    simp only [hode, hnan, small_grid_status]
    rw [if_pos (by decide)]
  refine ⟨fun _ _ _ _ _ _ _ => by rw [hode]; exact (by decide : (-1 : Int) ≠ 0), rfl, rfl,
    hg 1 (by norm_num),
    hg 0.1 (by norm_num), ?_⟩
  unfold ccl_cosmology_compute_growth
  norm_num [hN, hcg, hlinlog, hNA, hNLOG, hMINLOG, hMIN, hMAX, array_get, e2, hmg]
  unfold growth_tables
  norm_num [hmalloc, e3, r3, List.foldlM, growth_loop_body, hmg, growth_factor_and_growth_rate,
    hEPS, hode, GSL_SUCCESS, small_grid_status, int_lor_zero_left, hnan]
  unfold growth_finish
  norm_num [hinit]


/-! ## Theorems: scenario values and the growth system -/

/-- C21 (as amended): for every cosmology with Omega_m = 0.3, Omega_l = 0.7,
Omega_k = Omega_g = Omega_n_rel = 0, w0 = -1, wa = 0 and no massive
neutrinos, `h_over_h0` at a = 0.5 is the square root of 3.1, for every
collaborator and with the status left as it was; that value agrees with 1.761
to three decimals and lies between 1.7606 and 1.7607. -/
theorem C21_flat_lcdm_E_half (env : Env ℝ) (cosmo : ccl_cosmology ℝ) (status : Int)
    (hm : cosmo.params.Omega_m = 0.3) (hl : cosmo.params.Omega_l = 0.7)
    (hk : cosmo.params.Omega_k = 0) (hg : cosmo.params.Omega_g = 0)
    (hur : cosmo.params.Omega_n_rel = 0) (hw0 : cosmo.params.w0 = -1)
    (hwa : cosmo.params.wa = 0) (hN : cosmo.params.N_nu_mass = 0) :
    h_over_h0 libm_real env 0.5 cosmo status = (Real.sqrt 3.1, status) ∧
    |(h_over_h0 libm_real env 0.5 cosmo status).1 - 1.761| < 0.0005 ∧
    1.7606 < (h_over_h0 libm_real env 0.5 cosmo status).1 ∧
    (h_over_h0 libm_real env 0.5 cosmo status).1 < 1.7607 := by
  have hval : h_over_h0 libm_real env 0.5 cosmo status = (Real.sqrt 3.1, status) := by
    unfold h_over_h0
    simp only [libm_real, hm, hl, hk, hg, hur, hw0, hwa, hN]
    have hp : (0.5 : ℝ) ^ (-3 * (-1 + 0) : ℝ) = 0.125 := by
      rw [show (-3 * (-1 + 0) : ℝ) = ((3 : ℕ) : ℝ) by norm_num, Real.rpow_natCast]
      norm_num
    rw [hp]
    norm_num
  have hlo : (1.7606 : ℝ) < Real.sqrt 3.1 := by
    rw [Real.lt_sqrt (by norm_num)]
    norm_num
  have hhi : Real.sqrt 3.1 < (1.7607 : ℝ) := by
    rw [Real.sqrt_lt' (by norm_num)]
    norm_num
  rw [hval]
  refine ⟨rfl, ?_, hlo, hhi⟩
  rw [abs_lt]
  constructor <;> linarith

/-- C21 at the flat cosmology of scenario A. -/
theorem C21_flat_lcdm_E_half_witness :
    (flat_lcdm : ccl_cosmology ℝ).params.Omega_m = 0.3 ∧
    (flat_lcdm : ccl_cosmology ℝ).params.Omega_l = 0.7 ∧
    (flat_lcdm : ccl_cosmology ℝ).params.h = 0.7 ∧
    |(h_over_h0 libm_real example_env 0.5 flat_lcdm 0).1 - 1.761| < 0.0005 :=
  ⟨rfl, rfl, rfl,
   (C21_flat_lcdm_E_half example_env flat_lcdm 0 rfl rfl rfl rfl rfl rfl rfl rfl).2.1⟩

/-- C21 as stated fails: at the flat cosmology of scenario A the value of
`h_over_h0` at a = 0.5 is below 1.7607, so it differs from 1.957 by more than
0.19 and does not agree with it to three decimals. -/
theorem C21_counterexample :
    (h_over_h0 libm_real example_env 0.5 flat_lcdm 0).1 < 1.7607 ∧
    ¬ |(h_over_h0 libm_real example_env 0.5 flat_lcdm 0).1 - 1.957| < 0.0005 := by
  have hval : (h_over_h0 libm_real example_env 0.5 flat_lcdm 0).1 = Real.sqrt 3.1 := by
    unfold h_over_h0
    simp only [libm_real, flat_lcdm]
    have hp : (0.5 : ℝ) ^ (-3 * (-1 + 0) : ℝ) = 0.125 := by
      rw [show (-3 * (-1 + 0) : ℝ) = ((3 : ℕ) : ℝ) by norm_num, Real.rpow_natCast]
      norm_num
    rw [hp]
    norm_num
  have hhi : Real.sqrt 3.1 < (1.7607 : ℝ) := by
    rw [Real.sqrt_lt' (by norm_num)]
    norm_num
  rw [hval]
  refine ⟨hhi, ?_⟩
  rw [abs_lt]
  intro h
  linarith [h.1]

/-- C22: the right-hand side of the growth system.  For every a and state y
the first component is `y[1] / (a^3 E(a))` and the second is
`1.5 E(a) a Omega_m(a) y[0]` with `Omega_m(a)` the matter fraction returned by
`ccl_omega_x`; for a > 0 and E(a) > 0 the second component equals
`1.5 Omega_m y[0] / (a^2 E(a))` with `Omega_m` the present-day fraction. -/
theorem C22_growth_ode_rhs (m : libm α) (env : Env α) (cosmo : ccl_cosmology α) (a : α)
    (y : α × α) :
    (growth_ode_system m env cosmo a y).1.1 = y.2 / (a ^ 3 * (h_over_h0 m env a cosmo 0).1) ∧
    (growth_ode_system m env cosmo a y).1.2 =
      CDouble.val (1.5 * (h_over_h0 m env a cosmo 0).1 * a) *
        (ccl_omega_x m env cosmo a ccl_species_m_label 0).1 * CDouble.val y.1 ∧
    (0 < a → 0 < (h_over_h0 m env a cosmo 0).1 →
      (growth_ode_system m env cosmo a y).1.2 =
        CDouble.val (1.5 * cosmo.params.Omega_m * y.1 /
          (a ^ 2 * (h_over_h0 m env a cosmo 0).1))) := by
  have hom := ccl_omega_x_value_status m env cosmo a ccl_species_m_label
    (h_over_h0 m env a cosmo 0).2 0
  have hE : ∀ s, (h_over_h0 m env a cosmo s).1 = (h_over_h0 m env a cosmo 0).1 :=
    fun s => h_over_h0_value_status m env a cosmo s 0
  refine ⟨?_, ?_, ?_⟩
  · simp only [growth_ode_system]
    congr 1
    ring
  · simp only [growth_ode_system, hom]
  · intro ha hpos
    have ha0 : a ≠ 0 := ha.ne'
    have hE0 : (h_over_h0 m env a cosmo 0).1 ≠ 0 := hpos.ne'
    simp only [growth_ode_system, hom]
    simp only [ccl_omega_x, hE, CDouble.val_mul_val]
    congr 1
    field_simp
    ring

/-- C22 at the flat cosmology, a = 1 and the state (2, 3): E(1) = 1, so the
right-hand side is (3, 0.9). -/
theorem C22_growth_ode_rhs_witness :
    (0 : ℝ) < 1 ∧ 0 < (h_over_h0 libm_real example_env 1 flat_lcdm 0).1 ∧
    (growth_ode_system libm_real example_env flat_lcdm 1 (2, 3)).1.2 = CDouble.val (0.9 : ℝ) := by
  have hE : (h_over_h0 libm_real example_env 1 flat_lcdm 0).1 = 1 :=
    flat_lcdm_E_today example_env 0
  have hpos : 0 < (h_over_h0 libm_real example_env 1 flat_lcdm 0).1 := by
    rw [hE]
    exact one_pos
  refine ⟨one_pos, hpos, ?_⟩
  rw [(C22_growth_ode_rhs libm_real example_env flat_lcdm 1 (2, 3)).2.2 one_pos hpos, hE]
  simp only [flat_lcdm]
  norm_num

/-- C23: `growth_factor_and_growth_rate` at a >= eps = `EPS_SCALEFAC_GROWTH`.
The ODE driver is applied to `growth_ode_system` with initial step 0.1 eps,
from eps to a, on the initial state (eps, eps^3 E(eps)); when it reports
success with final state (y0, y1) the function returns 0 with D = y0 and
f = y1 / (a^2 E(a) y0).  Hence, for eps > 0 and E(eps) non-zero, a driver that
hands back the initial state at a = eps gives D = eps and f = 1, the values of
the branch a < eps at the cutoff. -/
theorem C23_growth_from_ode (m : libm α) (env : Env α) (a gf fg : α)
    (cosmo : ccl_cosmology α) (stat : Int)
    (ha : cosmo.gsl_params.EPS_SCALEFAC_GROWTH ≤ a) :
    ((env.gsl_odeiv2_driver_apply (growth_ode_system m env cosmo)
        (0.1 * cosmo.gsl_params.EPS_SCALEFAC_GROWTH) 0 cosmo.gsl_params.ODE_GROWTH_EPSREL
        cosmo.gsl_params.EPS_SCALEFAC_GROWTH a
        (cosmo.gsl_params.EPS_SCALEFAC_GROWTH,
         cosmo.gsl_params.EPS_SCALEFAC_GROWTH ^ 3 *
          (h_over_h0 m env cosmo.gsl_params.EPS_SCALEFAC_GROWTH cosmo stat).1)).1
        = GSL_SUCCESS →
      (growth_factor_and_growth_rate m env a gf fg cosmo stat).1 = 0 ∧
      (growth_factor_and_growth_rate m env a gf fg cosmo stat).2.1 =
        (env.gsl_odeiv2_driver_apply (growth_ode_system m env cosmo)
          (0.1 * cosmo.gsl_params.EPS_SCALEFAC_GROWTH) 0 cosmo.gsl_params.ODE_GROWTH_EPSREL
          cosmo.gsl_params.EPS_SCALEFAC_GROWTH a
          (cosmo.gsl_params.EPS_SCALEFAC_GROWTH,
           cosmo.gsl_params.EPS_SCALEFAC_GROWTH ^ 3 *
            (h_over_h0 m env cosmo.gsl_params.EPS_SCALEFAC_GROWTH cosmo stat).1)).2.1 ∧
      (growth_factor_and_growth_rate m env a gf fg cosmo stat).2.2.1 =
        (env.gsl_odeiv2_driver_apply (growth_ode_system m env cosmo)
          (0.1 * cosmo.gsl_params.EPS_SCALEFAC_GROWTH) 0 cosmo.gsl_params.ODE_GROWTH_EPSREL
          cosmo.gsl_params.EPS_SCALEFAC_GROWTH a
          (cosmo.gsl_params.EPS_SCALEFAC_GROWTH,
           cosmo.gsl_params.EPS_SCALEFAC_GROWTH ^ 3 *
            (h_over_h0 m env cosmo.gsl_params.EPS_SCALEFAC_GROWTH cosmo stat).1)).2.2 /
        (a ^ 2 * (h_over_h0 m env a cosmo stat).1 *
          (env.gsl_odeiv2_driver_apply (growth_ode_system m env cosmo)
            (0.1 * cosmo.gsl_params.EPS_SCALEFAC_GROWTH) 0 cosmo.gsl_params.ODE_GROWTH_EPSREL
            cosmo.gsl_params.EPS_SCALEFAC_GROWTH a
            (cosmo.gsl_params.EPS_SCALEFAC_GROWTH,
             cosmo.gsl_params.EPS_SCALEFAC_GROWTH ^ 3 *
              (h_over_h0 m env cosmo.gsl_params.EPS_SCALEFAC_GROWTH cosmo stat).1)).2.1)) ∧
    (a = cosmo.gsl_params.EPS_SCALEFAC_GROWTH →
      0 < cosmo.gsl_params.EPS_SCALEFAC_GROWTH →
      (h_over_h0 m env cosmo.gsl_params.EPS_SCALEFAC_GROWTH cosmo stat).1 ≠ 0 →
      env.gsl_odeiv2_driver_apply (growth_ode_system m env cosmo)
        (0.1 * cosmo.gsl_params.EPS_SCALEFAC_GROWTH) 0 cosmo.gsl_params.ODE_GROWTH_EPSREL
        cosmo.gsl_params.EPS_SCALEFAC_GROWTH a
        (cosmo.gsl_params.EPS_SCALEFAC_GROWTH,
         cosmo.gsl_params.EPS_SCALEFAC_GROWTH ^ 3 *
          (h_over_h0 m env cosmo.gsl_params.EPS_SCALEFAC_GROWTH cosmo stat).1)
        = (GSL_SUCCESS, cosmo.gsl_params.EPS_SCALEFAC_GROWTH,
            cosmo.gsl_params.EPS_SCALEFAC_GROWTH ^ 3 *
              (h_over_h0 m env cosmo.gsl_params.EPS_SCALEFAC_GROWTH cosmo stat).1) →
      (growth_factor_and_growth_rate m env a gf fg cosmo stat).1 = 0 ∧
      (growth_factor_and_growth_rate m env a gf fg cosmo stat).2.1 = a ∧
      (growth_factor_and_growth_rate m env a gf fg cosmo stat).2.2.1 = 1) := by
  have hcube : cosmo.gsl_params.EPS_SCALEFAC_GROWTH * cosmo.gsl_params.EPS_SCALEFAC_GROWTH *
      cosmo.gsl_params.EPS_SCALEFAC_GROWTH *
        (h_over_h0 m env cosmo.gsl_params.EPS_SCALEFAC_GROWTH cosmo stat).1
      = cosmo.gsl_params.EPS_SCALEFAC_GROWTH ^ 3 *
        (h_over_h0 m env cosmo.gsl_params.EPS_SCALEFAC_GROWTH cosmo stat).1 := by ring
  have hE : ∀ s, (h_over_h0 m env a cosmo s).1 = (h_over_h0 m env a cosmo stat).1 :=
    fun s => h_over_h0_value_status m env a cosmo s stat
  have hsucc : ∀ d : Int × (α × α),
      env.gsl_odeiv2_driver_apply (growth_ode_system m env cosmo)
        (0.1 * cosmo.gsl_params.EPS_SCALEFAC_GROWTH) 0 cosmo.gsl_params.ODE_GROWTH_EPSREL
        cosmo.gsl_params.EPS_SCALEFAC_GROWTH a
        (cosmo.gsl_params.EPS_SCALEFAC_GROWTH,
         cosmo.gsl_params.EPS_SCALEFAC_GROWTH ^ 3 *
          (h_over_h0 m env cosmo.gsl_params.EPS_SCALEFAC_GROWTH cosmo stat).1) = d →
      d.1 = GSL_SUCCESS →
      (growth_factor_and_growth_rate m env a gf fg cosmo stat).1 = 0 ∧
      (growth_factor_and_growth_rate m env a gf fg cosmo stat).2.1 = d.2.1 ∧
      (growth_factor_and_growth_rate m env a gf fg cosmo stat).2.2.1 =
        d.2.2 / (a ^ 2 * (h_over_h0 m env a cosmo stat).1 * d.2.1) := by
    intro d hd hd1
    unfold growth_factor_and_growth_rate
    simp only [if_neg (not_lt.mpr ha), hcube, hd, hE]
    rw [if_neg (by rw [hd1]; exact fun h => h rfl)]
    refine ⟨rfl, rfl, ?_⟩
    simp only
    congr 1
    ring
  refine ⟨fun h => hsucc _ rfl h, ?_⟩
  intro hae heps hE0 hd
  obtain ⟨h1, h2, h3⟩ := hsucc _ hd rfl
  refine ⟨h1, by rw [h2, hae], ?_⟩
  rw [h3]
  simp only
  rw [hae]
  have he : cosmo.gsl_params.EPS_SCALEFAC_GROWTH ≠ 0 := heps.ne'
  field_simp
  ring

/-- C23 at the flat cosmology and a = eps = 1e-6, with a driver that hands
back the initial state: D = 1e-6 and f = 1. -/
theorem C23_growth_from_ode_witness :
    (flat_lcdm : ccl_cosmology ℝ).gsl_params.EPS_SCALEFAC_GROWTH ≤ 1e-6 ∧
    (growth_factor_and_growth_rate libm_real example_env 1e-6 5 5 flat_lcdm 0).2.1 = 1e-6 ∧
    (growth_factor_and_growth_rate libm_real example_env 1e-6 5 5 flat_lcdm 0).2.2.1 = 1 := by
  have heps : (flat_lcdm : ccl_cosmology ℝ).gsl_params.EPS_SCALEFAC_GROWTH = 1e-6 := rfl
  have hle : (flat_lcdm : ccl_cosmology ℝ).gsl_params.EPS_SCALEFAC_GROWTH ≤ 1e-6 := by
    rw [heps]
  have hE : (h_over_h0 libm_real example_env
      (flat_lcdm : ccl_cosmology ℝ).gsl_params.EPS_SCALEFAC_GROWTH flat_lcdm 0).1 ≠ 0 := by
    rw [heps]
    unfold h_over_h0
    simp only [libm_real, flat_lcdm]
    apply ne_of_gt
    apply Real.sqrt_pos.mpr
    have h3 : (0 : ℝ) < 1e-6 * 1e-6 * 1e-6 := by norm_num
    apply div_pos _ h3
    norm_num
  obtain ⟨-, h2, h3⟩ := (C23_growth_from_ode libm_real example_env 1e-6 5 5 flat_lcdm 0 hle).2
    heps.symm (by rw [heps]; norm_num) hE rfl
  exact ⟨hle, h2, h3⟩

/-- C28: the comoving matter density does not depend on a.  For every a > 0
with E(a) non-zero, `ccl_rho_x` for matter with `is_comoving = 1` is
`RHO_CRITICAL * h^2 * Omega_m`, and the physical density (`is_comoving = 0`)
is that constant divided by a^3; the status is the one `h_over_h0` leaves. -/
theorem C28_comoving_matter_density (m : libm α) (env : Env α) (cosmo : ccl_cosmology α)
    (a : α) (status : Int) (ha : 0 < a) (hE : (h_over_h0 m env a cosmo status).1 ≠ 0) :
    (ccl_rho_x m env cosmo a ccl_species_m_label 1 status).1 =
      CDouble.val (env.ccl_constants.RHO_CRITICAL * cosmo.params.h ^ 2 * cosmo.params.Omega_m) ∧
    (ccl_rho_x m env cosmo a ccl_species_m_label 0 status).1 =
      CDouble.val (env.ccl_constants.RHO_CRITICAL * cosmo.params.h ^ 2 * cosmo.params.Omega_m
        / a ^ 3) := by
  have ha0 : a ≠ 0 := ha.ne'
  have hEs : ∀ s, (h_over_h0 m env a cosmo s).1 = (h_over_h0 m env a cosmo status).1 :=
    fun s => h_over_h0_value_status m env a cosmo s status
  constructor
  · simp only [ccl_rho_x, ccl_omega_x, hEs, CDouble.val_mul_val]
    congr 1
    rw [if_pos (by decide)]
    field_simp
    ring
  · simp only [ccl_rho_x, ccl_omega_x, hEs, CDouble.val_mul_val]
    congr 1
    rw [if_neg (by decide)]
    field_simp
    ring

/-- C28 at the flat cosmology: the comoving matter density at a = 1 and its
constant value. -/
theorem C28_comoving_matter_density_witness :
    (0 : ℝ) < 1 ∧ (h_over_h0 libm_real example_env 1 flat_lcdm 0).1 ≠ 0 ∧
    (ccl_rho_x libm_real example_env flat_lcdm 1 ccl_species_m_label 1 0).1 =
      CDouble.val ((example_env : Env ℝ).ccl_constants.RHO_CRITICAL *
        (flat_lcdm : ccl_cosmology ℝ).params.h ^ 2 *
        (flat_lcdm : ccl_cosmology ℝ).params.Omega_m) :=
  have hE : (h_over_h0 libm_real example_env 1 flat_lcdm 0).1 ≠ 0 := by
    rw [flat_lcdm_E_today example_env 0]
    exact one_ne_zero
  ⟨one_pos, hE,
   (C28_comoving_matter_density libm_real example_env flat_lcdm 1 0 one_pos hE).1⟩

/-- C29: `ccl_distance_modulus` today and before.  For every a with
1 - 1e-8 < a <= 1 it returns NaN with the status `CCL_ERROR_COMPUTECHI`, which
is non-zero, whatever the collaborators and the state of the tables, and
changes nothing in the cosmology but the diagnostic.  For a <= 1 - 1e-8 on
built tables its value is 5 log10(d) + 25 with d the value of
`ccl_luminosity_distance`, which is the value of
`ccl_comoving_angular_distance` divided by a; cosmology and status are those
the inner query leaves. -/
theorem C29_distance_modulus [FloorRing α] (m : libm α) (env : Env α)
    (cosmo : ccl_cosmology α) (a : α) (status : Int) :
    (1 - 1e-8 < a → a ≤ 1 →
      ccl_distance_modulus m env cosmo a status =
        some (CDouble.NaN,
          ccl_cosmology_set_status_message cosmo
            "ccl_background.c: distance_modulus undefined for a=1.\n",
          CCL_ERROR_COMPUTECHI) ∧
      CCL_ERROR_COMPUTECHI ≠ 0 ∧
      same_up_to_message cosmo (ccl_cosmology_set_status_message cosmo
        "ccl_background.c: distance_modulus undefined for a=1.\n") ∧
      ∀ (m2 : libm α) (env2 : Env α),
        ccl_distance_modulus m2 env2 cosmo a status = ccl_distance_modulus m env cosmo a status) ∧
    (a ≤ 1 - 1e-8 → cosmo.computed_distances = true →
      ccl_distance_modulus m env cosmo a status =
        (ccl_luminosity_distance m env cosmo a status).map (fun r =>
          (r.1.map (fun d => 5 * m.log10 d + 25), r.2.1, r.2.2)) ∧
      ccl_luminosity_distance m env cosmo a status =
        (ccl_comoving_angular_distance m env cosmo a status).map (fun r =>
          (r.1 / CDouble.val a, r.2.1, r.2.2))) := by
  constructor
  · intro h1 h2
    have hall : ∀ (m2 : libm α) (env2 : Env α),
        ccl_distance_modulus m2 env2 cosmo a status =
          some (CDouble.NaN,
            ccl_cosmology_set_status_message cosmo
              "ccl_background.c: distance_modulus undefined for a=1.\n",
            CCL_ERROR_COMPUTECHI) := by
      intro m2 env2
      unfold ccl_distance_modulus
      rw [if_pos ⟨h1, h2⟩]
      rfl
    exact ⟨hall m env, by decide,
      same_up_to_message_set _ _ _ (same_up_to_message_refl _),
      fun m2 env2 => by rw [hall m2 env2, hall m env]⟩
  · intro h1 hc
    have hlt : (1 : α) - 1e-8 < 1 := by norm_num
    refine ⟨?_, rfl⟩
    unfold ccl_distance_modulus
    rw [if_neg (fun h => absurd h.1 (not_lt.mpr h1)),
      if_neg (fun h => absurd (lt_of_le_of_lt h1 hlt) (not_lt.mpr h.le)),
      ensure_distances_built m env cosmo status hc, Option.some_bind]

/-- C29 at a = 1 on the flat cosmology (tables not built), and at a = 1/2 on
the built cosmology. -/
theorem C29_distance_modulus_witness :
    ((1 : ℝ) - 1e-8 < 1 ∧ (1 : ℝ) ≤ 1 ∧
      ccl_distance_modulus libm_real example_env flat_lcdm 1 0 =
        some (CDouble.NaN,
          ccl_cosmology_set_status_message (flat_lcdm : ccl_cosmology ℝ)
            "ccl_background.c: distance_modulus undefined for a=1.\n",
          CCL_ERROR_COMPUTECHI)) ∧
    ((1 / 2 : ℝ) ≤ 1 - 1e-8 ∧ (built_cosmology : ccl_cosmology ℝ).computed_distances = true ∧
      ccl_distance_modulus libm_real example_env built_cosmology (1 / 2) 0 =
        (ccl_luminosity_distance libm_real example_env built_cosmology (1 / 2) 0).map (fun r =>
          (r.1.map (fun d => 5 * (Real.log d / Real.log 10) + 25), r.2.1, r.2.2))) :=
  ⟨⟨by norm_num, le_refl _,
    ((C29_distance_modulus libm_real example_env flat_lcdm 1 0).1 (by norm_num)
      (le_refl _)).1⟩,
   ⟨by norm_num, rfl,
    ((C29_distance_modulus libm_real example_env built_cosmology (1 / 2) 0).2 (by norm_num)
      rfl).1⟩⟩


/-! ## Theorems: the inverse solve -/

/-- The counter of the loop of `a_of_chi`: every pass increments it, it never
exceeds the larger of its value after the first pass and
`ROOT_N_ITERATION + 1`, and the loop is left with `GSL_CONTINUE` only when
the counter has passed the limit. -/
theorem a_of_chi_loop_counter (env : Env α) (FDF : α → Int → (α × α) × Int)
    (cosmo : ccl_cosmology α) (iter : Int) (s : gsl_root_fdfsolver α) (a_current : α)
    (stat : Int) :
    iter + 1 ≤ (a_of_chi_loop env FDF cosmo iter s a_current stat).2.1 ∧
    (a_of_chi_loop env FDF cosmo iter s a_current stat).2.1
      ≤ max (iter + 1) (cosmo.gsl_params.ROOT_N_ITERATION + 1) ∧
    ((a_of_chi_loop env FDF cosmo iter s a_current stat).1 = GSL_CONTINUE →
      cosmo.gsl_params.ROOT_N_ITERATION < (a_of_chi_loop env FDF cosmo iter s a_current stat).2.1) := by
  induction iter, s, a_current, stat using a_of_chi_loop.induct env FDF cosmo with
  | case1 iter s a_current stat it a_previous a_next gslstatus hcont ih =>
    unfold a_of_chi_loop
    simp only [if_pos hcont]
    obtain ⟨h1, h2, h3⟩ := ih
    refine ⟨le_trans (show iter + 1 ≤ iter + 1 + 1 by omega) h1, ?_, h3⟩
    refine le_trans h2 (max_le ?_ (le_max_right _ _))
    exact le_trans (show iter + 1 + 1 ≤ cosmo.gsl_params.ROOT_N_ITERATION + 1 by
      have := hcont.2
      omega) (le_max_right _ _)
  | case2 iter s a_current stat it a_previous a_next gslstatus hstop =>
    unfold a_of_chi_loop
    simp only [if_neg hstop]
    refine ⟨le_refl _, le_max_left _ _, ?_⟩
    intro hc
    by_contra hle
    exact hstop ⟨hc, by omega⟩

/-- C25: the inverse solve stops.  For every chi different from 0 and every
warm start, `a_of_chi` performs at least one and at most
max(1, `ROOT_N_ITERATION` + 1) solver iterations, hence at most
`ROOT_N_ITERATION` + 1 for a non-negative limit; the loop is left with
`GSL_CONTINUE` only once the counter has passed the limit; whenever the last
relative-step test is not `GSL_SUCCESS` the status on exit is
`CCL_ERROR_COMPUTECHI`, which is non-zero; and in every case the warm-start
slot receives the last iterate. -/
theorem C25_a_of_chi_stops (m : libm α) (env : Env α) (chi : α) (cosmo : ccl_cosmology α)
    (stat : Int) (a_old : α) (hchi : chi ≠ 0) :
    1 ≤ a_of_chi_iterations m env chi cosmo stat a_old ∧
    a_of_chi_iterations m env chi cosmo stat a_old
      ≤ max 1 (cosmo.gsl_params.ROOT_N_ITERATION + 1) ∧
    (0 ≤ cosmo.gsl_params.ROOT_N_ITERATION →
      a_of_chi_iterations m env chi cosmo stat a_old ≤ cosmo.gsl_params.ROOT_N_ITERATION + 1) ∧
    (a_of_chi_gslstatus m env chi cosmo stat a_old = GSL_CONTINUE →
      cosmo.gsl_params.ROOT_N_ITERATION < a_of_chi_iterations m env chi cosmo stat a_old) ∧
    (a_of_chi_gslstatus m env chi cosmo stat a_old ≠ GSL_SUCCESS →
      (a_of_chi m env chi cosmo stat a_old).2 = CCL_ERROR_COMPUTECHI ∧
      (a_of_chi m env chi cosmo stat a_old).2 ≠ 0) ∧
    (a_of_chi m env chi cosmo stat a_old).1 = a_of_chi_last_iterate m env chi cosmo stat a_old := by
  obtain ⟨h1, h2, h3⟩ := a_of_chi_loop_counter env (fdfzero m env chi cosmo) cosmo 0
    (env.gsl_root_fdfsolver_set (fdfzero m env chi cosmo) a_old stat).1 a_old
    (env.gsl_root_fdfsolver_set (fdfzero m env chi cosmo) a_old stat).2
  have hval : a_of_chi m env chi cosmo stat a_old =
      (a_of_chi_last_iterate m env chi cosmo stat a_old,
        if a_of_chi_gslstatus m env chi cosmo stat a_old = GSL_SUCCESS then
          (a_of_chi_loop env (fdfzero m env chi cosmo) cosmo 0
            (env.gsl_root_fdfsolver_set (fdfzero m env chi cosmo) a_old stat).1 a_old
            (env.gsl_root_fdfsolver_set (fdfzero m env chi cosmo) a_old stat).2).2.2.2
        else CCL_ERROR_COMPUTECHI) := by
    unfold a_of_chi a_of_chi_last_iterate a_of_chi_gslstatus
    rw [if_neg hchi]
  refine ⟨by simpa [a_of_chi_iterations] using h1, by simpa [a_of_chi_iterations] using h2,
    ?_, h3, ?_, by rw [hval]⟩
  · intro hN
    have h2b : a_of_chi_iterations m env chi cosmo stat a_old
        ≤ max (0 + 1) (cosmo.gsl_params.ROOT_N_ITERATION + 1) := h2
    rw [max_eq_right (by omega)] at h2b
    exact h2b
  · intro hne
    rw [hval]
    simp only [if_neg hne]
    exact ⟨trivial, by decide⟩

/-- C25 on a solve that never converges, with an iteration limit of 2: three
iterations, the status `CCL_ERROR_COMPUTECHI`, and the third iterate, 1/8, in
the warm-start slot. -/
theorem C25_a_of_chi_stops_witness :
    (10 : ℝ) ≠ 0 ∧
    a_of_chi_iterations libm_real never_converging_env 10 two_iteration_cosmology 0 1 = 3 ∧
    a_of_chi_gslstatus libm_real never_converging_env 10 two_iteration_cosmology 0 1
      = GSL_CONTINUE ∧
    a_of_chi libm_real never_converging_env 10 two_iteration_cosmology 0 1
      = (1 / 8, CCL_ERROR_COMPUTECHI) := by
  have hN : (two_iteration_cosmology : ccl_cosmology ℝ).gsl_params.ROOT_N_ITERATION = 2 := rfl
  have htest : ∀ x y e1 e2, (never_converging_env : Env ℝ).gsl_root_test_delta x y e1 e2
      = GSL_CONTINUE := fun _ _ _ _ => rfl
  have hiter : ∀ F st s, (never_converging_env : Env ℝ).gsl_root_fdfsolver_iterate F st s
      = (0, ⟨st.root / 2, st.f, st.df⟩, s) := fun _ _ _ => rfl
  have hset : ∀ F r s, (never_converging_env : Env ℝ).gsl_root_fdfsolver_set F r s
      = (⟨r, 0, 0⟩, s) := fun _ _ _ => rfl
  have hloop : ∀ F, a_of_chi_loop (never_converging_env : Env ℝ) F two_iteration_cosmology 0
      ⟨1, 0, 0⟩ 1 0 = (GSL_CONTINUE, 3, 1 / 8, 0) := by
    intro F
    unfold a_of_chi_loop
    simp only [htest, hiter, hN]
    rw [if_pos ⟨trivial, by decide⟩]
    unfold a_of_chi_loop
    simp only [htest, hiter, hN]
    rw [if_pos ⟨trivial, by decide⟩]
    unfold a_of_chi_loop
    simp only [htest, hiter, hN]
    rw [if_neg (by decide)]
    norm_num
  obtain ⟨-, -, -, hlim, hfail, hlast⟩ := C25_a_of_chi_stops libm_real never_converging_env 10
    two_iteration_cosmology 0 1 (by norm_num)
  have hi : a_of_chi_iterations libm_real never_converging_env 10 two_iteration_cosmology 0 1
      = 3 := by
    unfold a_of_chi_iterations
    rw [hset, hloop]
  have hg : a_of_chi_gslstatus libm_real never_converging_env 10 two_iteration_cosmology 0 1
      = GSL_CONTINUE := by
    unfold a_of_chi_gslstatus
    rw [hset, hloop]
  have hl : a_of_chi_last_iterate libm_real never_converging_env 10 two_iteration_cosmology 0 1
      = 1 / 8 := by
    unfold a_of_chi_last_iterate
    rw [hset, hloop]
  refine ⟨by norm_num, hi, hg, ?_⟩
  have hs := (hfail (by rw [hg]; decide)).1
  exact Prod.ext (by rw [hlast, hl]) hs


/-! ## Theorems: error kinds of the distance build -/

/-- A status that is non-zero on entry of `h_over_h0` is non-zero on exit. -/
theorem h_over_h0_persist (m : libm α) (env : Env α) (a : α) (cosmo : ccl_cosmology α)
    (s : Int) (hp : errors_persist env) (hs : s ≠ 0) : (h_over_h0 m env a cosmo s).2 ≠ 0 := by
  unfold h_over_h0
  by_cases hN : (cosmo.params.N_nu_mass : α) > 1e-12
  · simp only [if_pos hN, ccl_check_status]
    exact hp.1 _ _ _ _ _ hs
  · simp only [if_neg hN]
    exact hs

/-- A status that is non-zero on entry of `compute_chi` is non-zero on exit. -/
theorem compute_chi_persist (m : libm α) (env : Env α) (a : α) (cosmo : ccl_cosmology α)
    (s : Int) (hp : errors_persist env) (hs : s ≠ 0) : (compute_chi m env a cosmo s).2 ≠ 0 := by
  unfold compute_chi
  simp only
  split_ifs
  · decide
  · exact hp.2.1 _ _ _ _ _ _ (fun x t ht => h_over_h0_persist m env x cosmo t hp ht) hs

/-- A status that is non-zero on entry of `fdfzero` is non-zero on exit. -/
theorem fdfzero_persist (m : libm α) (env : Env α) (chi : α) (cosmo : ccl_cosmology α)
    (a : α) (s : Int) (hp : errors_persist env) (hs : s ≠ 0) :
    (fdfzero m env chi cosmo a s).2 ≠ 0 :=
  h_over_h0_persist m env a cosmo _ hp (compute_chi_persist m env a cosmo s hp hs)

/-- A status that is non-zero on entry of the loop of `a_of_chi` is non-zero
when the loop is left. -/
theorem a_of_chi_loop_persist (env : Env α) (FDF : α → Int → (α × α) × Int)
    (cosmo : ccl_cosmology α) (hp : errors_persist env)
    (hF : ∀ x t, t ≠ 0 → (FDF x t).2 ≠ 0)
    (iter : Int) (s : gsl_root_fdfsolver α) (a_current : α) (stat : Int) (hs : stat ≠ 0) :
    (a_of_chi_loop env FDF cosmo iter s a_current stat).2.2.2 ≠ 0 := by
  induction iter, s, a_current, stat using a_of_chi_loop.induct env FDF cosmo with
  | case1 iter s a_current stat it a_previous a_next gslstatus hcont ih =>
    unfold a_of_chi_loop
    simp only [if_pos hcont]
    exact ih (hp.2.2.2 FDF s stat hF hs)
  | case2 iter s a_current stat it a_previous a_next gslstatus hstop =>
    unfold a_of_chi_loop
    simp only [if_neg hstop]
    exact hp.2.2.2 FDF s stat hF hs

/-- A status that is non-zero on entry of `a_of_chi` is non-zero on exit. -/
theorem a_of_chi_persist (m : libm α) (env : Env α) (chi : α) (cosmo : ccl_cosmology α)
    (s : Int) (a_old : α) (hp : errors_persist env) (hs : s ≠ 0) :
    (a_of_chi m env chi cosmo s a_old).2 ≠ 0 := by
  unfold a_of_chi
  by_cases hchi : chi = 0
  · simp only [if_pos hchi]
    exact hs
  · simp only [if_neg hchi]
    split_ifs
    · exact a_of_chi_loop_persist env _ cosmo hp
        (fun x t ht => fdfzero_persist m env chi cosmo x t hp ht) _ _ _ _
        (hp.2.2.1 _ _ _ (fun x t ht => fdfzero_persist m env chi cosmo x t hp ht) hs)
    · decide

/-- A solve whose last relative-step test is not `GSL_SUCCESS` leaves a
non-zero status. -/
theorem a_of_chi_failure (m : libm α) (env : Env α) (chi : α) (cosmo : ccl_cosmology α)
    (s : Int) (a_old : α) (hchi : chi ≠ 0)
    (h : a_of_chi_gslstatus m env chi cosmo s a_old ≠ GSL_SUCCESS) :
    (a_of_chi m env chi cosmo s a_old).2 ≠ 0 := by
  unfold a_of_chi
  unfold a_of_chi_gslstatus at h
  simp only [if_neg hchi, if_neg h]
  decide

/-- A quadrature that does not report success makes `compute_chi` set
`CCL_ERROR_COMPUTECHI`. -/
theorem compute_chi_failure (m : libm α) (env : Env α) (a : α) (cosmo : ccl_cosmology α)
    (s : Int)
    (h : (env.gsl_integration_cquad
      (fun x t => (CDouble.val (chi_integrand m env cosmo x t).1,
                   (chi_integrand m env cosmo x t).2))
      a 1 0 cosmo.gsl_params.INTEGRATION_DISTANCE_EPSREL s).1 ≠ GSL_SUCCESS) :
    (compute_chi m env a cosmo s).2 = CCL_ERROR_COMPUTECHI := by
  unfold compute_chi
  simp only [if_pos h]

/-- The chi(a) loop: with the grid points in the array it runs to its end, and
its status is non-zero when it was on entry or when `compute_chi`, called on
the status the loop has reached, leaves a non-zero status at some grid
point. -/
theorem fill_chi_loop_status (m : libm α) (env : Env α) (cosmo : ccl_cosmology α)
    (a : List α) (hp : errors_persist env) (init : List α × Int) (n : Nat)
    (hn : n ≤ a.length) :
    ∃ r, (List.range n).foldlM
        (fun (acc : List α × Int) i =>
          (a[i]?).map fun ai =>
            (acc.1 ++ [(compute_chi m env ai cosmo acc.2).1],
             (compute_chi m env ai cosmo acc.2).2))
        init = some r ∧
      (init.2 ≠ 0 → r.2 ≠ 0) ∧
      ∀ (i : Nat) (acc : List α × Int) (a_i : α), i < n →
        (List.range i).foldlM
          (fun (acc : List α × Int) i =>
            (a[i]?).map fun ai =>
              (acc.1 ++ [(compute_chi m env ai cosmo acc.2).1],
               (compute_chi m env ai cosmo acc.2).2))
          init = some acc →
        a[i]? = some a_i → (compute_chi m env a_i cosmo acc.2).2 ≠ 0 → r.2 ≠ 0 := by
  induction n with
  | zero =>
    exact ⟨init, rfl, fun h => h, fun i _ _ hi => absurd hi (Nat.not_lt_zero i)⟩
  | succ k ih =>
    obtain ⟨r1, h1, hinit, hrows⟩ := ih (Nat.le_of_succ_le hn)
    have hk : a[k]? = some a[k] := List.getElem?_eq_getElem hn
    refine ⟨(r1.1 ++ [(compute_chi m env a[k] cosmo r1.2).1],
      (compute_chi m env a[k] cosmo r1.2).2), ?_, ?_, ?_⟩
    · rw [List.range_succ, List.foldlM_append, h1]
      simp only [List.foldlM_cons, List.foldlM_nil, Option.bind_eq_bind, Option.some_bind, hk,
        Option.map_some']
      rfl
    · intro h0
      exact compute_chi_persist m env _ cosmo _ hp (hinit h0)
    · intro i acc a_i hi hacc hai hfail
      rcases Nat.lt_succ_iff_lt_or_eq.mp hi with hlt | heq
      · exact compute_chi_persist m env _ cosmo _ hp (hrows i acc a_i hlt hacc hai hfail)
      · subst heq
        rw [hk] at hai
        cases hai
        rw [h1] at hacc
        cases hacc
        exact hfail

/-- The loop of the inverse solve: with the chi grid in the array it runs to
its end, and its status is non-zero when it was on entry or when `a_of_chi`,
called on the warm start and the status the loop has reached, leaves a
non-zero status at some interior grid point. -/
theorem solve_inverse_loop_status (m : libm α) (env : Env α) (cosmo : ccl_cosmology α)
    (chi_a : List α) (hp : errors_persist env) (init : List α × α × Int) (n : Nat)
    (hn : n = 0 ∨ n < chi_a.length) :
    ∃ r, (List.range n).foldlM
        (fun (acc : List α × α × Int) k =>
          (chi_a[k + 1]?).map fun c =>
            ((acc.1.set (k + 1) (a_of_chi m env c cosmo acc.2.2 acc.2.1).1),
             (a_of_chi m env c cosmo acc.2.2 acc.2.1).1,
             (a_of_chi m env c cosmo acc.2.2 acc.2.1).2))
        init = some r ∧
      (init.2.2 ≠ 0 → r.2.2 ≠ 0) ∧
      ∀ (k : Nat) (acc : List α × α × Int) (x : α), k < n →
        (List.range k).foldlM
          (fun (acc : List α × α × Int) k =>
            (chi_a[k + 1]?).map fun c =>
              ((acc.1.set (k + 1) (a_of_chi m env c cosmo acc.2.2 acc.2.1).1),
               (a_of_chi m env c cosmo acc.2.2 acc.2.1).1,
               (a_of_chi m env c cosmo acc.2.2 acc.2.1).2))
          init = some acc →
        chi_a[k + 1]? = some x → (a_of_chi m env x cosmo acc.2.2 acc.2.1).2 ≠ 0 →
        r.2.2 ≠ 0 := by
  induction n with
  | zero =>
    exact ⟨init, rfl, fun h => h, fun i _ _ hi => absurd hi (Nat.not_lt_zero i)⟩
  | succ k ih =>
    have hk1 : k + 1 < chi_a.length := by
      rcases hn with h | h
      · cases h
      · exact h
    obtain ⟨r1, h1, hinit, hrows⟩ := ih (Or.inr (Nat.lt_of_succ_lt hk1))
    have hk : chi_a[k + 1]? = some chi_a[k + 1] := List.getElem?_eq_getElem hk1
    refine ⟨((r1.1.set (k + 1) (a_of_chi m env chi_a[k + 1] cosmo r1.2.2 r1.2.1).1),
      (a_of_chi m env chi_a[k + 1] cosmo r1.2.2 r1.2.1).1,
      (a_of_chi m env chi_a[k + 1] cosmo r1.2.2 r1.2.1).2), ?_, ?_, ?_⟩
    · rw [List.range_succ, List.foldlM_append, h1]
      simp only [List.foldlM_cons, List.foldlM_nil, Option.bind_eq_bind, Option.some_bind, hk,
        Option.map_some']
      rfl
    · intro h0
      exact a_of_chi_persist m env _ cosmo _ _ hp (hinit h0)
    · intro i acc x hi hacc hx hfail
      rcases Nat.lt_succ_iff_lt_or_eq.mp hi with hlt | heq
      · exact a_of_chi_persist m env _ cosmo _ _ hp (hrows i acc x hlt hacc hx hfail)
      · subst heq
        rw [hk] at hx
        cases hx
        rw [h1] at hacc
        cases hacc
        exact hfail

/-- A forward stage that ends with a non-zero status leaves the build without
a defined result: the code goes on to the sizing of the chi grid. -/
theorem distances_forward_failure [FloorRing α] (m : libm α) (env : Env α)
    (L : distances_locals α) (hs : L.status ≠ 0) :
    ((((((some L).bind (distances_init_chi env)).bind distances_boundaries).bind
      (distances_alloc_inverse env)).bind (distances_solve_inverse m env)).bind
      (distances_init_achi env)).map distances_install = none := by
  simp only [Option.some_bind, distances_init_chi, distances_boundaries,
    distances_alloc_inverse, if_pos hs, Option.none_bind, Option.map_none']

/-- Once the status is non-zero after the inverse solve the build returns
it. -/
theorem distances_after_solve_inverse (env : Env α)
    (L : distances_locals α) (hs : L.status ≠ 0) :
    ((some L).bind (distances_init_achi env)).map distances_install
      = some (L.cosmo, L.status) := by
  simp only [Option.some_bind, distances_init_achi, if_pos hs, Option.map_some',
    distances_install]

/-- The chi(a) stage ends with the integration error when `compute_chi`, on
the status the loop has reached, leaves a non-zero status at some grid
point. -/
theorem distances_fill_chi_integ (m : libm α) (env : Env α) (L : distances_locals α)
    (a : List α) (hp : errors_persist env) (hs : L.status = 0) (ha : L.a = some a)
    (hlen : L.na.toNat ≤ a.length)
    (hfail : ∃ (i : Nat) (acc : List α × Int) (a_i : α), i < L.na.toNat ∧
      chi_loop_state m env L a i = some acc ∧ a[i]? = some a_i ∧
      (compute_chi m env a_i L.cosmo acc.2).2 ≠ 0) :
    ∃ L2, distances_fill_chi m env L = some L2 ∧ L2.status = CCL_ERROR_INTEG := by
  obtain ⟨i, acc, a_i, hi, hacc, hai, hf⟩ := hfail
  obtain ⟨r, hr, -, hrows⟩ := fill_chi_loop_status m env L.cosmo a hp ([], L.status) _ hlen
  have hr2 : r.2 ≠ 0 := hrows i acc a_i hi hacc hai hf
  unfold distances_fill_chi
  rw [if_neg (by rw [hs]; exact fun h => h rfl), ha, Option.some_bind, hr, Option.map_some',
    if_pos hr2]
  exact ⟨_, rfl, rfl⟩

/-- The inverse stage ends with the root-finding error when `a_of_chi`, on the
warm start and the status the loop has reached, leaves a non-zero status at
some interior point of the chi grid. -/
theorem distances_solve_inverse_root (m : libm α) (env : Env α) (L : distances_locals α)
    (a chi_a : List α) (hp : errors_persist env) (hs : L.status = 0) (ha : L.a = some a)
    (hchi : L.chi_a = some chi_a) (hna : 0 < L.na) (hlen : L.na.toNat ≤ chi_a.length)
    (hfail : ∃ (k : Nat) (acc : List α × α × Int) (x : α), k < L.na.toNat - 2 ∧
      inverse_loop_state m env L a chi_a k = some acc ∧ chi_a[k + 1]? = some x ∧
      (a_of_chi m env x L.cosmo acc.2.2 acc.2.1).2 ≠ 0) :
    ∃ L2, distances_solve_inverse m env L = some L2 ∧ L2.status = CCL_ERROR_ROOT := by
  obtain ⟨k, acc, x, hk, hacc, hx, hf⟩ := hfail
  obtain ⟨r, hr, -, hrows⟩ := solve_inverse_loop_status m env L.cosmo chi_a hp
    ((a.set 0 L.a0).set (L.na.toNat - 1) L.af, L.a0, L.status) (L.na.toNat - 2)
    (Or.inr (by omega))
  have hr2 : r.2.2 ≠ 0 := hrows k acc x hk hacc hx hf
  unfold distances_solve_inverse
  rw [if_neg (by rw [hs]; exact fun h => h rfl), ha, Option.some_bind, hchi, Option.some_bind,
    if_neg (not_le.mpr hna), hr, Option.map_some', if_pos hr2]
  exact ⟨_, rfl, rfl⟩

/-- A failed chi(a) integration.  For collaborators that do not clear the
status, when the stages before the chi(a) integration end with status 0 and
the quadrature fails at a grid point on the status the loop has reached
there, the chi(a) stage sets `CCL_ERROR_INTEG`, and the build, which does not
return at that point, has no defined result. -/
theorem compute_distances_integ_undefined [FloorRing α] (m : libm α) (env : Env α)
    (cosmo : ccl_cosmology α) (status : Int) (L : distances_locals α) (a : List α)
    (hc : cosmo.computed_distances = false)
    (hmax : ¬ cosmo.spline_params.A_SPLINE_MAX > 1) (hp : errors_persist env)
    (hfwd : distances_before_chi m env cosmo status = some L) (hs : L.status = 0)
    (ha : L.a = some a) (hlen : L.na.toNat ≤ a.length)
    (hfail : ∃ (i : Nat) (acc : List α × Int) (a_i : α), i < L.na.toNat ∧
      chi_loop_state m env L a i = some acc ∧ a[i]? = some a_i ∧
      (env.gsl_integration_cquad
        (fun x t => (CDouble.val (chi_integrand m env L.cosmo x t).1,
                     (chi_integrand m env L.cosmo x t).2))
        a_i 1 0 L.cosmo.gsl_params.INTEGRATION_DISTANCE_EPSREL acc.2).1 ≠ GSL_SUCCESS) :
    (∃ L2, distances_fill_chi m env L = some L2 ∧ L2.status = CCL_ERROR_INTEG) ∧
    ccl_cosmology_compute_distances m env cosmo status = none := by
  obtain ⟨i, acc, a_i, hi, hacc, hai, hq⟩ := hfail
  obtain ⟨L2, hfill, hs2⟩ := distances_fill_chi_integ m env L a hp hs ha hlen
    ⟨i, acc, a_i, hi, hacc, hai, by
      rw [compute_chi_failure m env a_i L.cosmo acc.2 hq]
      decide⟩
  have hne : L2.status ≠ 0 := by
    rw [hs2]
    decide
  refine ⟨⟨L2, hfill, hs2⟩, ?_⟩
  unfold distances_before_chi at hfwd
  unfold ccl_cosmology_compute_distances
  rw [if_neg (by rw [hc]; decide), if_neg hmax, hfwd, Option.some_bind, hfill,
    distances_forward_failure m env L2 hne]

/-- A failed inverse solve.  For collaborators that do not clear the status,
when the stages before the inverse solve end with status 0 and the solve at
some interior point of the chi grid, on the warm start and the status the
loop has reached there, ends with a relative-step test other than
`GSL_SUCCESS`, the build ends with `CCL_ERROR_ROOT`, whatever the solves at
the other grid points do. -/
theorem compute_distances_root [FloorRing α] (m : libm α) (env : Env α)
    (cosmo : ccl_cosmology α) (status : Int) (L : distances_locals α) (a chi_a : List α)
    (hc : cosmo.computed_distances = false)
    (hmax : ¬ cosmo.spline_params.A_SPLINE_MAX > 1) (hp : errors_persist env)
    (hfwd : distances_before_inverse m env cosmo status = some L) (hs : L.status = 0)
    (ha : L.a = some a) (hchi : L.chi_a = some chi_a) (hna : 0 < L.na)
    (hlen : L.na.toNat ≤ chi_a.length)
    (hfail : ∃ (k : Nat) (acc : List α × α × Int) (x : α), k < L.na.toNat - 2 ∧
      inverse_loop_state m env L a chi_a k = some acc ∧ chi_a[k + 1]? = some x ∧ x ≠ 0 ∧
      a_of_chi_gslstatus m env x L.cosmo acc.2.2 acc.2.1 ≠ GSL_SUCCESS) :
    ∃ c, ccl_cosmology_compute_distances m env cosmo status = some (c, CCL_ERROR_ROOT) := by
  obtain ⟨k, acc, x, hk, hacc, hx, hx0, hg⟩ := hfail
  obtain ⟨L2, hsolve, hs2⟩ := distances_solve_inverse_root m env L a chi_a hp hs ha hchi
    hna hlen ⟨k, acc, x, hk, hacc, hx, a_of_chi_failure m env x L.cosmo _ _ hx0 hg⟩
  have hne : L2.status ≠ 0 := by
    rw [hs2]
    decide
  unfold distances_before_inverse distances_before_chi at hfwd
  unfold ccl_cosmology_compute_distances
  rw [if_neg (by rw [hc]; decide), if_neg hmax, hfwd, Option.some_bind, hsolve,
    distances_after_solve_inverse env L2 hne, hs2]
  exact ⟨_, rfl⟩

/-- Under `failing_quadrature_env` the stages before the chi(a) integration
succeed on the small-grid cosmology. -/
theorem failing_quadrature_before_chi :
    ∃ L, distances_before_chi libm_real failing_quadrature_env small_grid_cosmology 0
        = some L ∧
      L.status = 0 ∧ L.a = some [0.0001, 0.1, 1] ∧ L.na = 3 := by
  have e2 : (2 : ℤ).toNat = 2 := rfl
  have e3 : (3 : ℤ).toNat = 3 := rfl
  have r3 : List.range 3 = [0, 1, 2] := rfl
  have hmalloc : ∀ k n, (failing_quadrature_env : Env ℝ).malloc k n = true := fun _ _ => rfl
  have hlinlog : ∀ a b c d e, (failing_quadrature_env : Env ℝ).ccl_linlog_spacing a b c d e
      = some [a, b, c] := fun _ _ _ _ _ => rfl
  have hinit : ∀ x y n, (failing_quadrature_env : Env ℝ).gsl_spline_init x y n = 0 :=
    fun _ _ _ => rfl
  have hNA : (small_grid_cosmology : ccl_cosmology ℝ).spline_params.A_SPLINE_NA = 2 := rfl
  have hNLOG : (small_grid_cosmology : ccl_cosmology ℝ).spline_params.A_SPLINE_NLOG = 2 := rfl
  have hMINLOG : (small_grid_cosmology : ccl_cosmology ℝ).spline_params.A_SPLINE_MINLOG
      = 0.0001 := rfl
  have hMIN : (small_grid_cosmology : ccl_cosmology ℝ).spline_params.A_SPLINE_MIN = 0.1 := rfl
  have hMAX : (small_grid_cosmology : ccl_cosmology ℝ).spline_params.A_SPLINE_MAX = 1 := rfl
  unfold distances_before_chi
  have h1 : distances_check_grid
      (distances_alloc (failing_quadrature_env : Env ℝ) small_grid_cosmology 0)
      = some (distances_alloc failing_quadrature_env small_grid_cosmology 0) := by
    unfold distances_check_grid
    norm_num [distances_alloc, array_get, hmalloc, hlinlog, hNA, hNLOG, hMINLOG, hMAX, e2]
  rw [h1, Option.some_bind]
  unfold distances_fill_E
  norm_num [distances_alloc, array_get, hmalloc, hlinlog, hNA, hNLOG, hMINLOG, hMIN, hMAX, e2, e3,
    r3, List.foldlM, small_grid_status]
  unfold distances_init_E
  norm_num [hinit]

/-- Under `failing_root_env` the stages before the inverse solve succeed on
the small-grid cosmology, with the chi grid 0, 9.999, 19.998. -/
theorem failing_root_before_inverse :
    ∃ L, distances_before_inverse libm_real failing_root_env small_grid_cosmology 0
        = some L ∧
      L.status = 0 ∧ L.a = some [0, 0, 0] ∧
      L.chi_a = some [0, 9999 / 1000, 9999 / 500] ∧ L.na = 3 := by
  have e2 : (2 : ℤ).toNat = 2 := rfl
  have e3 : (3 : ℤ).toNat = 3 := rfl
  have r3 : List.range 3 = [0, 1, 2] := rfl
  have hmalloc : ∀ k n, (failing_root_env : Env ℝ).malloc k n = true := fun _ _ => rfl
  have hlinlog : ∀ a b c d e, (failing_root_env : Env ℝ).ccl_linlog_spacing a b c d e
      = some [a, b, c] := fun _ _ _ _ _ => rfl
  have hinit : ∀ x y n, (failing_root_env : Env ℝ).gsl_spline_init x y n = 0 :=
    fun _ _ _ => rfl
  have hcquad : ∀ f a b e1 e2 s, (failing_root_env : Env ℝ).gsl_integration_cquad f a b e1 e2 s
      = (0, 14 * (b - a), s) := fun _ _ _ _ _ _ => rfl
  have hind : (failing_root_env : Env ℝ).indeterminate = 0 := rfl
  have hNA : (small_grid_cosmology : ccl_cosmology ℝ).spline_params.A_SPLINE_NA = 2 := rfl
  have hNLOG : (small_grid_cosmology : ccl_cosmology ℝ).spline_params.A_SPLINE_NLOG = 2 := rfl
  have hMINLOG : (small_grid_cosmology : ccl_cosmology ℝ).spline_params.A_SPLINE_MINLOG
      = 0.0001 := rfl
  have hMIN : (small_grid_cosmology : ccl_cosmology ℝ).spline_params.A_SPLINE_MIN = 0.1 := rfl
  have hMAX : (small_grid_cosmology : ccl_cosmology ℝ).spline_params.A_SPLINE_MAX = 1 := rfl
  have hh : (small_grid_cosmology : ccl_cosmology ℝ).params.h = 0.7 := rfl
  have hlin : ∀ lo hi : ℝ, (failing_root_env : Env ℝ).ccl_linear_spacing lo hi 3
      = some [lo + (hi - lo) * 0 / 2, lo + (hi - lo) * 1 / 2, lo + (hi - lo) * 2 / 2] := by
    intro lo hi
    simp only [failing_root_env, working_env, e3, r3, List.map]
    norm_num
  unfold distances_before_inverse distances_before_chi
  have h1 : distances_check_grid
      (distances_alloc (failing_root_env : Env ℝ) small_grid_cosmology 0)
      = some (distances_alloc failing_root_env small_grid_cosmology 0) := by
    unfold distances_check_grid
    norm_num [distances_alloc, array_get, hmalloc, hlinlog, hNA, hNLOG, hMINLOG, hMAX, e2]
  rw [h1, Option.some_bind]
  unfold distances_fill_E
  norm_num [distances_alloc, array_get, hmalloc, hlinlog, hNA, hNLOG, hMINLOG, hMIN, hMAX, e2, e3,
    r3, List.foldlM, small_grid_status]
  unfold distances_init_E
  norm_num [hinit]
  unfold distances_fill_chi
  norm_num [e3, r3, List.foldlM, compute_chi, hcquad, GSL_SUCCESS, hh]
  unfold distances_init_chi
  norm_num [hinit]
  unfold distances_boundaries
  norm_num [array_get, e2]
  unfold distances_alloc_inverse
  norm_num [array_get, e2, e3, double_to_int, hmalloc, hlin, hind]
  rfl

/-- The collaborators of `failing_quadrature_env` do not clear the status. -/
theorem failing_quadrature_env_persist : errors_persist (failing_quadrature_env : Env α) :=
  ⟨fun _ _ _ _ _ h => h, fun _ _ _ _ _ _ _ h => h, fun _ _ _ _ h => h, fun _ _ _ _ h => h⟩

/-- The collaborators of `failing_root_env` do not clear the status. -/
theorem failing_root_env_persist : errors_persist (failing_root_env : Env α) :=
  ⟨fun _ _ _ _ _ h => h, fun _ _ _ _ _ _ _ h => h, fun _ _ _ _ h => h, fun _ _ _ _ h => h⟩

/-- C24: a failed chi(a) integration leaves the build without a result.
`compute_chi` returns the quadrature result divided by h.  On the small-grid
cosmology with a quadrature that fails, `compute_chi` sets
`CCL_ERROR_COMPUTECHI` at the first grid point and the chi(a) stage, entered
with status 0, sets `CCL_ERROR_INTEG`; the code then releases `E` and `chi`
and does not return, so `ccl_cosmology_compute_distances` has no defined
result.  With a forward stage that succeeds and a relative-step test that
fails at the interior grid point chi = 9.999 the build does return, with
`CCL_ERROR_ROOT`. -/
theorem C24_integration_failure_has_no_result :
    (∀ (env : Env ℝ) (a : ℝ) (s : Int),
      (compute_chi libm_real env a small_grid_cosmology s).1 =
        (env.gsl_integration_cquad
          (fun x t => (CDouble.val (chi_integrand libm_real env small_grid_cosmology x t).1,
                       (chi_integrand libm_real env small_grid_cosmology x t).2))
          a 1 0 (small_grid_cosmology : ccl_cosmology ℝ).gsl_params.INTEGRATION_DISTANCE_EPSREL
          s).2.1 / (small_grid_cosmology : ccl_cosmology ℝ).params.h) ∧
    (compute_chi libm_real failing_quadrature_env 0.0001 small_grid_cosmology 0).2
      = CCL_ERROR_COMPUTECHI ∧
    (∃ L L2, distances_before_chi libm_real failing_quadrature_env small_grid_cosmology 0
        = some L ∧
      L.status = 0 ∧ L.a = some [0.0001, 0.1, 1] ∧
      distances_fill_chi libm_real failing_quadrature_env L = some L2 ∧
      L2.status = CCL_ERROR_INTEG) ∧
    ccl_cosmology_compute_distances libm_real failing_quadrature_env small_grid_cosmology 0
      = none ∧
    (∃ c, ccl_cosmology_compute_distances libm_real failing_root_env
      small_grid_cosmology 0 = some (c, CCL_ERROR_ROOT)) := by
  have hmax : ¬ (small_grid_cosmology : ccl_cosmology ℝ).spline_params.A_SPLINE_MAX > 1 := by
    simp only [small_grid_cosmology]
    norm_num
  have hq : ∀ F a b e1 e2 s,
      ((failing_quadrature_env : Env ℝ).gsl_integration_cquad F a b e1 e2 s).1
        ≠ GSL_SUCCESS := fun _ _ _ _ _ _ => (by decide : (-1 : Int) ≠ 0)
  refine ⟨fun _ _ _ => rfl, compute_chi_failure _ _ _ _ _ (hq _ _ _ _ _ _), ?_, ?_, ?_⟩
  · obtain ⟨L, hL, hs, ha, hna⟩ := failing_quadrature_before_chi
    obtain ⟨L2, hfill, hs2⟩ := (compute_distances_integ_undefined libm_real
      failing_quadrature_env small_grid_cosmology 0 L _ rfl hmax
      failing_quadrature_env_persist hL hs ha (by rw [hna]; decide)
      ⟨0, ([], L.status), 0.0001, by rw [hna]; decide, rfl, rfl, hq _ _ _ _ _ _⟩).1
    exact ⟨L, L2, hL, hs, ha, hfill, hs2⟩
  · obtain ⟨L, hL, hs, ha, hna⟩ := failing_quadrature_before_chi
    exact (compute_distances_integ_undefined libm_real
      failing_quadrature_env small_grid_cosmology 0 L _ rfl hmax
      failing_quadrature_env_persist hL hs ha (by rw [hna]; decide)
      ⟨0, ([], L.status), 0.0001, by rw [hna]; decide, rfl, rfl, hq _ _ _ _ _ _⟩).2
  · obtain ⟨L, hL, hs, ha, hchi, hna⟩ := failing_root_before_inverse
    refine compute_distances_root libm_real failing_root_env small_grid_cosmology 0 L _ _
      rfl hmax failing_root_env_persist hL hs ha hchi (by rw [hna]; decide)
      (by rw [hna]; decide)
      ⟨0, (([0, 0, 0] : List ℝ).set 0 L.a0 |>.set (L.na.toNat - 1) L.af, L.a0, L.status),
        9999 / 1000, by rw [hna]; decide, rfl, rfl, by norm_num, ?_⟩
    unfold a_of_chi_gslstatus
    unfold a_of_chi_loop
    have htest : ∀ x y e1 e2, (failing_root_env : Env ℝ).gsl_root_test_delta x y e1 e2 = -1 :=
      fun _ _ _ _ => rfl
    simp only [htest]
    rw [if_neg (fun h => absurd h.1 (by decide))]
    exact (by decide : (-1 : Int) ≠ 0)

/-! ## Theorems: the distance integral over the reals -/

/-- A loop with `break` that meets no index satisfying its test does not
break. -/
theorem first_index_none (p : Nat → Bool) (fuel : Nat) :
    ∀ i, (∀ l, i ≤ l → l < i + fuel → p l = false) → first_index p i fuel = none := by
  induction fuel with
  | zero => intro i _; rfl
  | succ k ih =>
    intro i h
    unfold first_index
    rw [h i (le_refl _) (by omega)]
    simp only [Bool.false_eq_true, if_false]
    exact ih (i + 1) (fun l h1 h2 => h l (by omega) (by omega))

/-- A loop with `break` stops at the first index that satisfies its test. -/
theorem first_index_some (p : Nat → Bool) (fuel : Nat) :
    ∀ i j, i ≤ j → j < i + fuel → p j = true → (∀ l, i ≤ l → l < j → p l = false) →
      first_index p i fuel = some j := by
  induction fuel with
  | zero => intro i j h1 h2; omega
  | succ k ih =>
    intro i j h1 h2 hj hl
    unfold first_index
    rcases Nat.eq_or_lt_of_le h1 with heq | hlt
    · subst heq
      rw [hj]
      simp
    · rw [hl i (le_refl _) hlt]
      simp only [Bool.false_eq_true, if_false]
      exact ih (i + 1) j hlt (by omega) hj (fun l h3 h4 => hl l (by omega) h4)

/-- The interpolation loop of the back-fill over a list of distinct indices
other than 0: the array keeps its length and its entry 0, an entry at a listed
index that holds -1 receives the interpolated value, every other entry is
left as it was. -/
theorem backfill_fold (f : Nat → α → α) (L : List Nat) :
    ∀ v : List α, L.Nodup → 0 ∉ L →
      (L.foldl (fun v i => if v.getD i 0 = -1 then v.set i (f i (v.getD 0 0)) else v) v).length
        = v.length ∧
      ∀ i, (L.foldl (fun v i => if v.getD i 0 = -1 then v.set i (f i (v.getD 0 0)) else v)
          v).getD i 0
        = if i ∈ L ∧ v.getD i 0 = -1 then f i (v.getD 0 0) else v.getD i 0 := by
  induction L with
  | nil =>
    intro v _ _
    simp
  | cons j L2 ih =>
    intro v hnd h0
    have hj0 : j ≠ 0 := fun h => h0 (by rw [h]; exact List.mem_cons_self _ _)
    have hjL : j ∉ L2 := (List.nodup_cons.mp hnd).1
    have h0L : 0 ∉ L2 := fun h => h0 (List.mem_cons_of_mem _ h)
    obtain ⟨hl, hv⟩ := ih (if v.getD j 0 = -1 then v.set j (f j (v.getD 0 0)) else v)
      (List.nodup_cons.mp hnd).2 h0L
    rw [List.foldl_cons]
    have hlen : (if v.getD j 0 = -1 then v.set j (f j (v.getD 0 0)) else v).length
        = v.length := by
      split_ifs <;> simp
    have hzero : (if v.getD j 0 = -1 then v.set j (f j (v.getD 0 0)) else v).getD 0 0
        = v.getD 0 0 := by
      split_ifs
      · simp only [List.getD_eq_getElem?_getD, List.getElem?_set_ne hj0]
      · rfl
    have hother : ∀ i, i ≠ j →
        (if v.getD j 0 = -1 then v.set j (f j (v.getD 0 0)) else v).getD i 0 = v.getD i 0 := by
      intro i hij
      split_ifs
      · simp only [List.getD_eq_getElem?_getD, List.getElem?_set_ne (Ne.symm hij)]
      · rfl
    have hself : (if v.getD j 0 = -1 then v.set j (f j (v.getD 0 0)) else v).getD j 0
        = if v.getD j 0 = -1 then f j (v.getD 0 0) else v.getD j 0 := by
      by_cases hm : v.getD j 0 = -1
      · simp only [if_pos hm]
        have hjl : j < v.length := by
          by_contra hge
          rw [List.getD_eq_default _ _ (not_lt.mp hge)] at hm
          have : (0 : α) < 0 := by
            have h1 : (-1 : α) < 0 := by norm_num
            rw [← hm] at h1
            exact h1
          exact lt_irrefl _ this
        simp only [List.getD_eq_getElem?_getD, List.getElem?_set_self hjl, Option.getD_some]
      · simp only [if_neg hm]
    refine ⟨by rw [hl, hlen], fun i => ?_⟩
    rw [hv i, hzero]
    by_cases hij : i = j
    · subst hij
      rw [hself]
      simp only [hjL, false_and, if_false, List.mem_cons, true_or, true_and]
    · rw [hother i hij]
      simp only [List.mem_cons, hij, false_or]

/-- The back-fill on results whose entries that are -1 are exactly the first
k, with k below the length: status 0, the same length, and entry i is the
floor 1e-6 for i = 0 < k, the interpolated value for 0 < i < k, and the entry
of `vals` for i >= k. -/
theorem halofit_backfill_prefix (a_vec vals : List α) (k : Nat)
    (hlen : a_vec.length = vals.length) (hk : k < vals.length)
    (hgrid : ∀ i, i < vals.length → a_vec.getD i 0 ≠ -1)
    (hbad : ∀ i, i < k → vals.getD i 0 = -1)
    (hgood : ∀ i, k ≤ i → i < vals.length → vals.getD i 0 ≠ -1) :
    ∃ out : List α, halofit_backfill a_vec vals vals.length 0 = some (out, 0) ∧
      out.length = vals.length ∧
      ∀ i, i < vals.length → out.getD i 0 =
        if i < k then
          (if i = 0 then 1e-6
           else (a_vec.getD i 0 - a_vec.getD 0 0) / (a_vec.getD k 0 - a_vec.getD 0 0)
                  * vals.getD k 0 +
                (1 - (a_vec.getD i 0 - a_vec.getD 0 0) / (a_vec.getD k 0 - a_vec.getD 0 0))
                  * 1e-6)
        else vals.getD i 0 := by
  have hn : ((vals.length : Int)).toNat = vals.length := Int.toNat_natCast _
  have hguard : ¬ ((vals.length : Int) ≤ 0 ∨ a_vec.length < ((vals.length : Int)).toNat ∨
      vals.length < ((vals.length : Int)).toNat) := by
    rw [hn, hlen]
    intro h
    rcases h with h | h | h
    · have : (0 : Int) < (vals.length : Int) := by exact_mod_cast (Nat.zero_lt_of_lt hk)
      omega
    · exact lt_irrefl _ h
    · exact lt_irrefl _ h
  have hlast : vals.getD (vals.length - 1) 0 ≠ -1 :=
    hgood (vals.length - 1) (by omega) (by omega)
  unfold halofit_backfill
  rw [if_neg hguard]
  simp only [hn, if_neg hlast, if_true]
  rcases Nat.eq_zero_or_pos k with hk0 | hkpos
  · subst hk0
    have hfi : first_index (fun i => decide (vals.getD i 0 = -1)) 0 vals.length = none := by
      apply first_index_none
      intro l _ hl
      simp only [decide_eq_false_iff_not]
      exact hgood l (Nat.zero_le _) (by omega)
    simp only [hfi, ne_eq, not_true_eq_false, if_false]
    exact ⟨vals, rfl, rfl, fun i _ => by simp⟩
  · have hfi : first_index (fun i => decide (vals.getD i 0 = -1)) 0 vals.length = some 0 := by
      apply first_index_some _ _ 0 0 (le_refl _) (by omega)
      · simp only [decide_eq_true_eq]
        exact hbad 0 hkpos
      · intro l h1 h2
        omega
    have hfv : first_index (fun i => decide (vals.getD i 0 ≠ -1)) 1 (vals.length - 1)
        = some k := by
      apply first_index_some _ _ 1 k hkpos (by omega)
      · simp only [decide_eq_true_eq]
        exact hgood k (le_refl _) hk
      · intro l h1 h2
        simp only [decide_eq_false_iff_not, not_not]
        exact hbad l h2
    simp only [hfi, hfv, if_pos (hgrid 0 (by omega))]
    have hnd : (List.range' 1 (vals.length - 2)).Nodup := List.nodup_range' _ _
    have h0 : 0 ∉ List.range' 1 (vals.length - 2) := by
      intro h
      have := (List.mem_range'_1.mp h).1
      omega
    obtain ⟨hl, hv⟩ := backfill_fold
      (fun i v0 => (a_vec.getD i 0 - a_vec.getD 0 0) / (a_vec.getD k 0 - a_vec.getD 0 0)
          * vals.getD k 0 +
        (1 - (a_vec.getD i 0 - a_vec.getD 0 0) / (a_vec.getD k 0 - a_vec.getD 0 0)) * v0)
      (List.range' 1 (vals.length - 2)) (vals.set 0 1e-6) hnd h0
    have hset0 : (vals.set 0 1e-6).getD 0 0 = (1e-6 : α) := by
      simp only [List.getD_eq_getElem?_getD, List.getElem?_set_self (Nat.zero_lt_of_lt hk),
        Option.getD_some]
    have hseti : ∀ i, i ≠ 0 → (vals.set 0 1e-6).getD i 0 = vals.getD i 0 := by
      intro i hi
      simp only [List.getD_eq_getElem?_getD, List.getElem?_set_ne (Ne.symm hi)]
    refine ⟨_, rfl, by rw [hl, List.length_set], ?_⟩
    intro i hi
    rw [hv i, hset0]
    by_cases hi0 : i = 0
    · subst hi0
      rw [if_neg (fun h => h0 h.1), hset0, if_pos hkpos, if_pos rfl]
    · rw [hseti i hi0]
      by_cases hik : i < k
      · have hmem : i ∈ List.range' 1 (vals.length - 2) := by
          apply List.mem_range'_1.mpr
          omega
        rw [if_pos ⟨hmem, hbad i hik⟩, if_pos hik, if_neg hi0]
      · rw [if_neg (fun h => hgood i (not_lt.mp hik) hi h.2), if_neg hik]

/-- A weighted mean with a weight in [0, 1] lies between its two ends. -/
theorem interp_between (w lo hi : α) (hw0 : 0 ≤ w) (hw1 : w ≤ 1) (h : lo ≤ hi) :
    lo ≤ w * hi + (1 - w) * lo ∧ w * hi + (1 - w) * lo ≤ hi := by
  constructor
  · nlinarith [mul_nonneg hw0 (sub_nonneg.mpr h)]
  · nlinarith [mul_nonneg (sub_nonneg.mpr hw1) (sub_nonneg.mpr h)]

/-- An array read that succeeds gives the entry that `getD` gives. -/
theorem getD_of_getElem? {β : Type} (l : List β) (i : Nat) (v d : β) (h : l[i]? = some v) :
    l.getD i d = v := by
  rw [List.getD_eq_getElem?_getD, h, Option.getD_some]

/-- An array read inside the array gives the entry that `getD` gives. -/
theorem getElem?_eq_getD {β : Type} (l : List β) (i : Nat) (d : β) (h : i < l.length) :
    l[i]? = some (l.getD i d) := by
  rw [List.getD_eq_getElem?_getD, List.getElem?_eq_getElem h, Option.getD_some]

/-- When the last result is -1 the back-fill sets `CCL_ERROR_ROOT` and fills
nothing. -/
theorem halofit_backfill_last_invalid (a_vec vals : List α) (s : Int)
    (hlen : a_vec.length = vals.length) (hlast : vals.getLast? = some (-1)) :
    halofit_backfill a_vec vals vals.length s = some (vals, CCL_ERROR_ROOT) := by
  have hn : ((vals.length : Int)).toNat = vals.length := Int.toNat_natCast _
  have hpos : 0 < vals.length := by
    rcases Nat.eq_zero_or_pos vals.length with h | h
    · rw [List.length_eq_zero.mp h] at hlast
      simp at hlast
    · exact h
  have hguard : ¬ ((vals.length : Int) ≤ 0 ∨ a_vec.length < ((vals.length : Int)).toNat ∨
      vals.length < ((vals.length : Int)).toNat) := by
    rw [hn, hlen]
    intro h
    rcases h with h | h | h
    · have : (0 : Int) < (vals.length : Int) := by exact_mod_cast hpos
      omega
    · exact lt_irrefl _ h
    · exact lt_irrefl _ h
  have hD : vals.getD (vals.length - 1) 0 = -1 := by
    apply getD_of_getElem?
    rw [← List.getLast?_eq_getElem?]
    exact hlast
  unfold halofit_backfill
  rw [if_neg hguard]
  simp only [hn, if_pos hD]
  rw [if_neg (by decide)]

/-- C27 (as amended): the halofit back-fill.  For a strictly increasing grid
of positive scale factors and results of `get_rsigma` whose entries equal to
-1 are exactly the first k, k below the number of entries, the others lying in
[1e-2, 1e2]: the back-fill ends with status 0 and an array of the same length
in which no entry is -1; the valid entries are left as they were; for k > 0
entry 0 is the floor 1e-6 and every entry at an index 0 < i < k is the linear
interpolation in a between 1e-6 at the first grid point and the first valid
value at its grid point, hence lies between 1e-6 and that value.  Whenever the
last entry is -1 the status is `CCL_ERROR_ROOT` and nothing is filled. -/
theorem C27_halofit_backfill (a_vec vals : List α) (k : Nat)
    (hlen : a_vec.length = vals.length) (hk : k < vals.length)
    (hsorted : a_vec.Sorted (· < ·)) (hpos : ∀ x ∈ a_vec, 0 < x)
    (hbad : ∀ i, i < k → vals[i]? = some (-1))
    (hgood : ∀ (i : Nat) (v : α), k ≤ i → vals[i]? = some v → 1e-2 ≤ v ∧ v ≤ 1e2) :
    (∃ out : List α, halofit_backfill a_vec vals vals.length 0 = some (out, 0) ∧
      out.length = vals.length ∧
      (∀ v ∈ out, v ≠ -1) ∧
      (∀ (i : Nat) (v : α), k ≤ i → vals[i]? = some v → out[i]? = some v) ∧
      (0 < k → out[0]? = some (1e-6 : α)) ∧
      (∀ (i : Nat) (a_0 a_i a_k v_k : α), 0 < i → i < k →
        a_vec[0]? = some a_0 → a_vec[i]? = some a_i → a_vec[k]? = some a_k →
        vals[k]? = some v_k →
        out[i]? = some ((a_i - a_0) / (a_k - a_0) * v_k +
          (1 - (a_i - a_0) / (a_k - a_0)) * 1e-6) ∧
        1e-6 ≤ (a_i - a_0) / (a_k - a_0) * v_k + (1 - (a_i - a_0) / (a_k - a_0)) * 1e-6 ∧
        (a_i - a_0) / (a_k - a_0) * v_k + (1 - (a_i - a_0) / (a_k - a_0)) * 1e-6 ≤ v_k)) ∧
    (∀ (a2 v2 : List α) (s : Int), a2.length = v2.length → v2.getLast? = some (-1) →
      halofit_backfill a2 v2 v2.length s = some (v2, CCL_ERROR_ROOT)) := by
  refine ⟨?_, fun a2 v2 s h1 h2 => halofit_backfill_last_invalid a2 v2 s h1 h2⟩
  have hneg : (-1 : α) < 0 := by norm_num
  have hfloor : (0 : α) < 1e-6 := by norm_num
  have hfl : (1e-6 : α) ≤ 1e-2 := by norm_num
  have hgoodD : ∀ i, k ≤ i → i < vals.length →
      1e-2 ≤ vals.getD i 0 ∧ vals.getD i 0 ≤ 1e2 :=
    fun i hki hi => hgood i _ hki (getElem?_eq_getD vals i 0 hi)
  have hsortD : ∀ i j, i < j → j < vals.length → a_vec.getD i 0 < a_vec.getD j 0 := by
    intro i j hij hj
    have hj2 : j < a_vec.length := by rw [hlen]; exact hj
    have hi2 : i < a_vec.length := lt_trans hij hj2
    have := (List.pairwise_iff_getElem.mp hsorted) i j hi2 hj2 hij
    rw [List.getD_eq_getElem _ _ hi2, List.getD_eq_getElem _ _ hj2]
    exact this
  have hgridD : ∀ i, i < vals.length → a_vec.getD i 0 ≠ -1 := by
    intro i hi
    have hi2 : i < a_vec.length := by rw [hlen]; exact hi
    rw [List.getD_eq_getElem _ _ hi2]
    exact ne_of_gt (lt_trans hneg (hpos _ (List.getElem_mem _)))
  have hinterp : ∀ i, 0 < i → i < k →
      1e-6 ≤ (a_vec.getD i 0 - a_vec.getD 0 0) / (a_vec.getD k 0 - a_vec.getD 0 0)
          * vals.getD k 0 +
        (1 - (a_vec.getD i 0 - a_vec.getD 0 0) / (a_vec.getD k 0 - a_vec.getD 0 0)) * 1e-6 ∧
      (a_vec.getD i 0 - a_vec.getD 0 0) / (a_vec.getD k 0 - a_vec.getD 0 0)
          * vals.getD k 0 +
        (1 - (a_vec.getD i 0 - a_vec.getD 0 0) / (a_vec.getD k 0 - a_vec.getD 0 0)) * 1e-6
        ≤ vals.getD k 0 := by
    intro i hi0 hik
    have h1 := hsortD 0 i hi0 (lt_trans hik hk)
    have h2 := hsortD i k hik hk
    have hden : 0 < a_vec.getD k 0 - a_vec.getD 0 0 := by linarith
    exact interp_between _ _ _ (div_nonneg (by linarith) hden.le)
      ((div_le_one hden).mpr (by linarith)) (le_trans hfl (hgoodD k (le_refl _) hk).1)
  obtain ⟨out, hout, hl, hv⟩ := halofit_backfill_prefix a_vec vals k hlen hk hgridD
    (fun i hi => getD_of_getElem? vals i _ 0 (hbad i hi))
    (fun i hki hi => ne_of_gt (lt_trans hneg
      (lt_of_lt_of_le (by norm_num) (hgoodD i hki hi).1)))
  refine ⟨out, hout, hl, ?_, ?_, ?_, ?_⟩
  · intro v hvm
    obtain ⟨i, hi, hvi⟩ := List.mem_iff_getElem.mp hvm
    have hi2 : i < vals.length := by rw [← hl]; exact hi
    have hval := hv i hi2
    rw [List.getD_eq_getElem _ _ hi, hvi] at hval
    rw [hval]
    by_cases hik : i < k
    · rw [if_pos hik]
      by_cases hi0 : i = 0
      · rw [if_pos hi0]
        exact ne_of_gt (lt_trans hneg hfloor)
      · rw [if_neg hi0]
        exact ne_of_gt (lt_of_lt_of_le (lt_trans hneg hfloor)
          (hinterp i (Nat.pos_of_ne_zero hi0) hik).1)
    · rw [if_neg hik]
      exact ne_of_gt (lt_trans hneg
        (lt_of_lt_of_le (by norm_num) (hgoodD i (not_lt.mp hik) hi2).1))
  · intro i v hki hvi
    have hi : i < vals.length := (List.getElem?_eq_some.mp hvi).1
    rw [getElem?_eq_getD out i 0 (by rw [hl]; exact hi), hv i hi, if_neg (not_lt.mpr hki),
      getD_of_getElem? vals i v 0 hvi]
  · intro hk0
    rw [getElem?_eq_getD out 0 0 (by rw [hl]; omega), hv 0 (by omega), if_pos hk0, if_pos rfl]
  · intro i a_0 a_i a_k v_k hi0 hik h0 hi hak hvk
    have hb := hinterp i hi0 hik
    rw [getD_of_getElem? a_vec 0 a_0 0 h0, getD_of_getElem? a_vec i a_i 0 hi,
      getD_of_getElem? a_vec k a_k 0 hak, getD_of_getElem? vals k v_k 0 hvk] at hb
    refine ⟨?_, hb.1, hb.2⟩
    rw [getElem?_eq_getD out i 0 (by rw [hl]; omega), hv i (by omega), if_pos hik,
      if_neg (Nat.pos_iff_ne_zero.mp hi0), getD_of_getElem? a_vec 0 a_0 0 h0,
      getD_of_getElem? a_vec i a_i 0 hi, getD_of_getElem? a_vec k a_k 0 hak,
      getD_of_getElem? vals k v_k 0 hvk]

/-- C27 on the grid 1/4, 1/2, 3/4, 1 with the results -1, -1, 1/2, 7/10: the
first two entries are filled with the floor and with the interpolated value
0.2500005, the others are kept. -/
theorem C27_halofit_backfill_witness :
    ([1 / 4, 1 / 2, 3 / 4, 1] : List ℝ).length = ([-1, -1, 1 / 2, 7 / 10] : List ℝ).length ∧
    2 < ([-1, -1, 1 / 2, 7 / 10] : List ℝ).length ∧
    ([1 / 4, 1 / 2, 3 / 4, 1] : List ℝ).Sorted (· < ·) ∧
    ∃ out : List ℝ,
      halofit_backfill ([1 / 4, 1 / 2, 3 / 4, 1] : List ℝ) [-1, -1, 1 / 2, 7 / 10] 4 0
        = some (out, 0) ∧
      out[0]? = some (1e-6 : ℝ) ∧ out[1]? = some (0.2500005 : ℝ) ∧
      out[2]? = some (1 / 2 : ℝ) ∧ out[3]? = some (7 / 10 : ℝ) := by
  have hsorted : ([1 / 4, 1 / 2, 3 / 4, 1] : List ℝ).Sorted (· < ·) := by
    simp only [List.Sorted, List.pairwise_cons, List.mem_cons, List.mem_singleton,
      List.not_mem_nil, forall_eq_or_imp, forall_eq, IsEmpty.forall_iff, implies_true,
      List.Pairwise.nil, and_true]
    norm_num
  have hpos : ∀ x ∈ ([1 / 4, 1 / 2, 3 / 4, 1] : List ℝ), 0 < x := by
    intro x hx
    simp only [List.mem_cons, List.mem_singleton, List.not_mem_nil, or_false] at hx
    rcases hx with h | h | h | h <;> rw [h] <;> norm_num
  have hbad : ∀ i, i < 2 → ([-1, -1, 1 / 2, 7 / 10] : List ℝ)[i]? = some (-1 : ℝ) := by
    intro i hi
    interval_cases i <;> rfl
  have hgood : ∀ (i : Nat) (v : ℝ), 2 ≤ i → ([-1, -1, 1 / 2, 7 / 10] : List ℝ)[i]? = some v →
      1e-2 ≤ v ∧ v ≤ 1e2 := by
    intro i v hi hv
    obtain _ | _ | _ | _ | i := i
    · omega
    · omega
    · simp only [List.getElem?_cons_succ, List.getElem?_cons_zero, Option.some.injEq] at hv
      rw [← hv]
      norm_num
    · simp only [List.getElem?_cons_succ, List.getElem?_cons_zero, Option.some.injEq] at hv
      rw [← hv]
      norm_num
    · simp at hv
  obtain ⟨out, hout, -, -, hkeep, h0, hfill⟩ :=
    (C27_halofit_backfill ([1 / 4, 1 / 2, 3 / 4, 1] : List ℝ) [-1, -1, 1 / 2, 7 / 10] 2
      rfl (by decide) hsorted hpos hbad hgood).1
  refine ⟨rfl, by decide, hsorted, out, hout, h0 (by decide), ?_, hkeep 2 _ (le_refl _) rfl,
    hkeep 3 _ (by decide) rfl⟩
  have h1 := (hfill 1 (1 / 4) (1 / 2) (3 / 4) (1 / 2) (by decide) (by decide) rfl rfl rfl rfl).1
  rw [h1]
  congr 1
  norm_num

/-- C27 as stated fails.  On the grid 1/4, 1/2, 1 with the results
1/2, -1, 7/10 the valid first entry 1/2 is overwritten by the floor 1e-6.  On
the grid 1/4, 1/2, 3/4, 1 with the results -1, 1/2, -1, 7/10 the entry at
index 2 is filled with 0.999999, above the first valid value 1/2. -/
theorem C27_counterexample :
    halofit_backfill ([1 / 4, 1 / 2, 1] : List ℝ) [1 / 2, -1, 7 / 10] 3 0
      = some ([1e-6, 1e-6, 7 / 10], 0) ∧
    ((1e-2 : ℝ) ≤ 1 / 2 ∧ (1 / 2 : ℝ) ≤ 1e2 ∧ (1e-6 : ℝ) ≠ 1 / 2) ∧
    halofit_backfill ([1 / 4, 1 / 2, 3 / 4, 1] : List ℝ) [-1, 1 / 2, -1, 7 / 10] 4 0
      = some ([1e-6, 1 / 2, 999999 / 1000000, 7 / 10], 0) ∧
    (1 / 2 : ℝ) < 999999 / 1000000 := by
  have e3 : (3 : ℤ).toNat = 3 := rfl
  have e4 : (4 : ℤ).toNat = 4 := rfl
  refine ⟨?_, by norm_num, ?_, by norm_num⟩
  · unfold halofit_backfill
    norm_num [e3, first_index, List.range', List.getD]
  · unfold halofit_backfill
    norm_num [e4, first_index, List.range', List.getD]

end CCL
